import Mathlib

/-!
Shallow embedding of the per-client DSP engine of openwebrx
(src/owrx/dsp.py, with the mode catalog of src/owrx/modes.py), and proofs
about its documented behaviour.

Modelling conventions:
* Python objects become Lean records; object attributes become record fields.
* Demodulator chains (classes under csdr/chain/, outside src/) are represented
  by records of capability data, mirroring the `isinstance` capability checks
  that dsp.py performs (FixedIfSampleRateChain, FixedAudioRateChain, HdAudio,
  SupportsSquelch via `supportsSquelch()`, DialFrequencyReceiver,
  DeemphasisTauChain, RdsChain, MetaProvider, SlotFilterChain,
  AudioServiceSelector, SecondarySelectorChain, `isSecondaryFftShown()`).
  Values pushed into a demodulator object (sample rate, dial frequency, tau,
  readers, writers) are kept in side fields of the chain state, reset when a
  fresh demodulator object is adopted.
* Python float-typed values (squelch level, overlap factor, tau, band edges)
  are modelled as rationals; buffer and writer objects are modelled by
  numeric identities, with a counter providing freshness of new buffers.
* Python `is` identity tests are modelled as structural equality (identical
  objects are structurally equal; demodulator records are immutable here, so
  the model never confuses two live distinct-but-equal objects).
* Exceptions are modelled by an explicit error component: an operation that
  can raise returns the partially mutated state it leaves behind together
  with an optional exception, exactly where the Python code would raise.
-/

/-- Sample formats of pycsdr (`Format`), as used by dsp.py. -/
inductive SFormat
  | complexFloat
  | float
  | short
  | char
deriving DecidableEq, Repr

/-- Exception kinds raised or caught in dsp.py. `valueErr` stands for the
builtin ValueError, `attributeErr` for AttributeError (attribute access on
None), `demodErr` for csdr.chain.demodulator.DemodulatorError.
Modelled from the spec: DemodulatorError is declared outside src/; per the
spec's error taxonomy (§7) it is a distinct error kind, so a plain
ValueError is not an instance of it and is not caught by
`except DemodulatorError`. -/
inductive PyErr
  | valueErr
  | attributeErr
  | demodErr
deriving DecidableEq, Repr

/-- Capability record of a primary demodulator (BaseDemodulatorChain).
Each field mirrors one of the runtime type/capability checks dsp.py makes
on `self.demodulator`. -/
structure Demod where
  fixedIfSampleRate : Option Nat
  fixedAudioRate : Option Nat
  hdAudio : Bool
  supportsSquelch : Bool
  dialFrequencyReceiver : Bool
  deemphasisTau : Bool
  rds : Bool
  metaProvider : Bool
  slotFilter : Bool
  audioServiceSelector : Bool
  outputFormat : SFormat
deriving DecidableEq, Repr

/-- Capability record of a secondary demodulator (SecondaryDemodulator).
`secondarySelector = some bw` mirrors `isinstance(_, SecondarySelectorChain)`
together with `getBandwidth() = bw`. -/
structure Demod2 where
  fixedAudioRate : Option Nat
  supportsSquelch : Bool
  dialFrequencyReceiver : Bool
  secondarySelector : Option Nat
  secondaryFftShown : Bool
  inputFormat : SFormat
deriving DecidableEq, Repr

/-- A pycsdr Buffer: identity plus sample format. -/
structure Buf where
  id : Nat
  format : SFormat
deriving DecidableEq, Repr

/-- State of the Selector stage (csdr.chain.selector.Selector, outside src/).
Modelled from the spec: §4.2 describes the Selector as holding an input
rate, an output rate, a frequency offset, bandpass edges, a squelch level
and a power writer; its setters store the given value. -/
structure SelectorState where
  inputRate : Nat
  outputRate : Nat
  squelchLevel : ℚ
  frequencyOffset : Option ℤ
  lowCut : Option ℚ
  highCut : Option ℚ
  powerWriter : Option Nat
deriving DecidableEq, Repr

/-- State of the ClientAudioChain (csdr.chain.clientaudio, outside src/).
Modelled from the spec: §4.4 lists its input format, input rate, client
rate, compression and noise-reduction parameters; its setters store the
given value (the transient format rejection swallowed by dsp.py line 100
is resolved by the subsequent stage replacement, so the net effect of
`setFormat` is recorded directly). -/
structure ClientAudioState where
  format : SFormat
  inputRate : Nat
  clientRate : Nat
  compression : String
  nrEnabled : Bool
  nrThreshold : ℤ
deriving DecidableEq, Repr

/-- State of a secondary FFT chain (csdr.chain.fft.FftChain, outside src/).
Modelled from the spec: §4.3 gives its parameters (size, overlap factor,
fps, compression) plus sample rate, reader and writer. -/
structure FftChainState where
  sampleRate : Nat
  size : Nat
  overlapFactor : ℚ
  fps : Nat
  compression : String
  reader : Option Nat
  writer : Option Nat
deriving DecidableEq, Repr

/-- State of a SecondarySelector stage (csdr.chain.selector, outside src/).
Modelled from the spec: §4.4 step 5 constructs it from a sample rate and a
bandwidth and binds a reader, a frequency offset and a writer. -/
structure SecSelState where
  sampleRate : Nat
  bandwidth : Nat
  reader : Option Nat
  frequencyOffset : Option ℤ
  writer : Option Nat
deriving DecidableEq, Repr

/-- Events published through the ClientDemodulatorSecondaryDspEventClient
interface (dsp.py lines 29-36). -/
inductive DspEvent
  | secondaryDspRateChange (rate : Nat)
  | secondaryDspBandwidthChange (bw : Nat)
deriving DecidableEq, Repr

/-- Aggregate state of a ClientDemodulatorChain (dsp.py lines 39-70).
The `stage1*` fields describe the worker installed in slot 1 of the
backbone `[selector, demodulator, clientAudioChain]` (a real demodulator or
the DummyDemodulator installed by `stopDemodulator`); the `primary*` and
`secondary*` option fields record the values most recently pushed into the
current primary/secondary demodulator object; `stopped*` record which
workers have had `stop()` called on them; `events` records the published
secondary DSP events in order. -/
structure ChainState where
  sampleRate : Nat
  outputRate : Nat
  hdOutputRate : Nat
  nrEnabled : Bool
  nrThreshold : ℤ
  selector : SelectorState
  selectorBuffer : Nat
  audioBuffer : Option Buf
  demodulator : Option Demod
  secondaryDemodulator : Option Demod2
  centerFrequency : Option ℤ
  frequencyOffset : Option ℤ
  wfmDeemphasisTau : ℚ
  rdsRbds : Bool
  clientAudioChain : ClientAudioState
  secondaryFftSize : Nat
  secondaryFftOverlapFactor : ℚ
  secondaryFftFps : Nat
  secondaryFftCompression : String
  secondaryFftChain : Option FftChainState
  metaWriter : Option Nat
  secondaryFftWriter : Option Nat
  secondaryWriter : Option Nat
  squelchLevel : ℚ
  secondarySelector : Option SecSelState
  secondaryFrequencyOffset : Option ℤ
  stage1Format : SFormat
  stage1IsDummy : Bool
  stage1Reader : Nat
  primarySampleRate : Option Nat
  primaryDialFrequency : Option ℤ
  primaryDeemphasisTau : Option ℚ
  primaryRdsRbds : Option Bool
  primaryMetaWriter : Option Nat
  primarySlotFilter : Option ℤ
  primaryAudioServiceId : Option ℤ
  secondarySampleRate : Option Nat
  secondaryDialFrequency : Option ℤ
  secondaryReader : Option Nat
  secondaryDemodWriter : Option Nat
  nextBufferId : Nat
  stoppedPrimaries : List Demod
  stoppedSecondaries : List Demod2
  stoppedFftChains : List FftChainState
  events : List DspEvent
deriving DecidableEq, Repr

/-- `isinstance(self.demodulator, FixedIfSampleRateChain)` together with
`getFixedIfSampleRate()` (isinstance of None is False). -/
def primaryFixedIf (s : ChainState) : Option Nat :=
  match s.demodulator with
  | some d => d.fixedIfSampleRate
  | none => none

/-- `isinstance(self.demodulator, FixedAudioRateChain)` with its rate. -/
def primaryFixedAudio (s : ChainState) : Option Nat :=
  match s.demodulator with
  | some d => d.fixedAudioRate
  | none => none

/-- `isinstance(self.secondaryDemodulator, FixedAudioRateChain)` with rate. -/
def secondaryFixedAudio (s : ChainState) : Option Nat :=
  match s.secondaryDemodulator with
  | some d => d.fixedAudioRate
  | none => none

/-- `isinstance(self.demodulator, HdAudio)`. -/
def primaryIsHd (s : ChainState) : Bool :=
  match s.demodulator with
  | some d => d.hdAudio
  | none => false

/-- `isinstance(self.demodulator, DialFrequencyReceiver)`. -/
def primaryIsDialReceiver (s : ChainState) : Bool :=
  match s.demodulator with
  | some d => d.dialFrequencyReceiver
  | none => false

/-- `isinstance(self.secondaryDemodulator, DialFrequencyReceiver)`. -/
def secondaryIsDialReceiver (s : ChainState) : Bool :=
  match s.secondaryDemodulator with
  | some d => d.dialFrequencyReceiver
  | none => false

/-- Python truthiness of an optional integer (None and 0 are falsy). -/
def truthyInt : Option ℤ → Bool
  | none => false
  | some v => v ≠ 0

/-- ClientDemodulatorChain._getSelectorOutputRate (dsp.py lines 148-156).
Returns the computed rate, or the ValueError raised on line 153. -/
def getSelectorOutputRate (s : ChainState) : Except PyErr Nat :=
  match primaryFixedIf s with
  | some r => .ok r
  | none =>
    match secondaryFixedAudio s with
    | some r2 =>
      match primaryFixedAudio s with
      | some r1 => if r1 ≠ r2 then .error .valueErr else .ok r2
      | none => .ok r2
    | none => .ok (if primaryIsHd s then s.hdOutputRate else s.outputRate)

/-- ClientDemodulatorChain._getClientAudioInputRate (dsp.py lines 158-164). -/
def getClientAudioInputRate (s : ChainState) : Nat :=
  match primaryFixedAudio s with
  | some r => r
  | none =>
    match secondaryFixedAudio s with
    | some r => r
    | none => if primaryIsHd s then s.hdOutputRate else s.outputRate

/-- ClientDemodulatorChain._syncSquelch (dsp.py lines 225-229): force the
Selector to -150 dBFS when the primary or the secondary demodulator is
present and does not support squelch, otherwise apply the stored level. -/
def syncSquelch (s : ChainState) : ChainState :=
  if (match s.demodulator with
      | some d => !d.supportsSquelch
      | none => false)
     || (match s.secondaryDemodulator with
         | some d => !d.supportsSquelch
         | none => false) then
    { s with selector := { s.selector with squelchLevel := -150 } }
  else
    { s with selector := { s.selector with squelchLevel := s.squelchLevel } }

/-- ClientDemodulatorChain._updateDialFrequency (dsp.py lines 253-262). -/
def updateDialFrequency (s : ChainState) : ChainState :=
  match s.centerFrequency, s.frequencyOffset with
  | some c, some o =>
    let dial := c + o
    let s1 := if primaryIsDialReceiver s then { s with primaryDialFrequency := some dial } else s
    if secondaryIsDialReceiver s1 then
      let dial2 :=
        if s1.secondarySelector.isSome && truthyInt s1.secondaryFrequencyOffset then
          dial + s1.secondaryFrequencyOffset.getD 0
        else dial
      { s1 with secondaryDialFrequency := some dial2 }
    else s1
  | _, _ => s

/-- ClientDemodulatorChain._connect, branch `w1 is self.selector`
(dsp.py lines 82-83): the connection from the Selector into stage 1 always
routes through the fixed `selectorBuffer`. -/
def connectSelectorToStage1 (s : ChainState) : ChainState :=
  { s with stage1Reader := s.selectorBuffer }

/-- ClientDemodulatorChain._connect, branch `w2 is self.clientAudioChain`
(dsp.py lines 84-90): when the producing worker's output format differs
from the current audio buffer's format (or no audio buffer exists yet), a
fresh buffer of the new format is allocated, and a secondary demodulator
that consumes audio (input format is not COMPLEX_FLOAT) is rebound to a
reader on the new buffer. -/
def connectStage1ToClientAudio (s : ChainState) (format : SFormat) : ChainState :=
  let needNew :=
    match s.audioBuffer with
    | none => true
    | some b => b.format ≠ format
  if needNew then
    let newId := s.nextBufferId
    let s1 := { s with audioBuffer := some ⟨newId, format⟩, nextBufferId := newId + 1 }
    match s1.secondaryDemodulator with
    | some d2 =>
      if d2.inputFormat ≠ SFormat.complexFloat then
        { s1 with secondaryReader := some newId }
      else s1
    | none => s1
  else s

/-- Chain.replace(1, w) as used by dsp.py: install the worker with the given
output format in slot 1 and reconnect it on both sides through _connect
(Chain.replace itself lives outside src/; per spec §4.1 it disconnects,
installs and reconnects the slot). -/
def replace1 (s : ChainState) (format : SFormat) (isDummy : Bool) : ChainState :=
  let s1 := { s with stage1Format := format, stage1IsDummy := isDummy }
  let s2 := connectSelectorToStage1 s1
  connectStage1ToClientAudio s2 format

/-- Tail of ClientDemodulatorChain.setDemodulator (dsp.py lines 124-131):
bind the meta writer when the new demodulator is a MetaProvider, replace
stage 1 of the backbone with it, and finalize the client audio chain's
input and client rates. -/
def finishSetDemodulator (s9 : ChainState) (demodulator : Demod) (clientRate : Nat) : ChainState :=
  let s10 :=
    match s9.metaWriter with
    | some w => if demodulator.metaProvider then { s9 with primaryMetaWriter := some w } else s9
    | none => s9
  let s11 := replace1 s10 demodulator.outputFormat false
  let s12 := { s11 with clientAudioChain := { s11.clientAudioChain with inputRate := clientRate } }
  let oRate := if demodulator.hdAudio then s12.hdOutputRate else s12.outputRate
  { s12 with clientAudioChain := { s12.clientAudioChain with clientRate := oRate } }

/-- ClientDemodulatorChain.setDemodulator (dsp.py lines 94-131). Returns the
resulting state and the exception propagating out of the call, if any (the
ValueError of _getSelectorOutputRate escapes on line 110 after the new
demodulator has already been adopted and the old one stopped). -/
def chainSetDemodulator (s : ChainState) (demodulator : Demod) : ChainState × Option PyErr :=
  if s.demodulator = some demodulator then (s, none)
  else
    let s1 := { s with clientAudioChain := { s.clientAudioChain with format := demodulator.outputFormat } }
    let s2 :=
      match s1.demodulator with
      | some old => { s1 with stoppedPrimaries := s1.stoppedPrimaries ++ [old] }
      | none => s1
    let s3 := { s2 with demodulator := some demodulator,
                        primarySampleRate := none, primaryDialFrequency := none,
                        primaryDeemphasisTau := none, primaryRdsRbds := none,
                        primaryMetaWriter := none, primarySlotFilter := none,
                        primaryAudioServiceId := none }
    match getSelectorOutputRate s3 with
    | .error e => (s3, some e)
    | .ok rate =>
      let s4 := { s3 with selector := { s3.selector with outputRate := rate } }
      let clientRate := getClientAudioInputRate s4
      let s5 := { s4 with primarySampleRate := some clientRate }
      let s6 := if demodulator.deemphasisTau then { s5 with primaryDeemphasisTau := some s5.wfmDeemphasisTau } else s5
      let s7 := if demodulator.rds then { s6 with primaryRdsRbds := some s6.rdsRbds } else s6
      let s8 := updateDialFrequency s7
      let s9 := syncSquelch s8
      (finishSetDemodulator s9 demodulator clientRate, none)

/-- ClientDemodulatorChain._createSecondaryFftChain (dsp.py lines 218-223):
stop any existing FFT chain, then build a fresh one from the current
selector output rate and the stored size/overlap/fps/compression settings,
reading from the selector buffer and writing to the secondary FFT writer.
The _getSelectorOutputRate call can raise, in which case the stopped old
chain stays in place. -/
def createSecondaryFftChain (s : ChainState) : ChainState × Option PyErr :=
  let s1 :=
    match s.secondaryFftChain with
    | some f => { s with stoppedFftChains := s.stoppedFftChains ++ [f] }
    | none => s
  match getSelectorOutputRate s1 with
  | .error e => (s1, some e)
  | .ok rate =>
    let f : FftChainState :=
      { sampleRate := rate, size := s1.secondaryFftSize,
        overlapFactor := s1.secondaryFftOverlapFactor, fps := s1.secondaryFftFps,
        compression := s1.secondaryFftCompression,
        reader := some s1.selectorBuffer, writer := s1.secondaryFftWriter }
    ({ s1 with secondaryFftChain := some f }, none)

/-- Does the (optional) secondary demodulator request a secondary FFT
(`self.secondaryDemodulator is not None and
self.secondaryDemodulator.isSecondaryFftShown()`)? -/
def fftRequested : Option Demod2 → Bool
  | none => false
  | some d => d.secondaryFftShown

/-- ClientDemodulatorChain.setSecondaryDemodulator, wiring of the secondary
demodulator's reader and writer (dsp.py lines 195-205). `rate` is the local
variable computed on line 175. Reading from a missing audio buffer
(line 204 with `self.audioBuffer = None`) is the AttributeError case. -/
def wireSecondary (s : ChainState) (demod : Option Demod2) (rate : Nat) : ChainState × Option PyErr :=
  match demod with
  | none => (s, none)
  | some d =>
    let s1 := { s with secondarySampleRate := some rate }
    match s1.secondarySelector with
    | some sel =>
      let bufId := s1.nextBufferId
      ({ s1 with nextBufferId := bufId + 1,
                 secondarySelector := some { sel with writer := some bufId },
                 secondaryReader := some bufId,
                 secondaryDemodWriter := s1.secondaryWriter }, none)
    | none =>
      if d.inputFormat = SFormat.complexFloat then
        ({ s1 with secondaryReader := some s1.selectorBuffer,
                   secondaryDemodWriter := s1.secondaryWriter }, none)
      else
        match s1.audioBuffer with
        | some b =>
          ({ s1 with secondaryReader := some b.id,
                     secondaryDemodWriter := s1.secondaryWriter }, none)
        | none => (s1, some .attributeErr)

/-- Final step of the secondary FFT management (dsp.py lines 214-216):
whenever an FFT chain exists, apply the selector output rate to it and
publish onSecondaryDspRateChange with that rate. -/
def applyFftRate (s : ChainState) (rate : Nat) : ChainState :=
  match s.secondaryFftChain with
  | some f =>
    { s with secondaryFftChain := some { f with sampleRate := rate },
             events := s.events ++ [DspEvent.secondaryDspRateChange rate] }
  | none => s

/-- ClientDemodulatorChain.setSecondaryDemodulator, secondary FFT
management (dsp.py lines 207-216): drop the FFT chain when no secondary
FFT is requested, build one when requested and absent (propagating the
exception of a failing rebuild), and finally apply the selector output
rate via applyFftRate. -/
def manageSecondaryFft (s : ChainState) (demod : Option Demod2) (rate : Nat) : ChainState × Option PyErr :=
  let s1 :=
    if !(fftRequested demod) then
      match s.secondaryFftChain with
      | some f => { s with stoppedFftChains := s.stoppedFftChains ++ [f], secondaryFftChain := none }
      | none => s
    else s
  if fftRequested demod && s1.secondaryFftChain.isNone then
    let r2 := createSecondaryFftChain s1
    match r2.2 with
    | some e => (r2.1, some e)
    | none => (applyFftRate r2.1 rate, none)
  else (applyFftRate s1 rate, none)

/-- ClientDemodulatorChain.setSecondaryDemodulator, secondary selector
management (dsp.py lines 186-193): when the new secondary is a
SecondarySelectorChain, build a SecondarySelector at the selector output
rate and its bandwidth, feed it from the selector buffer, give it the
stored secondary frequency offset and publish
onSecondaryDspBandwidthChange; otherwise clear the secondary selector. -/
def rebuildSecondarySelector (s : ChainState) (demod : Option Demod2) (rate : Nat) : ChainState :=
  match demod with
  | some d =>
    match d.secondarySelector with
    | some bandwidth =>
      { s with secondarySelector := some
                 { sampleRate := rate, bandwidth := bandwidth,
                   reader := some s.selectorBuffer,
                   frequencyOffset := s.secondaryFrequencyOffset,
                   writer := none },
               events := s.events ++ [DspEvent.secondaryDspBandwidthChange bandwidth] }
    | none => { s with secondarySelector := none }
  | none => { s with secondarySelector := none }

/-- ClientDemodulatorChain.setSecondaryDemodulator, adoption step (dsp.py
lines 170-173): stop the old secondary and store the new reference, whose
object-local pushed values start fresh. -/
def adoptSecondary (s : ChainState) (demod : Option Demod2) : ChainState :=
  let s1 :=
    match s.secondaryDemodulator with
    | some old => { s with stoppedSecondaries := s.stoppedSecondaries ++ [old] }
    | none => s
  { s1 with secondaryDemodulator := demod,
            secondarySampleRate := none, secondaryDialFrequency := none,
            secondaryReader := none, secondaryDemodWriter := none }

/-- ClientDemodulatorChain.setSecondaryDemodulator, rate application (dsp.py
lines 175-181): apply the recomputed selector output rate, push the client
audio input rate to the ClientAudioChain and to a present primary. -/
def applySecondaryRates (s : ChainState) (rate : Nat) : ChainState :=
  let s3 := { s with selector := { s.selector with outputRate := rate } }
  let clientRate := getClientAudioInputRate s3
  let s4 := { s3 with clientAudioChain := { s3.clientAudioChain with inputRate := clientRate } }
  match s4.demodulator with
  | some _ => { s4 with primarySampleRate := some clientRate }
  | none => s4

/-- ClientDemodulatorChain.setSecondaryDemodulator (dsp.py lines 166-216).
Note that the dial frequency update (line 183) runs before the secondary
selector is rebuilt (lines 186-193). -/
def chainSetSecondaryDemodulator (s : ChainState) (demod : Option Demod2) : ChainState × Option PyErr :=
  if s.secondaryDemodulator = demod then (s, none)
  else
    let s2 := adoptSecondary s demod
    match getSelectorOutputRate s2 with
    | .error e => (s2, some e)
    | .ok rate =>
      let s5 := applySecondaryRates s2 rate
      let s6 := updateDialFrequency s5
      let s7 := syncSquelch s6
      let s8 := rebuildSecondarySelector s7 demod rate
      let r9 := wireSecondary s8 demod rate
      match r9.2 with
      | some e => (r9.1, some e)
      | none => manageSecondaryFft r9.1 demod rate

/-- ClientDemodulatorChain.stopDemodulator (dsp.py lines 133-146): replace
the primary with a DummyDemodulator imitating its output format, stop the
old primary, clear the secondary. Does nothing when no primary is
installed. -/
def stopDemodulator (s : ChainState) : ChainState × Option PyErr :=
  match s.demodulator with
  | none => (s, none)
  | some old =>
    let s1 := replace1 s old.outputFormat true
    let s2 := { s1 with stoppedPrimaries := s1.stoppedPrimaries ++ [old], demodulator := none }
    chainSetSecondaryDemodulator s2 none

/-- ClientDemodulatorChain.setLowCut (dsp.py lines 231-232). -/
def setLowCut (s : ChainState) (lowCut : Option ℚ) : ChainState :=
  { s with selector := { s.selector with lowCut := lowCut } }

/-- ClientDemodulatorChain.setHighCut (dsp.py lines 234-235). -/
def setHighCut (s : ChainState) (highCut : Option ℚ) : ChainState :=
  { s with selector := { s.selector with highCut := highCut } }

/-- ClientDemodulatorChain.setBandpass (dsp.py lines 237-238). -/
def setBandpass (s : ChainState) (lowCut highCut : Option ℚ) : ChainState :=
  { s with selector := { s.selector with lowCut := lowCut, highCut := highCut } }

/-- ClientDemodulatorChain.setFrequencyOffset (dsp.py lines 240-245). -/
def setFrequencyOffset (s : ChainState) (offset : ℤ) : ChainState :=
  if some offset = s.frequencyOffset then s
  else
    let s1 := { s with frequencyOffset := some offset,
                       selector := { s.selector with frequencyOffset := some offset } }
    updateDialFrequency s1

/-- ClientDemodulatorChain.setCenterFrequency (dsp.py lines 247-251). -/
def setCenterFrequency (s : ChainState) (frequency : ℤ) : ChainState :=
  if some frequency = s.centerFrequency then s
  else updateDialFrequency { s with centerFrequency := some frequency }

/-- Output format of an audio compression token.
Modelled from the spec: ClientAudioChain is outside src/; §4.4 says
set_audio_compression raises FormatMismatch when the compression change
flips the chain between compressed (char) and uncompressed (short) output. -/
def audioFormatOf (compression : String) : SFormat :=
  if compression = "none" then SFormat.short else SFormat.char

/-- ClientDemodulatorChain.setAudioCompression (dsp.py lines 264-265),
delegating to ClientAudioChain.setAudioCompression, which raises ValueError
when the audio output format changes. -/
def chainSetAudioCompression (s : ChainState) (compression : String) : ChainState × Option PyErr :=
  let s1 := { s with clientAudioChain := { s.clientAudioChain with compression := compression } }
  if audioFormatOf s.clientAudioChain.compression ≠ audioFormatOf compression then
    (s1, some .valueErr)
  else (s1, none)

/-- ClientDemodulatorChain.setNrEnabled (dsp.py lines 267-268). -/
def setNrEnabled (s : ChainState) (nrEnabled : Bool) : ChainState :=
  { s with clientAudioChain := { s.clientAudioChain with nrEnabled := nrEnabled } }

/-- ClientDemodulatorChain.setNrThreshold (dsp.py lines 270-271). -/
def setNrThreshold (s : ChainState) (nrThreshold : ℤ) : ChainState :=
  { s with clientAudioChain := { s.clientAudioChain with nrThreshold := nrThreshold } }

/-- ClientDemodulatorChain.setSquelchLevel (dsp.py lines 273-277). -/
def setSquelchLevel (s : ChainState) (level : ℚ) : ChainState :=
  if level = s.squelchLevel then s
  else syncSquelch { s with squelchLevel := level }

/-- ClientDemodulatorChain._updateDemodulatorOutputRate (dsp.py lines
299-306). Calling `setSampleRate` on an absent primary demodulator
(line 302 with `self.demodulator = None`) is the AttributeError case. -/
def updateDemodulatorOutputRate (s : ChainState) (outputRate : Nat) : ChainState × Option PyErr :=
  let step1 : ChainState × Option PyErr :=
    if (primaryFixedIf s).isSome then (s, none)
    else
      let s1 := { s with selector := { s.selector with outputRate := outputRate } }
      match s1.demodulator with
      | none => (s1, some .attributeErr)
      | some _ =>
        let s2 := { s1 with primarySampleRate := some outputRate }
        match s2.secondaryDemodulator with
        | some _ => ({ s2 with secondarySampleRate := some outputRate }, none)
        | none => (s2, none)
  match step1.2 with
  | some e => (step1.1, some e)
  | none =>
    if (primaryFixedAudio step1.1).isSome then (step1.1, none)
    else ({ step1.1 with clientAudioChain := { step1.1.clientAudioChain with clientRate := outputRate } }, none)

/-- ClientDemodulatorChain.setOutputRate (dsp.py lines 279-287). -/
def setOutputRate (s : ChainState) (outputRate : Nat) : ChainState × Option PyErr :=
  if outputRate = s.outputRate then (s, none)
  else
    let s1 := { s with outputRate := outputRate }
    if primaryIsHd s1 then (s1, none)
    else updateDemodulatorOutputRate s1 outputRate

/-- ClientDemodulatorChain.setHdOutputRate (dsp.py lines 289-297). -/
def setHdOutputRate (s : ChainState) (outputRate : Nat) : ChainState × Option PyErr :=
  if outputRate = s.hdOutputRate then (s, none)
  else
    let s1 := { s with hdOutputRate := outputRate }
    if !primaryIsHd s1 then (s1, none)
    else updateDemodulatorOutputRate s1 outputRate

/-- ClientDemodulatorChain.setSampleRate (dsp.py lines 308-312). -/
def chainSetSampleRate (s : ChainState) (sampleRate : Nat) : ChainState :=
  if sampleRate = s.sampleRate then s
  else { s with sampleRate := sampleRate,
                selector := { s.selector with inputRate := sampleRate } }

/-- ClientDemodulatorChain.setPowerWriter (dsp.py lines 314-315). -/
def setPowerWriter (s : ChainState) (writer : Nat) : ChainState :=
  { s with selector := { s.selector with powerWriter := some writer } }

/-- ClientDemodulatorChain.setMetaWriter (dsp.py lines 317-322). -/
def chainSetMetaWriter (s : ChainState) (writer : Nat) : ChainState :=
  if some writer = s.metaWriter then s
  else
    let s1 := { s with metaWriter := some writer }
    if (match s1.demodulator with
        | some d => d.metaProvider
        | none => false) then
      { s1 with primaryMetaWriter := some writer }
    else s1

/-- ClientDemodulatorChain.setSecondaryFftWriter (dsp.py lines 324-330). -/
def chainSetSecondaryFftWriter (s : ChainState) (writer : Nat) : ChainState :=
  if some writer = s.secondaryFftWriter then s
  else
    let s1 := { s with secondaryFftWriter := some writer }
    match s1.secondaryFftChain with
    | some f => { s1 with secondaryFftChain := some { f with writer := some writer } }
    | none => s1

/-- ClientDemodulatorChain.setSecondaryWriter (dsp.py lines 332-337). -/
def chainSetSecondaryWriter (s : ChainState) (writer : Nat) : ChainState :=
  if some writer = s.secondaryWriter then s
  else
    let s1 := { s with secondaryWriter := some writer }
    match s1.secondaryDemodulator with
    | some _ => { s1 with secondaryDemodWriter := some writer }
    | none => s1

/-- ClientDemodulatorChain.setSlotFilter (dsp.py lines 339-342). -/
def setSlotFilter (s : ChainState) (filter : ℤ) : ChainState :=
  if !(match s.demodulator with
       | some d => d.slotFilter
       | none => false) then s
  else { s with primarySlotFilter := some filter }

/-- ClientDemodulatorChain.setAudioServiceId (dsp.py lines 344-347). -/
def setAudioServiceId (s : ChainState) (serviceId : ℤ) : ChainState :=
  if !(match s.demodulator with
       | some d => d.audioServiceSelector
       | none => false) then s
  else { s with primaryAudioServiceId := some serviceId }

/-- ClientDemodulatorChain.setSecondaryFftSize (dsp.py lines 349-355). -/
def setSecondaryFftSize (s : ChainState) (size : Nat) : ChainState × Option PyErr :=
  if size = s.secondaryFftSize then (s, none)
  else
    let s1 := { s with secondaryFftSize := size }
    if s1.secondaryFftChain.isNone then (s1, none)
    else createSecondaryFftChain s1

/-- ClientDemodulatorChain.setSecondaryFrequencyOffset (dsp.py lines
357-363). -/
def setSecondaryFrequencyOffset (s : ChainState) (freq : ℤ) : ChainState :=
  if s.secondaryFrequencyOffset = some freq then s
  else
    let s1 := { s with secondaryFrequencyOffset := some freq }
    let s2 :=
      match s1.secondarySelector with
      | some sel => { s1 with secondarySelector := some { sel with frequencyOffset := some freq } }
      | none => s1
    updateDialFrequency s2

/-- Output format produced by a secondary FFT compression token (dsp.py
lines 399-403: ADPCM produces chars, uncompressed FFT produces floats). -/
def fftFormatOf (compression : String) : SFormat :=
  if compression = "adpcm" then SFormat.char else SFormat.float

/-- ClientDemodulatorChain.setSecondaryFftCompression (dsp.py lines
365-377). Returns True when the FFT chain rejected the new compression
because its output format would change, so the caller must re-wire. -/
def setSecondaryFftCompression (s : ChainState) (compression : String) : ChainState × Bool :=
  if compression = s.secondaryFftCompression then (s, false)
  else
    let s1 := { s with secondaryFftCompression := compression }
    match s1.secondaryFftChain with
    | none => (s1, false)
    | some f =>
      if fftFormatOf f.compression ≠ fftFormatOf compression then (s1, true)
      else ({ s1 with secondaryFftChain := some { f with compression := compression } }, false)

/-- ClientDemodulatorChain.setSecondaryFftOverlapFactor (dsp.py lines
379-385). -/
def setSecondaryFftOverlapFactor (s : ChainState) (overlap : ℚ) : ChainState :=
  if overlap = s.secondaryFftOverlapFactor then s
  else
    let s1 := { s with secondaryFftOverlapFactor := overlap }
    match s1.secondaryFftChain with
    | some f => { s1 with secondaryFftChain := some { f with overlapFactor := overlap } }
    | none => s1

/-- ClientDemodulatorChain.setSecondaryFftFps (dsp.py lines 387-393). -/
def setSecondaryFftFps (s : ChainState) (fps : Nat) : ChainState :=
  if fps = s.secondaryFftFps then s
  else
    let s1 := { s with secondaryFftFps := fps }
    match s1.secondaryFftChain with
    | some f => { s1 with secondaryFftChain := some { f with fps := fps } }
    | none => s1

/-- ClientDemodulatorChain.getSecondaryFftOutputFormat (dsp.py lines
395-403). -/
def getSecondaryFftOutputFormat (s : ChainState) : SFormat :=
  match s.secondaryFftChain with
  | some f => fftFormatOf f.compression
  | none =>
    if s.secondaryFftCompression = "adpcm" then SFormat.char else SFormat.float

/-- ClientDemodulatorChain.setWfmDeemphasisTau (dsp.py lines 405-410). -/
def setWfmDeemphasisTau (s : ChainState) (tau : ℚ) : ChainState :=
  if tau = s.wfmDeemphasisTau then s
  else
    let s1 := { s with wfmDeemphasisTau := tau }
    if (match s1.demodulator with
        | some d => d.deemphasisTau
        | none => false) then
      { s1 with primaryDeemphasisTau := some tau }
    else s1

/-- ClientDemodulatorChain.setRdsRbds (dsp.py lines 412-417). -/
def setRdsRbds (s : ChainState) (rdsRbds : Bool) : ChainState :=
  if rdsRbds = s.rdsRbds then s
  else
    let s1 := { s with rdsRbds := rdsRbds }
    if (match s1.demodulator with
        | some d => d.rds
        | none => false) then
      { s1 with primaryRdsRbds := some rdsRbds }
    else s1

/-- Base capability record of an analog demodulator chain.
Modelled from the spec: the concrete demodulator classes constructed by
DspManager._getDemodulator live outside src/; an analog voice demodulator
has no fixed rates, supports squelch (§6: the mode catalog marks analog
voice modes squelch-capable) and produces float audio. -/
def analogDemod : Demod :=
  { fixedIfSampleRate := none, fixedAudioRate := none, hdAudio := false,
    supportsSquelch := true, dialFrequencyReceiver := false,
    deemphasisTau := false, rds := false, metaProvider := false,
    slotFilter := false, audioServiceSelector := false,
    outputFormat := SFormat.float }

/-- Modelled from the spec: WFm produces wideband (HD) audio, accepts the
WFM de-emphasis tau and the RDS/RBDS toggle, and provides RDS metadata
(spec §6 scenario 2). -/
def wfmDemod : Demod :=
  { analogDemod with hdAudio := true, deemphasisTau := true, rds := true,
                     metaProvider := true }

/-- Modelled from the spec: digital voice demodulators (DMR, D-Star, YSF,
NXDN, M17) decode to 8 kHz fixed-rate audio, provide metadata, do not
support squelch (mode catalog `squelch=False`) and the DMR family accepts
a slot filter. -/
def digitalVoiceDemod : Demod :=
  { fixedIfSampleRate := none, fixedAudioRate := some 8000, hdAudio := false,
    supportsSquelch := false, dialFrequencyReceiver := false,
    deemphasisTau := false, rds := false, metaProvider := true,
    slotFilter := true, audioServiceSelector := false,
    outputFormat := SFormat.short }

/-- Modelled from the spec: the DAB demodulator demands a fixed IF sample
rate of 2048000 (spec §8 scenario 5), selects audio services, and does not
support squelch. -/
def dabDemod : Demod :=
  { fixedIfSampleRate := some 2048000, fixedAudioRate := some 48000,
    hdAudio := false, supportsSquelch := false, dialFrequencyReceiver := false,
    deemphasisTau := false, rds := false, metaProvider := true,
    slotFilter := false, audioServiceSelector := true,
    outputFormat := SFormat.short }

/-- DspManager._getDemodulator (dsp.py lines 583-634), token dispatch. The
dispatch itself (which tokens resolve and which fall through to None) is
from the source; the capability data of the constructed chains is modelled
from the spec since the constructors live outside src/. -/
def getDemodulatorByToken (demod : String) : Option Demod :=
  if demod = "nfm" then some analogDemod
  else if demod = "wfm" then some wfmDemod
  else if demod = "am" then some analogDemod
  else if demod = "sam" then some analogDemod
  else if demod = "usb" ∨ demod = "lsb" ∨ demod = "cw" then some analogDemod
  else if demod = "dmr" then some digitalVoiceDemod
  else if demod = "dstar" then some digitalVoiceDemod
  else if demod = "ysf" then some digitalVoiceDemod
  else if demod = "nxdn" then some digitalVoiceDemod
  else if demod = "hdr" then some { analogDemod with hdAudio := true, supportsSquelch := false }
  else if demod = "m17" then some digitalVoiceDemod
  else if demod = "drm" then some { digitalVoiceDemod with slotFilter := false }
  else if demod = "freedv" then some { analogDemod with supportsSquelch := false }
  else if demod = "dab" then some dabDemod
  else if demod = "empty" then some analogDemod
  else if demod = "usbd" ∨ demod = "lsbd" then some analogDemod
  else none

/-- Modelled from the spec: an audio-chopper data decoder (WSJT-X family,
JS8) consumes 12 kHz fixed-rate audio, receives the dial frequency, shows
a secondary FFT and disallows squelch (spec §8 scenario 3). -/
def audioChopperDemod2 : Demod2 :=
  { fixedAudioRate := some 12000, supportsSquelch := false,
    dialFrequencyReceiver := true, secondarySelector := none,
    secondaryFftShown := true, inputFormat := SFormat.short }

/-- Modelled from the spec: a narrow-band sub-carrier decoder (PSK/RTTY
style) selects a sub-bandpass inside the demodulated band via a
SecondarySelector and consumes IQ from it. -/
def subCarrierDemod2 : Demod2 :=
  { fixedAudioRate := some 12000, supportsSquelch := false,
    dialFrequencyReceiver := true, secondarySelector := some 500,
    secondaryFftShown := true, inputFormat := SFormat.complexFloat }

/-- Modelled from the spec: a service-style packet/aircraft/sonde decoder
consuming IQ or audio directly without a secondary FFT display. -/
def serviceDemod2 : Demod2 :=
  { fixedAudioRate := some 48000, supportsSquelch := false,
    dialFrequencyReceiver := false, secondarySelector := none,
    secondaryFftShown := false, inputFormat := SFormat.complexFloat }

/-- Tokens of DspManager._getSecondaryDemodulator resolving to audio
chopper decoders (dsp.py lines 667-677). -/
def audioChopperTokens : List String :=
  ["ft8", "wspr", "jt65", "jt9", "ft4", "fst4", "fst4w", "q65", "msk144", "js8"]

/-- Tokens of DspManager._getSecondaryDemodulator resolving to sub-carrier
decoders with a secondary selector (dsp.py lines 699-743). -/
def subCarrierTokens : List String :=
  ["bpsk31", "bpsk63", "rtty170", "rtty450", "rtty85", "sitorb", "navtex",
   "dsc", "cwdecoder", "mfrtty170", "mfrtty450", "sstv", "fax"]

/-- Remaining tokens of DspManager._getSecondaryDemodulator (dsp.py lines
678-806). -/
def serviceTokens : List String :=
  ["packet", "ais", "pocsag", "page", "selcall", "eas", "zvei", "cwskimmer",
   "rttyskimmer", "ism", "wmbus", "hfdl", "vdl2", "acars", "adsb", "uat",
   "sonde-mts01", "sonde-rs41", "sonde-dfm9", "sonde-dfm17", "sonde-m10",
   "sonde-m20", "streamer", "audio", "noaa-apt-15", "noaa-apt-19",
   "meteor-lrpt", "elektro-lrit"]

/-- DspManager._getSecondaryDemodulator (dsp.py lines 664-806), token
dispatch. The set of recognized tokens is from the source; the capability
data of the constructed decoders is modelled from the spec since the
constructors live outside src/. Every unrecognized token falls through to
None. -/
def getSecondaryDemodulatorByToken (mod : String) : Option Demod2 :=
  if mod ∈ audioChopperTokens then some audioChopperDemod2
  else if mod ∈ subCarrierTokens then some subCarrierDemod2
  else if mod ∈ serviceTokens then some serviceDemod2
  else none

/-- An entry of the mode catalog (owrx/modes.py): the modulation token and,
for digital overlay modes, the list of underlying analog modes (`some`
exactly when the Python object has an `underlying` attribute). -/
structure ModeEntry where
  modulation : String
  underlying : Option (List String)
deriving DecidableEq, Repr

/-- Modes.mappings (modes.py lines 137-458), restricted to the fields dsp.py
consults. Feature availability (Mode.is_available) is modelled as always
true: feature detection shells out to external tools at runtime. -/
def modesMappings : List ModeEntry :=
  [⟨"nfm", none⟩, ⟨"wfm", none⟩, ⟨"am", none⟩, ⟨"lsb", none⟩, ⟨"usb", none⟩,
   ⟨"cw", none⟩, ⟨"sam", none⟩, ⟨"usbd", none⟩, ⟨"dmr", none⟩, ⟨"dstar", none⟩,
   ⟨"nxdn", none⟩, ⟨"ysf", none⟩, ⟨"m17", none⟩, ⟨"freedv", none⟩,
   ⟨"drm", none⟩, ⟨"dab", none⟩, ⟨"hdr", none⟩,
   ⟨"bpsk31", some ["usb"]⟩, ⟨"bpsk63", some ["usb"]⟩,
   ⟨"rtty170", some ["usb", "lsb"]⟩, ⟨"rtty450", some ["usb", "lsb"]⟩,
   ⟨"rtty85", some ["usb", "lsb"]⟩, ⟨"sitorb", some ["usb"]⟩,
   ⟨"navtex", some ["usb"]⟩, ⟨"dsc", some ["usb"]⟩,
   ⟨"ft8", some ["usb"]⟩, ⟨"ft4", some ["usb"]⟩, ⟨"jt65", some ["usb"]⟩,
   ⟨"jt9", some ["usb"]⟩, ⟨"wspr", some ["usb"]⟩, ⟨"fst4", some ["usb"]⟩,
   ⟨"fst4w", some ["usb"]⟩, ⟨"q65", some ["usb"]⟩, ⟨"msk144", some ["usb"]⟩,
   ⟨"js8", some ["usb"]⟩, ⟨"packet", some ["empty"]⟩, ⟨"ais", some ["empty"]⟩,
   ⟨"page", some ["empty"]⟩, ⟨"cwdecoder", some ["usb", "lsb"]⟩,
   ⟨"cwskimmer", some ["empty"]⟩, ⟨"rttyskimmer", some ["empty"]⟩,
   ⟨"sstv", some ["usb", "lsb", "nfm"]⟩, ⟨"fax", some ["usb"]⟩,
   ⟨"selcall", some ["nfm"]⟩, ⟨"zvei", some ["nfm"]⟩, ⟨"eas", some ["nfm"]⟩,
   ⟨"ism", some ["empty"]⟩, ⟨"wmbus", some ["empty"]⟩, ⟨"hfdl", some ["empty"]⟩,
   ⟨"vdl2", some ["empty"]⟩, ⟨"acars", some ["am"]⟩, ⟨"adsb", some ["empty"]⟩,
   ⟨"uat", some ["empty"]⟩, ⟨"sonde-rs41", some ["empty"]⟩,
   ⟨"sonde-dfm9", some ["empty"]⟩, ⟨"sonde-dfm17", some ["empty"]⟩,
   ⟨"sonde-mts01", some ["empty"]⟩, ⟨"sonde-m10", some ["empty"]⟩,
   ⟨"sonde-m20", some ["empty"]⟩, ⟨"streamer", some ["empty"]⟩,
   ⟨"audio", some ["am", "usb", "lsb", "nfm", "sam", "cw"]⟩,
   ⟨"meteor-lrpt", some ["empty"]⟩, ⟨"elektro-lrit", some ["empty"]⟩]

/-- Modes.findByModulation (modes.py lines 476-480): first catalog entry
with the given modulation token. -/
def findByModulation (modulation : String) : Option ModeEntry :=
  (modesMappings.filter (fun m => m.modulation = modulation)).head?

/-- Messages written to the session handler by DspManager, as far as the
claims are concerned: demodulator_error reports and output channel
(re-)wiring. -/
inductive MLog
  | demodulatorErrorMsg
  | wireOutputChannel (channel : String)
deriving DecidableEq, Repr

/-- State of a DspManager (dsp.py lines 429-577) restricted to what its
mode-switching entry points touch: the owned chain, the current audio
output channel name, the stored `secondary_mod` property, and the log of
handler messages. -/
structure MState where
  chain : ChainState
  audioOutput : Option String
  secondaryModProp : Option String
  log : List MLog
deriving DecidableEq, Repr

/-- DspManager.setSecondaryDemodulator (dsp.py lines 808-813): resolve the
token; an unresolved token installs None (clearing any secondary) with no
error report. -/
def dspSetSecondaryDemodulator (m : MState) (mod : String) : MState × Option PyErr :=
  match getSecondaryDemodulatorByToken mod with
  | none =>
    let r := chainSetSecondaryDemodulator m.chain none
    ({ m with chain := r.1 }, r.2)
  | some d =>
    let r := chainSetSecondaryDemodulator m.chain (some d)
    ({ m with chain := r.1 }, r.2)

/-- Body of the `try` block of DspManager.setDemodulator (dsp.py lines
640-660): resolve the token (raising ValueError if unknown), install the
demodulator, re-wire the audio output channel when it flips between audio
and hd_audio, and recreate the secondary demodulator when the stored
secondary mode has the new mode among its underlying modes. -/
def dspSetDemodulatorTry (m : MState) (mod : String) : MState × Option PyErr :=
  match getDemodulatorByToken mod with
  | none => (m, some PyErr.valueErr)
  | some d =>
    let r := chainSetDemodulator m.chain d
    let m1 := { m with chain := r.1 }
    match r.2 with
    | some e => (m1, some e)
    | none =>
      let output := if d.hdAudio then "hd_audio" else "audio"
      let m2 :=
        if some output ≠ m1.audioOutput then
          { m1 with audioOutput := some output,
                    log := m1.log ++ [MLog.wireOutputChannel output] }
        else m1
      let mod2 := m2.secondaryModProp.getD ""
      match findByModulation mod2 with
      | some desc =>
        match desc.underlying with
        | some us => if mod ∈ us then dspSetSecondaryDemodulator m2 mod2 else (m2, none)
        | none => (m2, none)
      | none => (m2, none)

/-- DspManager.setDemodulator (dsp.py lines 636-662): stop both current
demodulators, then run the try block; only DemodulatorError is caught and
reported through handler.write_demodulator_error — any other exception
escapes to the caller. -/
def dspSetDemodulator (m : MState) (mod : String) : MState × Option PyErr :=
  let r0 := stopDemodulator m.chain
  let m1 := { m with chain := r0.1 }
  match r0.2 with
  | some e => (m1, some e)
  | none =>
    let r := dspSetDemodulatorTry m1 mod
    match r.2 with
    | some PyErr.demodErr =>
      ({ r.1 with log := r.1.log ++ [MLog.demodulatorErrorMsg] }, none)
    | e => (r.1, e)

/-- pickle.HIGHEST_PROTOCOL of the Python standard library (5 since
Python 3.8). -/
def HIGHEST_PICKLE_PROTOCOL : Nat := 5

/-- The guard of the unpickler wrapper (dsp.py line 875):
`len(b) < 2 or b[0] != 0x80 or not 3 <= b[1] <= pickle.HIGHEST_PROTOCOL`. -/
def notPickled (b : List Nat) : Bool :=
  decide (b.length < 2) || !(b.get? 0 == some 0x80) ||
    !(match b.get? 1 with
      | some v => decide (3 ≤ v) && decide (v ≤ HIGHEST_PICKLE_PROTOCOL)
      | none => false)

/-- The serialized-object magic byte pattern, as the spec describes it: a
0x80 lead byte followed by a protocol number between 3 and the highest
supported pickle protocol. -/
def magicPattern (b : List Nat) : Bool :=
  match b with
  | b0 :: b1 :: _ =>
    b0 == 0x80 && decide (3 ≤ b1) && decide (b1 ≤ HIGHEST_PICKLE_PROTOCOL)
  | _ => false

/-- Python bytes.decode("ascii", errors="replace") on one byte: bytes above
0x7f decode to the U+FFFD replacement character. -/
def asciiDecodeChar (n : Nat) : Char :=
  if n < 128 then Char.ofNat n else Char.ofNat 0xFFFD

/-- Python bytes.decode("ascii", errors="replace") on a chunk. -/
def asciiDecode (b : List Nat) : String :=
  String.mk (b.map asciiDecodeChar)

/-- How a run of repeated pickle.load calls on one chunk ends: cleanly at
end of input, or with an UnpicklingError. -/
inductive PickleEnd
  | eof
  | unpicklingError
deriving DecidableEq, Repr

/-- One value delivered to the wrapped callback: a decoded record or a
best-effort ASCII text chunk. -/
inductive Delivered (α : Type)
  | record (r : α)
  | text (s : String)
deriving DecidableEq, Repr

/-- The unpickler closure built by DspManager._unpickle (dsp.py lines
871-891), abstracted over the stdlib pickle stream decoder `dec` (which
yields the records readable from the chunk and how reading ended). Returns
the values passed to the callback, in order; the function is total, so no
exception reaches the pump thread (callback exceptions in the plain-text
branch are caught and logged on lines 876-879). -/
def unpickler {α : Type} (dec : List Nat → List α × PickleEnd) (b : List Nat) :
    List (Delivered α) :=
  if notPickled b then [Delivered.text (asciiDecode b)]
  else
    match dec b with
    | (recs, PickleEnd.eof) => recs.map Delivered.record
    | (recs, PickleEnd.unpicklingError) =>
      recs.map Delivered.record ++ [Delivered.text (asciiDecode b)]

/-- Selector state as built by ClientDemodulatorChain.__init__ for a 2.4 MHz
source and 12 kHz output (dsp.py lines 47, 67; spec §8 scenario 1). -/
def sampleSelector : SelectorState :=
  { inputRate := 2400000, outputRate := 12000, squelchLevel := -150,
    frequencyOffset := none, lowCut := none, highCut := none,
    powerWriter := none }

/-- Client audio chain state matching the initial NFM demodulator. -/
def sampleClientAudio : ClientAudioState :=
  { format := SFormat.float, inputRate := 12000, clientRate := 12000,
    compression := "adpcm", nrEnabled := false, nrThreshold := 0 }

/-- A ClientDemodulatorChain state as produced by __init__ (dsp.py lines
40-70) with the default NFM demodulator: selector buffer 0, audio buffer 1,
all tuning unknown, default secondary FFT parameters. -/
def sampleChain : ChainState :=
  { sampleRate := 2400000, outputRate := 12000, hdOutputRate := 48000,
    nrEnabled := false, nrThreshold := 0,
    selector := sampleSelector, selectorBuffer := 0,
    audioBuffer := some ⟨1, SFormat.float⟩,
    demodulator := some analogDemod, secondaryDemodulator := none,
    centerFrequency := none, frequencyOffset := none,
    wfmDeemphasisTau := 1 / 20000, rdsRbds := false,
    clientAudioChain := sampleClientAudio,
    secondaryFftSize := 2048, secondaryFftOverlapFactor := 3 / 10,
    secondaryFftFps := 9, secondaryFftCompression := "adpcm",
    secondaryFftChain := none, metaWriter := none,
    secondaryFftWriter := none, secondaryWriter := none,
    squelchLevel := -150, secondarySelector := none,
    secondaryFrequencyOffset := none,
    stage1Format := SFormat.float, stage1IsDummy := false, stage1Reader := 0,
    primarySampleRate := some 12000, primaryDialFrequency := none,
    primaryDeemphasisTau := none, primaryRdsRbds := none,
    primaryMetaWriter := none, primarySlotFilter := none,
    primaryAudioServiceId := none,
    secondarySampleRate := none, secondaryDialFrequency := none,
    secondaryReader := none, secondaryDemodWriter := none,
    nextBufferId := 2, stoppedPrimaries := [], stoppedSecondaries := [],
    stoppedFftChains := [], events := [] }

/-- A DspManager state owning the sample chain, with the audio output wired
and no secondary mode stored. -/
def sampleManager : MState :=
  { chain := sampleChain, audioOutput := some "audio",
    secondaryModProp := none, log := [] }

/-- Spec §4.4 selector output rate rules, written from the spec's words for
comparison with the source's _getSelectorOutputRate: the primary's fixed IF
rate if it has one; else the secondary's fixed audio rate if it has one
(failing with IncompatibleRates when the primary also has a different fixed
audio rate); else hd_output_rate for an HdAudio primary and output_rate
otherwise. -/
def spec_R_sel (primary : Option Demod) (secondary : Option Demod2)
    (outputRate hdOutputRate : Nat) : Except PyErr Nat :=
  match primary.bind (fun p => p.fixedIfSampleRate) with
  | some r => Except.ok r
  | none =>
    match secondary.bind (fun d => d.fixedAudioRate) with
    | some r =>
      match primary.bind (fun p => p.fixedAudioRate) with
      | some r' => if r' ≠ r then Except.error PyErr.valueErr else Except.ok r
      | none => Except.ok r
    | none =>
      Except.ok (if (primary.map Demod.hdAudio).getD false then hdOutputRate else outputRate)

/-- Spec §4.4 client audio input rate rules, written from the spec's words:
the primary's fixed audio rate if it has one, else the secondary's, else
the HdAudio/output_rate fallback. -/
def spec_R_aud (primary : Option Demod) (secondary : Option Demod2)
    (outputRate hdOutputRate : Nat) : Nat :=
  match primary.bind (fun p => p.fixedAudioRate) with
  | some r => r
  | none =>
    match secondary.bind (fun d => d.fixedAudioRate) with
    | some r => r
    | none =>
      if (primary.map Demod.hdAudio).getD false then hdOutputRate else outputRate

/-- The squelch-disabling condition of _syncSquelch (dsp.py line 226): the
primary or the secondary demodulator is present and does not support
squelch. -/
def squelchForcedOff (s : ChainState) : Bool :=
  (match s.demodulator with
   | some d => !d.supportsSquelch
   | none => false) ||
  (match s.secondaryDemodulator with
   | some d => !d.supportsSquelch
   | none => false)

/-- The squelch invariant claimed by the spec: the Selector's effective
squelch level is -150 dBFS when a present demodulator lacks squelch
support, and the user's stored level otherwise. -/
def squelchSynced (s : ChainState) : Prop :=
  s.selector.squelchLevel = if squelchForcedOff s then (-150 : ℚ) else s.squelchLevel

/-- The dial-frequency observation claimed by the spec, evaluated on a
state: when center frequency and frequency offset are known, a
dial-receiving primary has observed center + offset, and a dial-receiving
secondary has observed center + offset, plus the secondary frequency
offset exactly when both a secondary selector and a secondary offset are
present in that state. -/
def dialObservedCorrectly (s : ChainState) : Bool :=
  match s.centerFrequency, s.frequencyOffset with
  | some c, some o =>
    (!primaryIsDialReceiver s || s.primaryDialFrequency == some (c + o)) &&
    (!secondaryIsDialReceiver s ||
      s.secondaryDialFrequency == some (c + o +
        (if s.secondarySelector.isSome && s.secondaryFrequencyOffset.isSome then
           s.secondaryFrequencyOffset.getD 0
         else 0)))
  | _, _ => true

/-- The unknown-primary-mode behaviour claimed by the spec, evaluated on a
manager state and a mode token: the call raises nothing, a
demodulator_error is written, and the previous primary demodulator keeps
running. -/
def unknownModeHandled (m : MState) (mod : String) : Bool :=
  let r := dspSetDemodulator m mod
  r.2 == none &&
  decide (m.log.count MLog.demodulatorErrorMsg < r.1.log.count MLog.demodulatorErrorMsg) &&
  r.1.chain.demodulator == m.chain.demodulator

/-- The secondary-offset term of the dial formula as the spec states it,
evaluated on a state: the secondary frequency offset is added exactly when
both a secondary selector and a secondary frequency offset are present. -/
def claimDialExtra (s : ChainState) : ℤ :=
  if s.secondarySelector.isSome && s.secondaryFrequencyOffset.isSome then
    s.secondaryFrequencyOffset.getD 0
  else 0

/-- The sample chain with known tuning: center frequency 100 Hz, frequency
offset 10 Hz, secondary frequency offset 5 Hz, and no secondary selector
installed yet. -/
def dialSampleChain : ChainState :=
  { sampleChain with centerFrequency := some 100, frequencyOffset := some 10,
                     secondaryFrequencyOffset := some 5 }

theorem connectStage1ToClientAudio_frame (s : ChainState) (fmt : SFormat) :
    ∃ ab sr ni, connectStage1ToClientAudio s fmt =
      { s with audioBuffer := ab, secondaryReader := sr, nextBufferId := ni } := by
  unfold connectStage1ToClientAudio
  dsimp only
  split
  · split
    · split
      · exact ⟨_, _, _, rfl⟩
      · exact ⟨_, _, _, rfl⟩
    · exact ⟨_, _, _, rfl⟩
  · exact ⟨s.audioBuffer, s.secondaryReader, s.nextBufferId, rfl⟩

theorem replace1_frame (s : ChainState) (fmt : SFormat) (dum : Bool) :
    ∃ ab sr ni, replace1 s fmt dum =
      { s with stage1Format := fmt, stage1IsDummy := dum,
               stage1Reader := s.selectorBuffer,
               audioBuffer := ab, secondaryReader := sr, nextBufferId := ni } := by
  unfold replace1 connectSelectorToStage1
  obtain ⟨ab, sr, ni, h⟩ := connectStage1ToClientAudio_frame
    { s with stage1Format := fmt, stage1IsDummy := dum, stage1Reader := s.selectorBuffer } fmt
  exact ⟨ab, sr, ni, h⟩

theorem updateDialFrequency_frame (s : ChainState) :
    ∃ p q, updateDialFrequency s =
      { s with primaryDialFrequency := p, secondaryDialFrequency := q } := by
  unfold updateDialFrequency
  dsimp only
  split
  · split
    · split
      · exact ⟨_, _, rfl⟩
      · exact ⟨_, _, rfl⟩
    · split
      · exact ⟨_, _, rfl⟩
      · exact ⟨s.primaryDialFrequency, s.secondaryDialFrequency, rfl⟩
  · exact ⟨s.primaryDialFrequency, s.secondaryDialFrequency, rfl⟩

theorem syncSquelch_frame (s : ChainState) :
    ∃ q, syncSquelch s = { s with selector := { s.selector with squelchLevel := q } } := by
  unfold syncSquelch
  split
  · exact ⟨_, rfl⟩
  · exact ⟨_, rfl⟩

theorem wireSecondary_frame (s : ChainState) (d : Option Demod2) (r : Nat) :
    ∃ ssr sdr ssel sw ni,
      (wireSecondary s d r).1 =
        { s with secondarySampleRate := ssr, secondaryReader := sdr,
                 secondarySelector := ssel, secondaryDemodWriter := sw,
                 nextBufferId := ni } ∧
      ssel.isSome = s.secondarySelector.isSome := by
  unfold wireSecondary
  match d with
  | none =>
    exact ⟨s.secondarySampleRate, s.secondaryReader, s.secondarySelector,
           s.secondaryDemodWriter, s.nextBufferId, rfl, rfl⟩
  | some d2 =>
    dsimp only
    cases h : s.secondarySelector with
    | some sel =>
      dsimp only
      exact ⟨some r, some s.nextBufferId, some { sel with writer := some s.nextBufferId },
             s.secondaryWriter, s.nextBufferId + 1, rfl, rfl⟩
    | none =>
      dsimp only
      split
      · exact ⟨some r, some s.selectorBuffer, none, s.secondaryWriter, s.nextBufferId,
               rfl, rfl⟩
      · cases hb : s.audioBuffer with
        | some b =>
          dsimp only
          exact ⟨some r, some b.id, none, s.secondaryWriter, s.nextBufferId, rfl, rfl⟩
        | none =>
          dsimp only
          exact ⟨some r, s.secondaryReader, none, s.secondaryDemodWriter, s.nextBufferId,
                 rfl, rfl⟩



theorem adoptSecondary_demodulator (s : ChainState) (d : Option Demod2) :
    (adoptSecondary s d).demodulator = s.demodulator := by
  unfold adoptSecondary
  dsimp only
  repeat' split
  all_goals rfl

theorem adoptSecondary_selector (s : ChainState) (d : Option Demod2) :
    (adoptSecondary s d).selector = s.selector := by
  unfold adoptSecondary
  dsimp only
  repeat' split
  all_goals rfl

theorem adoptSecondary_selectorBuffer (s : ChainState) (d : Option Demod2) :
    (adoptSecondary s d).selectorBuffer = s.selectorBuffer := by
  unfold adoptSecondary
  dsimp only
  repeat' split
  all_goals rfl

theorem adoptSecondary_squelchLevel (s : ChainState) (d : Option Demod2) :
    (adoptSecondary s d).squelchLevel = s.squelchLevel := by
  unfold adoptSecondary
  dsimp only
  repeat' split
  all_goals rfl

theorem adoptSecondary_centerFrequency (s : ChainState) (d : Option Demod2) :
    (adoptSecondary s d).centerFrequency = s.centerFrequency := by
  unfold adoptSecondary
  dsimp only
  repeat' split
  all_goals rfl

theorem adoptSecondary_frequencyOffset (s : ChainState) (d : Option Demod2) :
    (adoptSecondary s d).frequencyOffset = s.frequencyOffset := by
  unfold adoptSecondary
  dsimp only
  repeat' split
  all_goals rfl

theorem adoptSecondary_secondarySelector (s : ChainState) (d : Option Demod2) :
    (adoptSecondary s d).secondarySelector = s.secondarySelector := by
  unfold adoptSecondary
  dsimp only
  repeat' split
  all_goals rfl

theorem adoptSecondary_secondaryFrequencyOffset (s : ChainState) (d : Option Demod2) :
    (adoptSecondary s d).secondaryFrequencyOffset = s.secondaryFrequencyOffset := by
  unfold adoptSecondary
  dsimp only
  repeat' split
  all_goals rfl

theorem adoptSecondary_primaryDialFrequency (s : ChainState) (d : Option Demod2) :
    (adoptSecondary s d).primaryDialFrequency = s.primaryDialFrequency := by
  unfold adoptSecondary
  dsimp only
  repeat' split
  all_goals rfl

theorem adoptSecondary_clientAudioChain (s : ChainState) (d : Option Demod2) :
    (adoptSecondary s d).clientAudioChain = s.clientAudioChain := by
  unfold adoptSecondary
  dsimp only
  repeat' split
  all_goals rfl

theorem adoptSecondary_stoppedPrimaries (s : ChainState) (d : Option Demod2) :
    (adoptSecondary s d).stoppedPrimaries = s.stoppedPrimaries := by
  unfold adoptSecondary
  dsimp only
  repeat' split
  all_goals rfl

theorem adoptSecondary_secondaryFftChain (s : ChainState) (d : Option Demod2) :
    (adoptSecondary s d).secondaryFftChain = s.secondaryFftChain := by
  unfold adoptSecondary
  dsimp only
  repeat' split
  all_goals rfl

theorem adoptSecondary_events (s : ChainState) (d : Option Demod2) :
    (adoptSecondary s d).events = s.events := by
  unfold adoptSecondary
  dsimp only
  repeat' split
  all_goals rfl

theorem adoptSecondary_outputRate (s : ChainState) (d : Option Demod2) :
    (adoptSecondary s d).outputRate = s.outputRate := by
  unfold adoptSecondary
  dsimp only
  repeat' split
  all_goals rfl

theorem adoptSecondary_hdOutputRate (s : ChainState) (d : Option Demod2) :
    (adoptSecondary s d).hdOutputRate = s.hdOutputRate := by
  unfold adoptSecondary
  dsimp only
  repeat' split
  all_goals rfl

theorem adoptSecondary_metaWriter (s : ChainState) (d : Option Demod2) :
    (adoptSecondary s d).metaWriter = s.metaWriter := by
  unfold adoptSecondary
  dsimp only
  repeat' split
  all_goals rfl

theorem adoptSecondary_sampleRate (s : ChainState) (d : Option Demod2) :
    (adoptSecondary s d).sampleRate = s.sampleRate := by
  unfold adoptSecondary
  dsimp only
  repeat' split
  all_goals rfl

theorem adoptSecondary_secondaryFftSize (s : ChainState) (d : Option Demod2) :
    (adoptSecondary s d).secondaryFftSize = s.secondaryFftSize := by
  unfold adoptSecondary
  dsimp only
  repeat' split
  all_goals rfl

theorem adoptSecondary_secondaryFftOverlapFactor (s : ChainState) (d : Option Demod2) :
    (adoptSecondary s d).secondaryFftOverlapFactor = s.secondaryFftOverlapFactor := by
  unfold adoptSecondary
  dsimp only
  repeat' split
  all_goals rfl

theorem adoptSecondary_secondaryFftFps (s : ChainState) (d : Option Demod2) :
    (adoptSecondary s d).secondaryFftFps = s.secondaryFftFps := by
  unfold adoptSecondary
  dsimp only
  repeat' split
  all_goals rfl

theorem adoptSecondary_secondaryFftCompression (s : ChainState) (d : Option Demod2) :
    (adoptSecondary s d).secondaryFftCompression = s.secondaryFftCompression := by
  unfold adoptSecondary
  dsimp only
  repeat' split
  all_goals rfl

theorem adoptSecondary_stoppedFftChains (s : ChainState) (d : Option Demod2) :
    (adoptSecondary s d).stoppedFftChains = s.stoppedFftChains := by
  unfold adoptSecondary
  dsimp only
  repeat' split
  all_goals rfl

theorem adoptSecondary_secondaryFftWriter (s : ChainState) (d : Option Demod2) :
    (adoptSecondary s d).secondaryFftWriter = s.secondaryFftWriter := by
  unfold adoptSecondary
  dsimp only
  repeat' split
  all_goals rfl

theorem adoptSecondary_secondaryWriter (s : ChainState) (d : Option Demod2) :
    (adoptSecondary s d).secondaryWriter = s.secondaryWriter := by
  unfold adoptSecondary
  dsimp only
  repeat' split
  all_goals rfl

theorem adoptSecondary_stage1Format (s : ChainState) (d : Option Demod2) :
    (adoptSecondary s d).stage1Format = s.stage1Format := by
  unfold adoptSecondary
  dsimp only
  repeat' split
  all_goals rfl

theorem adoptSecondary_stage1IsDummy (s : ChainState) (d : Option Demod2) :
    (adoptSecondary s d).stage1IsDummy = s.stage1IsDummy := by
  unfold adoptSecondary
  dsimp only
  repeat' split
  all_goals rfl

theorem adoptSecondary_audioBuffer (s : ChainState) (d : Option Demod2) :
    (adoptSecondary s d).audioBuffer = s.audioBuffer := by
  unfold adoptSecondary
  dsimp only
  repeat' split
  all_goals rfl

theorem adoptSecondary_nextBufferId (s : ChainState) (d : Option Demod2) :
    (adoptSecondary s d).nextBufferId = s.nextBufferId := by
  unfold adoptSecondary
  dsimp only
  repeat' split
  all_goals rfl

theorem adoptSecondary_primarySampleRate (s : ChainState) (d : Option Demod2) :
    (adoptSecondary s d).primarySampleRate = s.primarySampleRate := by
  unfold adoptSecondary
  dsimp only
  repeat' split
  all_goals rfl

theorem adoptSecondary_secondaryDemodulator (s : ChainState) (d : Option Demod2) :
    (adoptSecondary s d).secondaryDemodulator = d := by
  unfold adoptSecondary
  dsimp only
  repeat' split
  all_goals rfl

theorem adoptSecondary_secondaryDialFrequency (s : ChainState) (d : Option Demod2) :
    (adoptSecondary s d).secondaryDialFrequency = none := by
  unfold adoptSecondary
  dsimp only
  repeat' split
  all_goals rfl

theorem applySecondaryRates_demodulator (s : ChainState) (r : Nat) :
    (applySecondaryRates s r).demodulator = s.demodulator := by
  unfold applySecondaryRates
  dsimp only
  repeat' split
  all_goals rfl

theorem applySecondaryRates_secondaryDemodulator (s : ChainState) (r : Nat) :
    (applySecondaryRates s r).secondaryDemodulator = s.secondaryDemodulator := by
  unfold applySecondaryRates
  dsimp only
  repeat' split
  all_goals rfl

theorem applySecondaryRates_selectorBuffer (s : ChainState) (r : Nat) :
    (applySecondaryRates s r).selectorBuffer = s.selectorBuffer := by
  unfold applySecondaryRates
  dsimp only
  repeat' split
  all_goals rfl

theorem applySecondaryRates_squelchLevel (s : ChainState) (r : Nat) :
    (applySecondaryRates s r).squelchLevel = s.squelchLevel := by
  unfold applySecondaryRates
  dsimp only
  repeat' split
  all_goals rfl

theorem applySecondaryRates_centerFrequency (s : ChainState) (r : Nat) :
    (applySecondaryRates s r).centerFrequency = s.centerFrequency := by
  unfold applySecondaryRates
  dsimp only
  repeat' split
  all_goals rfl

theorem applySecondaryRates_frequencyOffset (s : ChainState) (r : Nat) :
    (applySecondaryRates s r).frequencyOffset = s.frequencyOffset := by
  unfold applySecondaryRates
  dsimp only
  repeat' split
  all_goals rfl

theorem applySecondaryRates_secondarySelector (s : ChainState) (r : Nat) :
    (applySecondaryRates s r).secondarySelector = s.secondarySelector := by
  unfold applySecondaryRates
  dsimp only
  repeat' split
  all_goals rfl

theorem applySecondaryRates_secondaryFrequencyOffset (s : ChainState) (r : Nat) :
    (applySecondaryRates s r).secondaryFrequencyOffset = s.secondaryFrequencyOffset := by
  unfold applySecondaryRates
  dsimp only
  repeat' split
  all_goals rfl

theorem applySecondaryRates_primaryDialFrequency (s : ChainState) (r : Nat) :
    (applySecondaryRates s r).primaryDialFrequency = s.primaryDialFrequency := by
  unfold applySecondaryRates
  dsimp only
  repeat' split
  all_goals rfl

theorem applySecondaryRates_secondaryDialFrequency (s : ChainState) (r : Nat) :
    (applySecondaryRates s r).secondaryDialFrequency = s.secondaryDialFrequency := by
  unfold applySecondaryRates
  dsimp only
  repeat' split
  all_goals rfl

theorem applySecondaryRates_stoppedPrimaries (s : ChainState) (r : Nat) :
    (applySecondaryRates s r).stoppedPrimaries = s.stoppedPrimaries := by
  unfold applySecondaryRates
  dsimp only
  repeat' split
  all_goals rfl

theorem applySecondaryRates_secondaryFftChain (s : ChainState) (r : Nat) :
    (applySecondaryRates s r).secondaryFftChain = s.secondaryFftChain := by
  unfold applySecondaryRates
  dsimp only
  repeat' split
  all_goals rfl

theorem applySecondaryRates_events (s : ChainState) (r : Nat) :
    (applySecondaryRates s r).events = s.events := by
  unfold applySecondaryRates
  dsimp only
  repeat' split
  all_goals rfl

theorem applySecondaryRates_outputRate (s : ChainState) (r : Nat) :
    (applySecondaryRates s r).outputRate = s.outputRate := by
  unfold applySecondaryRates
  dsimp only
  repeat' split
  all_goals rfl

theorem applySecondaryRates_hdOutputRate (s : ChainState) (r : Nat) :
    (applySecondaryRates s r).hdOutputRate = s.hdOutputRate := by
  unfold applySecondaryRates
  dsimp only
  repeat' split
  all_goals rfl

theorem applySecondaryRates_metaWriter (s : ChainState) (r : Nat) :
    (applySecondaryRates s r).metaWriter = s.metaWriter := by
  unfold applySecondaryRates
  dsimp only
  repeat' split
  all_goals rfl

theorem applySecondaryRates_sampleRate (s : ChainState) (r : Nat) :
    (applySecondaryRates s r).sampleRate = s.sampleRate := by
  unfold applySecondaryRates
  dsimp only
  repeat' split
  all_goals rfl

theorem applySecondaryRates_secondaryFftSize (s : ChainState) (r : Nat) :
    (applySecondaryRates s r).secondaryFftSize = s.secondaryFftSize := by
  unfold applySecondaryRates
  dsimp only
  repeat' split
  all_goals rfl

theorem applySecondaryRates_secondaryFftOverlapFactor (s : ChainState) (r : Nat) :
    (applySecondaryRates s r).secondaryFftOverlapFactor = s.secondaryFftOverlapFactor := by
  unfold applySecondaryRates
  dsimp only
  repeat' split
  all_goals rfl

theorem applySecondaryRates_secondaryFftFps (s : ChainState) (r : Nat) :
    (applySecondaryRates s r).secondaryFftFps = s.secondaryFftFps := by
  unfold applySecondaryRates
  dsimp only
  repeat' split
  all_goals rfl

theorem applySecondaryRates_secondaryFftCompression (s : ChainState) (r : Nat) :
    (applySecondaryRates s r).secondaryFftCompression = s.secondaryFftCompression := by
  unfold applySecondaryRates
  dsimp only
  repeat' split
  all_goals rfl

theorem applySecondaryRates_stoppedFftChains (s : ChainState) (r : Nat) :
    (applySecondaryRates s r).stoppedFftChains = s.stoppedFftChains := by
  unfold applySecondaryRates
  dsimp only
  repeat' split
  all_goals rfl

theorem applySecondaryRates_secondaryFftWriter (s : ChainState) (r : Nat) :
    (applySecondaryRates s r).secondaryFftWriter = s.secondaryFftWriter := by
  unfold applySecondaryRates
  dsimp only
  repeat' split
  all_goals rfl

theorem applySecondaryRates_secondaryWriter (s : ChainState) (r : Nat) :
    (applySecondaryRates s r).secondaryWriter = s.secondaryWriter := by
  unfold applySecondaryRates
  dsimp only
  repeat' split
  all_goals rfl

theorem applySecondaryRates_stage1Format (s : ChainState) (r : Nat) :
    (applySecondaryRates s r).stage1Format = s.stage1Format := by
  unfold applySecondaryRates
  dsimp only
  repeat' split
  all_goals rfl

theorem applySecondaryRates_stage1IsDummy (s : ChainState) (r : Nat) :
    (applySecondaryRates s r).stage1IsDummy = s.stage1IsDummy := by
  unfold applySecondaryRates
  dsimp only
  repeat' split
  all_goals rfl

theorem applySecondaryRates_audioBuffer (s : ChainState) (r : Nat) :
    (applySecondaryRates s r).audioBuffer = s.audioBuffer := by
  unfold applySecondaryRates
  dsimp only
  repeat' split
  all_goals rfl

theorem applySecondaryRates_nextBufferId (s : ChainState) (r : Nat) :
    (applySecondaryRates s r).nextBufferId = s.nextBufferId := by
  unfold applySecondaryRates
  dsimp only
  repeat' split
  all_goals rfl

theorem applySecondaryRates_stoppedSecondaries (s : ChainState) (r : Nat) :
    (applySecondaryRates s r).stoppedSecondaries = s.stoppedSecondaries := by
  unfold applySecondaryRates
  dsimp only
  repeat' split
  all_goals rfl

theorem applySecondaryRates_secondaryReader (s : ChainState) (r : Nat) :
    (applySecondaryRates s r).secondaryReader = s.secondaryReader := by
  unfold applySecondaryRates
  dsimp only
  repeat' split
  all_goals rfl

theorem applySecondaryRates_secondaryDemodWriter (s : ChainState) (r : Nat) :
    (applySecondaryRates s r).secondaryDemodWriter = s.secondaryDemodWriter := by
  unfold applySecondaryRates
  dsimp only
  repeat' split
  all_goals rfl

theorem applySecondaryRates_selector_eq (s : ChainState) (r : Nat) :
    (applySecondaryRates s r).selector = { s.selector with outputRate := r } := by
  unfold applySecondaryRates
  dsimp only
  repeat' split
  all_goals rfl

theorem applySecondaryRates_cacFormat (s : ChainState) (r : Nat) :
    (applySecondaryRates s r).clientAudioChain.format = s.clientAudioChain.format := by
  unfold applySecondaryRates
  dsimp only
  repeat' split
  all_goals rfl

theorem applyFftRate_demodulator (s : ChainState) (r : Nat) :
    (applyFftRate s r).demodulator = s.demodulator := by
  unfold applyFftRate
  split <;> rfl

theorem createSecondaryFftChain_demodulator (s : ChainState) :
    ((createSecondaryFftChain s).1).demodulator = s.demodulator := by
  unfold createSecondaryFftChain
  dsimp only
  split <;> split <;> rfl

theorem manageSecondaryFft_demodulator (s : ChainState) (d : Option Demod2) (r : Nat) :
    ((manageSecondaryFft s d r).1).demodulator = s.demodulator := by
  unfold manageSecondaryFft
  dsimp only
  repeat' split
  all_goals simp only [applyFftRate_demodulator, createSecondaryFftChain_demodulator]

theorem applyFftRate_secondaryDemodulator (s : ChainState) (r : Nat) :
    (applyFftRate s r).secondaryDemodulator = s.secondaryDemodulator := by
  unfold applyFftRate
  split <;> rfl

theorem createSecondaryFftChain_secondaryDemodulator (s : ChainState) :
    ((createSecondaryFftChain s).1).secondaryDemodulator = s.secondaryDemodulator := by
  unfold createSecondaryFftChain
  dsimp only
  split <;> split <;> rfl

theorem manageSecondaryFft_secondaryDemodulator (s : ChainState) (d : Option Demod2) (r : Nat) :
    ((manageSecondaryFft s d r).1).secondaryDemodulator = s.secondaryDemodulator := by
  unfold manageSecondaryFft
  dsimp only
  repeat' split
  all_goals simp only [applyFftRate_secondaryDemodulator, createSecondaryFftChain_secondaryDemodulator]

theorem applyFftRate_selector (s : ChainState) (r : Nat) :
    (applyFftRate s r).selector = s.selector := by
  unfold applyFftRate
  split <;> rfl

theorem createSecondaryFftChain_selector (s : ChainState) :
    ((createSecondaryFftChain s).1).selector = s.selector := by
  unfold createSecondaryFftChain
  dsimp only
  split <;> split <;> rfl

theorem manageSecondaryFft_selector (s : ChainState) (d : Option Demod2) (r : Nat) :
    ((manageSecondaryFft s d r).1).selector = s.selector := by
  unfold manageSecondaryFft
  dsimp only
  repeat' split
  all_goals simp only [applyFftRate_selector, createSecondaryFftChain_selector]

theorem applyFftRate_selectorBuffer (s : ChainState) (r : Nat) :
    (applyFftRate s r).selectorBuffer = s.selectorBuffer := by
  unfold applyFftRate
  split <;> rfl

theorem createSecondaryFftChain_selectorBuffer (s : ChainState) :
    ((createSecondaryFftChain s).1).selectorBuffer = s.selectorBuffer := by
  unfold createSecondaryFftChain
  dsimp only
  split <;> split <;> rfl

theorem manageSecondaryFft_selectorBuffer (s : ChainState) (d : Option Demod2) (r : Nat) :
    ((manageSecondaryFft s d r).1).selectorBuffer = s.selectorBuffer := by
  unfold manageSecondaryFft
  dsimp only
  repeat' split
  all_goals simp only [applyFftRate_selectorBuffer, createSecondaryFftChain_selectorBuffer]

theorem applyFftRate_squelchLevel (s : ChainState) (r : Nat) :
    (applyFftRate s r).squelchLevel = s.squelchLevel := by
  unfold applyFftRate
  split <;> rfl

theorem createSecondaryFftChain_squelchLevel (s : ChainState) :
    ((createSecondaryFftChain s).1).squelchLevel = s.squelchLevel := by
  unfold createSecondaryFftChain
  dsimp only
  split <;> split <;> rfl

theorem manageSecondaryFft_squelchLevel (s : ChainState) (d : Option Demod2) (r : Nat) :
    ((manageSecondaryFft s d r).1).squelchLevel = s.squelchLevel := by
  unfold manageSecondaryFft
  dsimp only
  repeat' split
  all_goals simp only [applyFftRate_squelchLevel, createSecondaryFftChain_squelchLevel]

theorem applyFftRate_centerFrequency (s : ChainState) (r : Nat) :
    (applyFftRate s r).centerFrequency = s.centerFrequency := by
  unfold applyFftRate
  split <;> rfl

theorem createSecondaryFftChain_centerFrequency (s : ChainState) :
    ((createSecondaryFftChain s).1).centerFrequency = s.centerFrequency := by
  unfold createSecondaryFftChain
  dsimp only
  split <;> split <;> rfl

theorem manageSecondaryFft_centerFrequency (s : ChainState) (d : Option Demod2) (r : Nat) :
    ((manageSecondaryFft s d r).1).centerFrequency = s.centerFrequency := by
  unfold manageSecondaryFft
  dsimp only
  repeat' split
  all_goals simp only [applyFftRate_centerFrequency, createSecondaryFftChain_centerFrequency]

theorem applyFftRate_frequencyOffset (s : ChainState) (r : Nat) :
    (applyFftRate s r).frequencyOffset = s.frequencyOffset := by
  unfold applyFftRate
  split <;> rfl

theorem createSecondaryFftChain_frequencyOffset (s : ChainState) :
    ((createSecondaryFftChain s).1).frequencyOffset = s.frequencyOffset := by
  unfold createSecondaryFftChain
  dsimp only
  split <;> split <;> rfl

theorem manageSecondaryFft_frequencyOffset (s : ChainState) (d : Option Demod2) (r : Nat) :
    ((manageSecondaryFft s d r).1).frequencyOffset = s.frequencyOffset := by
  unfold manageSecondaryFft
  dsimp only
  repeat' split
  all_goals simp only [applyFftRate_frequencyOffset, createSecondaryFftChain_frequencyOffset]

theorem applyFftRate_secondarySelector (s : ChainState) (r : Nat) :
    (applyFftRate s r).secondarySelector = s.secondarySelector := by
  unfold applyFftRate
  split <;> rfl

theorem createSecondaryFftChain_secondarySelector (s : ChainState) :
    ((createSecondaryFftChain s).1).secondarySelector = s.secondarySelector := by
  unfold createSecondaryFftChain
  dsimp only
  split <;> split <;> rfl

theorem manageSecondaryFft_secondarySelector (s : ChainState) (d : Option Demod2) (r : Nat) :
    ((manageSecondaryFft s d r).1).secondarySelector = s.secondarySelector := by
  unfold manageSecondaryFft
  dsimp only
  repeat' split
  all_goals simp only [applyFftRate_secondarySelector, createSecondaryFftChain_secondarySelector]

theorem applyFftRate_secondaryFrequencyOffset (s : ChainState) (r : Nat) :
    (applyFftRate s r).secondaryFrequencyOffset = s.secondaryFrequencyOffset := by
  unfold applyFftRate
  split <;> rfl

theorem createSecondaryFftChain_secondaryFrequencyOffset (s : ChainState) :
    ((createSecondaryFftChain s).1).secondaryFrequencyOffset = s.secondaryFrequencyOffset := by
  unfold createSecondaryFftChain
  dsimp only
  split <;> split <;> rfl

theorem manageSecondaryFft_secondaryFrequencyOffset (s : ChainState) (d : Option Demod2) (r : Nat) :
    ((manageSecondaryFft s d r).1).secondaryFrequencyOffset = s.secondaryFrequencyOffset := by
  unfold manageSecondaryFft
  dsimp only
  repeat' split
  all_goals simp only [applyFftRate_secondaryFrequencyOffset, createSecondaryFftChain_secondaryFrequencyOffset]

theorem applyFftRate_primaryDialFrequency (s : ChainState) (r : Nat) :
    (applyFftRate s r).primaryDialFrequency = s.primaryDialFrequency := by
  unfold applyFftRate
  split <;> rfl

theorem createSecondaryFftChain_primaryDialFrequency (s : ChainState) :
    ((createSecondaryFftChain s).1).primaryDialFrequency = s.primaryDialFrequency := by
  unfold createSecondaryFftChain
  dsimp only
  split <;> split <;> rfl

theorem manageSecondaryFft_primaryDialFrequency (s : ChainState) (d : Option Demod2) (r : Nat) :
    ((manageSecondaryFft s d r).1).primaryDialFrequency = s.primaryDialFrequency := by
  unfold manageSecondaryFft
  dsimp only
  repeat' split
  all_goals simp only [applyFftRate_primaryDialFrequency, createSecondaryFftChain_primaryDialFrequency]

theorem applyFftRate_secondaryDialFrequency (s : ChainState) (r : Nat) :
    (applyFftRate s r).secondaryDialFrequency = s.secondaryDialFrequency := by
  unfold applyFftRate
  split <;> rfl

theorem createSecondaryFftChain_secondaryDialFrequency (s : ChainState) :
    ((createSecondaryFftChain s).1).secondaryDialFrequency = s.secondaryDialFrequency := by
  unfold createSecondaryFftChain
  dsimp only
  split <;> split <;> rfl

theorem manageSecondaryFft_secondaryDialFrequency (s : ChainState) (d : Option Demod2) (r : Nat) :
    ((manageSecondaryFft s d r).1).secondaryDialFrequency = s.secondaryDialFrequency := by
  unfold manageSecondaryFft
  dsimp only
  repeat' split
  all_goals simp only [applyFftRate_secondaryDialFrequency, createSecondaryFftChain_secondaryDialFrequency]

theorem applyFftRate_clientAudioChain (s : ChainState) (r : Nat) :
    (applyFftRate s r).clientAudioChain = s.clientAudioChain := by
  unfold applyFftRate
  split <;> rfl

theorem createSecondaryFftChain_clientAudioChain (s : ChainState) :
    ((createSecondaryFftChain s).1).clientAudioChain = s.clientAudioChain := by
  unfold createSecondaryFftChain
  dsimp only
  split <;> split <;> rfl

theorem manageSecondaryFft_clientAudioChain (s : ChainState) (d : Option Demod2) (r : Nat) :
    ((manageSecondaryFft s d r).1).clientAudioChain = s.clientAudioChain := by
  unfold manageSecondaryFft
  dsimp only
  repeat' split
  all_goals simp only [applyFftRate_clientAudioChain, createSecondaryFftChain_clientAudioChain]

theorem applyFftRate_stage1Format (s : ChainState) (r : Nat) :
    (applyFftRate s r).stage1Format = s.stage1Format := by
  unfold applyFftRate
  split <;> rfl

theorem createSecondaryFftChain_stage1Format (s : ChainState) :
    ((createSecondaryFftChain s).1).stage1Format = s.stage1Format := by
  unfold createSecondaryFftChain
  dsimp only
  split <;> split <;> rfl

theorem manageSecondaryFft_stage1Format (s : ChainState) (d : Option Demod2) (r : Nat) :
    ((manageSecondaryFft s d r).1).stage1Format = s.stage1Format := by
  unfold manageSecondaryFft
  dsimp only
  repeat' split
  all_goals simp only [applyFftRate_stage1Format, createSecondaryFftChain_stage1Format]

theorem applyFftRate_stage1IsDummy (s : ChainState) (r : Nat) :
    (applyFftRate s r).stage1IsDummy = s.stage1IsDummy := by
  unfold applyFftRate
  split <;> rfl

theorem createSecondaryFftChain_stage1IsDummy (s : ChainState) :
    ((createSecondaryFftChain s).1).stage1IsDummy = s.stage1IsDummy := by
  unfold createSecondaryFftChain
  dsimp only
  split <;> split <;> rfl

theorem manageSecondaryFft_stage1IsDummy (s : ChainState) (d : Option Demod2) (r : Nat) :
    ((manageSecondaryFft s d r).1).stage1IsDummy = s.stage1IsDummy := by
  unfold manageSecondaryFft
  dsimp only
  repeat' split
  all_goals simp only [applyFftRate_stage1IsDummy, createSecondaryFftChain_stage1IsDummy]

theorem applyFftRate_stoppedPrimaries (s : ChainState) (r : Nat) :
    (applyFftRate s r).stoppedPrimaries = s.stoppedPrimaries := by
  unfold applyFftRate
  split <;> rfl

theorem createSecondaryFftChain_stoppedPrimaries (s : ChainState) :
    ((createSecondaryFftChain s).1).stoppedPrimaries = s.stoppedPrimaries := by
  unfold createSecondaryFftChain
  dsimp only
  split <;> split <;> rfl

theorem manageSecondaryFft_stoppedPrimaries (s : ChainState) (d : Option Demod2) (r : Nat) :
    ((manageSecondaryFft s d r).1).stoppedPrimaries = s.stoppedPrimaries := by
  unfold manageSecondaryFft
  dsimp only
  repeat' split
  all_goals simp only [applyFftRate_stoppedPrimaries, createSecondaryFftChain_stoppedPrimaries]

theorem applyFftRate_audioBuffer (s : ChainState) (r : Nat) :
    (applyFftRate s r).audioBuffer = s.audioBuffer := by
  unfold applyFftRate
  split <;> rfl

theorem createSecondaryFftChain_audioBuffer (s : ChainState) :
    ((createSecondaryFftChain s).1).audioBuffer = s.audioBuffer := by
  unfold createSecondaryFftChain
  dsimp only
  split <;> split <;> rfl

theorem manageSecondaryFft_audioBuffer (s : ChainState) (d : Option Demod2) (r : Nat) :
    ((manageSecondaryFft s d r).1).audioBuffer = s.audioBuffer := by
  unfold manageSecondaryFft
  dsimp only
  repeat' split
  all_goals simp only [applyFftRate_audioBuffer, createSecondaryFftChain_audioBuffer]

theorem applyFftRate_outputRate (s : ChainState) (r : Nat) :
    (applyFftRate s r).outputRate = s.outputRate := by
  unfold applyFftRate
  split <;> rfl

theorem createSecondaryFftChain_outputRate (s : ChainState) :
    ((createSecondaryFftChain s).1).outputRate = s.outputRate := by
  unfold createSecondaryFftChain
  dsimp only
  split <;> split <;> rfl

theorem manageSecondaryFft_outputRate (s : ChainState) (d : Option Demod2) (r : Nat) :
    ((manageSecondaryFft s d r).1).outputRate = s.outputRate := by
  unfold manageSecondaryFft
  dsimp only
  repeat' split
  all_goals simp only [applyFftRate_outputRate, createSecondaryFftChain_outputRate]

theorem applyFftRate_hdOutputRate (s : ChainState) (r : Nat) :
    (applyFftRate s r).hdOutputRate = s.hdOutputRate := by
  unfold applyFftRate
  split <;> rfl

theorem createSecondaryFftChain_hdOutputRate (s : ChainState) :
    ((createSecondaryFftChain s).1).hdOutputRate = s.hdOutputRate := by
  unfold createSecondaryFftChain
  dsimp only
  split <;> split <;> rfl

theorem manageSecondaryFft_hdOutputRate (s : ChainState) (d : Option Demod2) (r : Nat) :
    ((manageSecondaryFft s d r).1).hdOutputRate = s.hdOutputRate := by
  unfold manageSecondaryFft
  dsimp only
  repeat' split
  all_goals simp only [applyFftRate_hdOutputRate, createSecondaryFftChain_hdOutputRate]

/-- C1: for every combination of primary and secondary demodulator
capabilities, the selector output rate computed by _getSelectorOutputRate
and the client audio input rate computed by _getClientAudioInputRate agree
with the spec's derivation rules for R_sel (fixed IF rate first, then the
secondary's fixed audio rate with the IncompatibleRates check against the
primary's fixed audio rate, then the HdAudio/output_rate fallback) and
R_aud (primary fixed audio rate, then secondary's, then the same
fallback). -/
theorem rate_derivation_follows_spec (s : ChainState) :
    getSelectorOutputRate s =
      spec_R_sel s.demodulator s.secondaryDemodulator s.outputRate s.hdOutputRate ∧
    getClientAudioInputRate s =
      spec_R_aud s.demodulator s.secondaryDemodulator s.outputRate s.hdOutputRate := by
  constructor
  · unfold getSelectorOutputRate spec_R_sel
      primaryFixedIf primaryFixedAudio secondaryFixedAudio primaryIsHd
    cases s.demodulator <;> cases s.secondaryDemodulator <;> rfl
  · unfold getClientAudioInputRate spec_R_aud
      primaryFixedAudio secondaryFixedAudio primaryIsHd
    cases s.demodulator <;> cases s.secondaryDemodulator <;> rfl

/-- C8: the unpickler wrapper dispatches every chunk as follows: the guard
it tests is exactly the negation of the serialized-object magic pattern; a
non-magic chunk is delivered once as replacement-decoded ASCII text; a
magic chunk is decoded into its records, delivered in order; and a
decoding failure (UnpicklingError) falls back to delivering the chunk as
best-effort ASCII text after the records read so far — the dispatcher is a
total function, so nothing is raised to the pump thread. -/
theorem unpickler_dispatch {α : Type} (dec : List Nat → List α × PickleEnd) (b : List Nat) :
    notPickled b = !magicPattern b ∧
    (magicPattern b = false → unpickler dec b = [Delivered.text (asciiDecode b)]) ∧
    (magicPattern b = true → (dec b).2 = PickleEnd.eof →
      unpickler dec b = (dec b).1.map Delivered.record) ∧
    (magicPattern b = true → (dec b).2 = PickleEnd.unpicklingError →
      unpickler dec b = (dec b).1.map Delivered.record ++ [Delivered.text (asciiDecode b)]) := by
  have hnp : notPickled b = !magicPattern b := by
    match b with
    | [] => rfl
    | [b0] => rfl
    | b0 :: b1 :: t =>
      cases hx : (b0 == 0x80) <;>
        cases h3 : decide (3 ≤ b1) <;>
          cases h5 : decide (b1 ≤ HIGHEST_PICKLE_PROTOCOL) <;>
            simp [notPickled, magicPattern, List.get?, hx, h3, h5]
  refine ⟨hnp, ?_, ?_, ?_⟩
  · intro hm
    unfold unpickler
    rw [hnp, hm]
    rfl
  · intro hm hd
    unfold unpickler
    rw [hnp, hm]
    rcases hdec : dec b with ⟨recs, en⟩
    cases en <;> simp_all
  · intro hm hd
    unfold unpickler
    rw [hnp, hm]
    rcases hdec : dec b with ⟨recs, en⟩
    cases en <;> simp_all

/-- Witness for C8 at a concrete magic chunk and a concrete decoder. -/
theorem unpickler_dispatch_witness :
    magicPattern [0x80, 4, 99] = true ∧
    unpickler (fun _ => ([7], PickleEnd.eof)) [0x80, 4, 99] = [Delivered.record 7] := by
  refine ⟨rfl, ?_⟩
  have h := (unpickler_dispatch (fun _ => ([(7 : Nat)], PickleEnd.eof)) [0x80, 4, 99]).2.2.1
  exact (h rfl rfl).trans rfl

theorem replace1_demodulator (s : ChainState) (fmt : SFormat) (dum : Bool) :
    (replace1 s fmt dum).demodulator = s.demodulator := by
  obtain ⟨ab, sr, ni, h⟩ := replace1_frame s fmt dum
  rw [h]

theorem replace1_secondaryDemodulator (s : ChainState) (fmt : SFormat) (dum : Bool) :
    (replace1 s fmt dum).secondaryDemodulator = s.secondaryDemodulator := by
  obtain ⟨ab, sr, ni, h⟩ := replace1_frame s fmt dum
  rw [h]

theorem replace1_selector (s : ChainState) (fmt : SFormat) (dum : Bool) :
    (replace1 s fmt dum).selector = s.selector := by
  obtain ⟨ab, sr, ni, h⟩ := replace1_frame s fmt dum
  rw [h]

theorem replace1_selectorBuffer (s : ChainState) (fmt : SFormat) (dum : Bool) :
    (replace1 s fmt dum).selectorBuffer = s.selectorBuffer := by
  obtain ⟨ab, sr, ni, h⟩ := replace1_frame s fmt dum
  rw [h]

theorem replace1_squelchLevel (s : ChainState) (fmt : SFormat) (dum : Bool) :
    (replace1 s fmt dum).squelchLevel = s.squelchLevel := by
  obtain ⟨ab, sr, ni, h⟩ := replace1_frame s fmt dum
  rw [h]

theorem replace1_centerFrequency (s : ChainState) (fmt : SFormat) (dum : Bool) :
    (replace1 s fmt dum).centerFrequency = s.centerFrequency := by
  obtain ⟨ab, sr, ni, h⟩ := replace1_frame s fmt dum
  rw [h]

theorem replace1_frequencyOffset (s : ChainState) (fmt : SFormat) (dum : Bool) :
    (replace1 s fmt dum).frequencyOffset = s.frequencyOffset := by
  obtain ⟨ab, sr, ni, h⟩ := replace1_frame s fmt dum
  rw [h]

theorem replace1_secondarySelector (s : ChainState) (fmt : SFormat) (dum : Bool) :
    (replace1 s fmt dum).secondarySelector = s.secondarySelector := by
  obtain ⟨ab, sr, ni, h⟩ := replace1_frame s fmt dum
  rw [h]

theorem replace1_secondaryFrequencyOffset (s : ChainState) (fmt : SFormat) (dum : Bool) :
    (replace1 s fmt dum).secondaryFrequencyOffset = s.secondaryFrequencyOffset := by
  obtain ⟨ab, sr, ni, h⟩ := replace1_frame s fmt dum
  rw [h]

theorem replace1_primaryDialFrequency (s : ChainState) (fmt : SFormat) (dum : Bool) :
    (replace1 s fmt dum).primaryDialFrequency = s.primaryDialFrequency := by
  obtain ⟨ab, sr, ni, h⟩ := replace1_frame s fmt dum
  rw [h]

theorem replace1_secondaryDialFrequency (s : ChainState) (fmt : SFormat) (dum : Bool) :
    (replace1 s fmt dum).secondaryDialFrequency = s.secondaryDialFrequency := by
  obtain ⟨ab, sr, ni, h⟩ := replace1_frame s fmt dum
  rw [h]

theorem replace1_clientAudioChain (s : ChainState) (fmt : SFormat) (dum : Bool) :
    (replace1 s fmt dum).clientAudioChain = s.clientAudioChain := by
  obtain ⟨ab, sr, ni, h⟩ := replace1_frame s fmt dum
  rw [h]

theorem replace1_stoppedPrimaries (s : ChainState) (fmt : SFormat) (dum : Bool) :
    (replace1 s fmt dum).stoppedPrimaries = s.stoppedPrimaries := by
  obtain ⟨ab, sr, ni, h⟩ := replace1_frame s fmt dum
  rw [h]

theorem replace1_secondaryFftChain (s : ChainState) (fmt : SFormat) (dum : Bool) :
    (replace1 s fmt dum).secondaryFftChain = s.secondaryFftChain := by
  obtain ⟨ab, sr, ni, h⟩ := replace1_frame s fmt dum
  rw [h]

theorem replace1_events (s : ChainState) (fmt : SFormat) (dum : Bool) :
    (replace1 s fmt dum).events = s.events := by
  obtain ⟨ab, sr, ni, h⟩ := replace1_frame s fmt dum
  rw [h]

theorem replace1_outputRate (s : ChainState) (fmt : SFormat) (dum : Bool) :
    (replace1 s fmt dum).outputRate = s.outputRate := by
  obtain ⟨ab, sr, ni, h⟩ := replace1_frame s fmt dum
  rw [h]

theorem replace1_hdOutputRate (s : ChainState) (fmt : SFormat) (dum : Bool) :
    (replace1 s fmt dum).hdOutputRate = s.hdOutputRate := by
  obtain ⟨ab, sr, ni, h⟩ := replace1_frame s fmt dum
  rw [h]

theorem replace1_metaWriter (s : ChainState) (fmt : SFormat) (dum : Bool) :
    (replace1 s fmt dum).metaWriter = s.metaWriter := by
  obtain ⟨ab, sr, ni, h⟩ := replace1_frame s fmt dum
  rw [h]

theorem replace1_sampleRate (s : ChainState) (fmt : SFormat) (dum : Bool) :
    (replace1 s fmt dum).sampleRate = s.sampleRate := by
  obtain ⟨ab, sr, ni, h⟩ := replace1_frame s fmt dum
  rw [h]

theorem replace1_secondaryFftSize (s : ChainState) (fmt : SFormat) (dum : Bool) :
    (replace1 s fmt dum).secondaryFftSize = s.secondaryFftSize := by
  obtain ⟨ab, sr, ni, h⟩ := replace1_frame s fmt dum
  rw [h]

theorem replace1_primarySampleRate (s : ChainState) (fmt : SFormat) (dum : Bool) :
    (replace1 s fmt dum).primarySampleRate = s.primarySampleRate := by
  obtain ⟨ab, sr, ni, h⟩ := replace1_frame s fmt dum
  rw [h]

theorem replace1_stoppedSecondaries (s : ChainState) (fmt : SFormat) (dum : Bool) :
    (replace1 s fmt dum).stoppedSecondaries = s.stoppedSecondaries := by
  obtain ⟨ab, sr, ni, h⟩ := replace1_frame s fmt dum
  rw [h]

theorem replace1_secondaryFftWriter (s : ChainState) (fmt : SFormat) (dum : Bool) :
    (replace1 s fmt dum).secondaryFftWriter = s.secondaryFftWriter := by
  obtain ⟨ab, sr, ni, h⟩ := replace1_frame s fmt dum
  rw [h]

theorem replace1_secondaryWriter (s : ChainState) (fmt : SFormat) (dum : Bool) :
    (replace1 s fmt dum).secondaryWriter = s.secondaryWriter := by
  obtain ⟨ab, sr, ni, h⟩ := replace1_frame s fmt dum
  rw [h]

theorem replace1_stoppedFftChains (s : ChainState) (fmt : SFormat) (dum : Bool) :
    (replace1 s fmt dum).stoppedFftChains = s.stoppedFftChains := by
  obtain ⟨ab, sr, ni, h⟩ := replace1_frame s fmt dum
  rw [h]

theorem updateDialFrequency_demodulator (s : ChainState) :
    (updateDialFrequency s).demodulator = s.demodulator := by
  obtain ⟨p, q, h⟩ := updateDialFrequency_frame s
  rw [h]

theorem updateDialFrequency_secondaryDemodulator (s : ChainState) :
    (updateDialFrequency s).secondaryDemodulator = s.secondaryDemodulator := by
  obtain ⟨p, q, h⟩ := updateDialFrequency_frame s
  rw [h]

theorem updateDialFrequency_selector (s : ChainState) :
    (updateDialFrequency s).selector = s.selector := by
  obtain ⟨p, q, h⟩ := updateDialFrequency_frame s
  rw [h]

theorem updateDialFrequency_selectorBuffer (s : ChainState) :
    (updateDialFrequency s).selectorBuffer = s.selectorBuffer := by
  obtain ⟨p, q, h⟩ := updateDialFrequency_frame s
  rw [h]

theorem updateDialFrequency_squelchLevel (s : ChainState) :
    (updateDialFrequency s).squelchLevel = s.squelchLevel := by
  obtain ⟨p, q, h⟩ := updateDialFrequency_frame s
  rw [h]

theorem updateDialFrequency_centerFrequency (s : ChainState) :
    (updateDialFrequency s).centerFrequency = s.centerFrequency := by
  obtain ⟨p, q, h⟩ := updateDialFrequency_frame s
  rw [h]

theorem updateDialFrequency_frequencyOffset (s : ChainState) :
    (updateDialFrequency s).frequencyOffset = s.frequencyOffset := by
  obtain ⟨p, q, h⟩ := updateDialFrequency_frame s
  rw [h]

theorem updateDialFrequency_secondarySelector (s : ChainState) :
    (updateDialFrequency s).secondarySelector = s.secondarySelector := by
  obtain ⟨p, q, h⟩ := updateDialFrequency_frame s
  rw [h]

theorem updateDialFrequency_secondaryFrequencyOffset (s : ChainState) :
    (updateDialFrequency s).secondaryFrequencyOffset = s.secondaryFrequencyOffset := by
  obtain ⟨p, q, h⟩ := updateDialFrequency_frame s
  rw [h]

theorem updateDialFrequency_clientAudioChain (s : ChainState) :
    (updateDialFrequency s).clientAudioChain = s.clientAudioChain := by
  obtain ⟨p, q, h⟩ := updateDialFrequency_frame s
  rw [h]

theorem updateDialFrequency_stoppedPrimaries (s : ChainState) :
    (updateDialFrequency s).stoppedPrimaries = s.stoppedPrimaries := by
  obtain ⟨p, q, h⟩ := updateDialFrequency_frame s
  rw [h]

theorem updateDialFrequency_secondaryFftChain (s : ChainState) :
    (updateDialFrequency s).secondaryFftChain = s.secondaryFftChain := by
  obtain ⟨p, q, h⟩ := updateDialFrequency_frame s
  rw [h]

theorem updateDialFrequency_events (s : ChainState) :
    (updateDialFrequency s).events = s.events := by
  obtain ⟨p, q, h⟩ := updateDialFrequency_frame s
  rw [h]

theorem updateDialFrequency_outputRate (s : ChainState) :
    (updateDialFrequency s).outputRate = s.outputRate := by
  obtain ⟨p, q, h⟩ := updateDialFrequency_frame s
  rw [h]

theorem updateDialFrequency_hdOutputRate (s : ChainState) :
    (updateDialFrequency s).hdOutputRate = s.hdOutputRate := by
  obtain ⟨p, q, h⟩ := updateDialFrequency_frame s
  rw [h]

theorem updateDialFrequency_metaWriter (s : ChainState) :
    (updateDialFrequency s).metaWriter = s.metaWriter := by
  obtain ⟨p, q, h⟩ := updateDialFrequency_frame s
  rw [h]

theorem updateDialFrequency_sampleRate (s : ChainState) :
    (updateDialFrequency s).sampleRate = s.sampleRate := by
  obtain ⟨p, q, h⟩ := updateDialFrequency_frame s
  rw [h]

theorem updateDialFrequency_secondaryFftSize (s : ChainState) :
    (updateDialFrequency s).secondaryFftSize = s.secondaryFftSize := by
  obtain ⟨p, q, h⟩ := updateDialFrequency_frame s
  rw [h]

theorem updateDialFrequency_primarySampleRate (s : ChainState) :
    (updateDialFrequency s).primarySampleRate = s.primarySampleRate := by
  obtain ⟨p, q, h⟩ := updateDialFrequency_frame s
  rw [h]

theorem updateDialFrequency_stoppedSecondaries (s : ChainState) :
    (updateDialFrequency s).stoppedSecondaries = s.stoppedSecondaries := by
  obtain ⟨p, q, h⟩ := updateDialFrequency_frame s
  rw [h]

theorem updateDialFrequency_audioBuffer (s : ChainState) :
    (updateDialFrequency s).audioBuffer = s.audioBuffer := by
  obtain ⟨p, q, h⟩ := updateDialFrequency_frame s
  rw [h]

theorem updateDialFrequency_nextBufferId (s : ChainState) :
    (updateDialFrequency s).nextBufferId = s.nextBufferId := by
  obtain ⟨p, q, h⟩ := updateDialFrequency_frame s
  rw [h]

theorem updateDialFrequency_secondaryReader (s : ChainState) :
    (updateDialFrequency s).secondaryReader = s.secondaryReader := by
  obtain ⟨p, q, h⟩ := updateDialFrequency_frame s
  rw [h]

theorem updateDialFrequency_secondaryDemodWriter (s : ChainState) :
    (updateDialFrequency s).secondaryDemodWriter = s.secondaryDemodWriter := by
  obtain ⟨p, q, h⟩ := updateDialFrequency_frame s
  rw [h]

theorem updateDialFrequency_secondarySampleRate (s : ChainState) :
    (updateDialFrequency s).secondarySampleRate = s.secondarySampleRate := by
  obtain ⟨p, q, h⟩ := updateDialFrequency_frame s
  rw [h]

theorem updateDialFrequency_stage1Format (s : ChainState) :
    (updateDialFrequency s).stage1Format = s.stage1Format := by
  obtain ⟨p, q, h⟩ := updateDialFrequency_frame s
  rw [h]

theorem updateDialFrequency_stage1IsDummy (s : ChainState) :
    (updateDialFrequency s).stage1IsDummy = s.stage1IsDummy := by
  obtain ⟨p, q, h⟩ := updateDialFrequency_frame s
  rw [h]

theorem updateDialFrequency_stoppedFftChains (s : ChainState) :
    (updateDialFrequency s).stoppedFftChains = s.stoppedFftChains := by
  obtain ⟨p, q, h⟩ := updateDialFrequency_frame s
  rw [h]

theorem updateDialFrequency_secondaryFftWriter (s : ChainState) :
    (updateDialFrequency s).secondaryFftWriter = s.secondaryFftWriter := by
  obtain ⟨p, q, h⟩ := updateDialFrequency_frame s
  rw [h]

theorem updateDialFrequency_secondaryWriter (s : ChainState) :
    (updateDialFrequency s).secondaryWriter = s.secondaryWriter := by
  obtain ⟨p, q, h⟩ := updateDialFrequency_frame s
  rw [h]

theorem syncSquelch_demodulator (s : ChainState) :
    (syncSquelch s).demodulator = s.demodulator := by
  obtain ⟨q, h⟩ := syncSquelch_frame s
  rw [h]

theorem syncSquelch_secondaryDemodulator (s : ChainState) :
    (syncSquelch s).secondaryDemodulator = s.secondaryDemodulator := by
  obtain ⟨q, h⟩ := syncSquelch_frame s
  rw [h]

theorem syncSquelch_squelchLevel (s : ChainState) :
    (syncSquelch s).squelchLevel = s.squelchLevel := by
  obtain ⟨q, h⟩ := syncSquelch_frame s
  rw [h]

theorem syncSquelch_selectorBuffer (s : ChainState) :
    (syncSquelch s).selectorBuffer = s.selectorBuffer := by
  obtain ⟨q, h⟩ := syncSquelch_frame s
  rw [h]

theorem syncSquelch_centerFrequency (s : ChainState) :
    (syncSquelch s).centerFrequency = s.centerFrequency := by
  obtain ⟨q, h⟩ := syncSquelch_frame s
  rw [h]

theorem syncSquelch_frequencyOffset (s : ChainState) :
    (syncSquelch s).frequencyOffset = s.frequencyOffset := by
  obtain ⟨q, h⟩ := syncSquelch_frame s
  rw [h]

theorem syncSquelch_secondarySelector (s : ChainState) :
    (syncSquelch s).secondarySelector = s.secondarySelector := by
  obtain ⟨q, h⟩ := syncSquelch_frame s
  rw [h]

theorem syncSquelch_secondaryFrequencyOffset (s : ChainState) :
    (syncSquelch s).secondaryFrequencyOffset = s.secondaryFrequencyOffset := by
  obtain ⟨q, h⟩ := syncSquelch_frame s
  rw [h]

theorem syncSquelch_primaryDialFrequency (s : ChainState) :
    (syncSquelch s).primaryDialFrequency = s.primaryDialFrequency := by
  obtain ⟨q, h⟩ := syncSquelch_frame s
  rw [h]

theorem syncSquelch_secondaryDialFrequency (s : ChainState) :
    (syncSquelch s).secondaryDialFrequency = s.secondaryDialFrequency := by
  obtain ⟨q, h⟩ := syncSquelch_frame s
  rw [h]

theorem syncSquelch_clientAudioChain (s : ChainState) :
    (syncSquelch s).clientAudioChain = s.clientAudioChain := by
  obtain ⟨q, h⟩ := syncSquelch_frame s
  rw [h]

theorem syncSquelch_stoppedPrimaries (s : ChainState) :
    (syncSquelch s).stoppedPrimaries = s.stoppedPrimaries := by
  obtain ⟨q, h⟩ := syncSquelch_frame s
  rw [h]

theorem syncSquelch_secondaryFftChain (s : ChainState) :
    (syncSquelch s).secondaryFftChain = s.secondaryFftChain := by
  obtain ⟨q, h⟩ := syncSquelch_frame s
  rw [h]

theorem syncSquelch_events (s : ChainState) :
    (syncSquelch s).events = s.events := by
  obtain ⟨q, h⟩ := syncSquelch_frame s
  rw [h]

theorem syncSquelch_outputRate (s : ChainState) :
    (syncSquelch s).outputRate = s.outputRate := by
  obtain ⟨q, h⟩ := syncSquelch_frame s
  rw [h]

theorem syncSquelch_hdOutputRate (s : ChainState) :
    (syncSquelch s).hdOutputRate = s.hdOutputRate := by
  obtain ⟨q, h⟩ := syncSquelch_frame s
  rw [h]

theorem syncSquelch_metaWriter (s : ChainState) :
    (syncSquelch s).metaWriter = s.metaWriter := by
  obtain ⟨q, h⟩ := syncSquelch_frame s
  rw [h]

theorem syncSquelch_sampleRate (s : ChainState) :
    (syncSquelch s).sampleRate = s.sampleRate := by
  obtain ⟨q, h⟩ := syncSquelch_frame s
  rw [h]

theorem syncSquelch_secondaryFftSize (s : ChainState) :
    (syncSquelch s).secondaryFftSize = s.secondaryFftSize := by
  obtain ⟨q, h⟩ := syncSquelch_frame s
  rw [h]

theorem syncSquelch_primarySampleRate (s : ChainState) :
    (syncSquelch s).primarySampleRate = s.primarySampleRate := by
  obtain ⟨q, h⟩ := syncSquelch_frame s
  rw [h]

theorem syncSquelch_stoppedSecondaries (s : ChainState) :
    (syncSquelch s).stoppedSecondaries = s.stoppedSecondaries := by
  obtain ⟨q, h⟩ := syncSquelch_frame s
  rw [h]

theorem syncSquelch_audioBuffer (s : ChainState) :
    (syncSquelch s).audioBuffer = s.audioBuffer := by
  obtain ⟨q, h⟩ := syncSquelch_frame s
  rw [h]

theorem syncSquelch_nextBufferId (s : ChainState) :
    (syncSquelch s).nextBufferId = s.nextBufferId := by
  obtain ⟨q, h⟩ := syncSquelch_frame s
  rw [h]

theorem syncSquelch_secondaryReader (s : ChainState) :
    (syncSquelch s).secondaryReader = s.secondaryReader := by
  obtain ⟨q, h⟩ := syncSquelch_frame s
  rw [h]

theorem syncSquelch_secondaryDemodWriter (s : ChainState) :
    (syncSquelch s).secondaryDemodWriter = s.secondaryDemodWriter := by
  obtain ⟨q, h⟩ := syncSquelch_frame s
  rw [h]

theorem syncSquelch_secondarySampleRate (s : ChainState) :
    (syncSquelch s).secondarySampleRate = s.secondarySampleRate := by
  obtain ⟨q, h⟩ := syncSquelch_frame s
  rw [h]

theorem syncSquelch_stage1Format (s : ChainState) :
    (syncSquelch s).stage1Format = s.stage1Format := by
  obtain ⟨q, h⟩ := syncSquelch_frame s
  rw [h]

theorem syncSquelch_stage1IsDummy (s : ChainState) :
    (syncSquelch s).stage1IsDummy = s.stage1IsDummy := by
  obtain ⟨q, h⟩ := syncSquelch_frame s
  rw [h]

theorem syncSquelch_stoppedFftChains (s : ChainState) :
    (syncSquelch s).stoppedFftChains = s.stoppedFftChains := by
  obtain ⟨q, h⟩ := syncSquelch_frame s
  rw [h]

theorem syncSquelch_secondaryFftWriter (s : ChainState) :
    (syncSquelch s).secondaryFftWriter = s.secondaryFftWriter := by
  obtain ⟨q, h⟩ := syncSquelch_frame s
  rw [h]

theorem syncSquelch_secondaryWriter (s : ChainState) :
    (syncSquelch s).secondaryWriter = s.secondaryWriter := by
  obtain ⟨q, h⟩ := syncSquelch_frame s
  rw [h]

theorem wireSecondary_demodulator (s : ChainState) (d : Option Demod2) (r : Nat) :
    ((wireSecondary s d r).1).demodulator = s.demodulator := by
  obtain ⟨a, b, c, w, n, h, hs⟩ := wireSecondary_frame s d r
  rw [h]

theorem wireSecondary_secondaryDemodulator (s : ChainState) (d : Option Demod2) (r : Nat) :
    ((wireSecondary s d r).1).secondaryDemodulator = s.secondaryDemodulator := by
  obtain ⟨a, b, c, w, n, h, hs⟩ := wireSecondary_frame s d r
  rw [h]

theorem wireSecondary_selector (s : ChainState) (d : Option Demod2) (r : Nat) :
    ((wireSecondary s d r).1).selector = s.selector := by
  obtain ⟨a, b, c, w, n, h, hs⟩ := wireSecondary_frame s d r
  rw [h]

theorem wireSecondary_selectorBuffer (s : ChainState) (d : Option Demod2) (r : Nat) :
    ((wireSecondary s d r).1).selectorBuffer = s.selectorBuffer := by
  obtain ⟨a, b, c, w, n, h, hs⟩ := wireSecondary_frame s d r
  rw [h]

theorem wireSecondary_squelchLevel (s : ChainState) (d : Option Demod2) (r : Nat) :
    ((wireSecondary s d r).1).squelchLevel = s.squelchLevel := by
  obtain ⟨a, b, c, w, n, h, hs⟩ := wireSecondary_frame s d r
  rw [h]

theorem wireSecondary_centerFrequency (s : ChainState) (d : Option Demod2) (r : Nat) :
    ((wireSecondary s d r).1).centerFrequency = s.centerFrequency := by
  obtain ⟨a, b, c, w, n, h, hs⟩ := wireSecondary_frame s d r
  rw [h]

theorem wireSecondary_frequencyOffset (s : ChainState) (d : Option Demod2) (r : Nat) :
    ((wireSecondary s d r).1).frequencyOffset = s.frequencyOffset := by
  obtain ⟨a, b, c, w, n, h, hs⟩ := wireSecondary_frame s d r
  rw [h]

theorem wireSecondary_secondaryFrequencyOffset (s : ChainState) (d : Option Demod2) (r : Nat) :
    ((wireSecondary s d r).1).secondaryFrequencyOffset = s.secondaryFrequencyOffset := by
  obtain ⟨a, b, c, w, n, h, hs⟩ := wireSecondary_frame s d r
  rw [h]

theorem wireSecondary_primaryDialFrequency (s : ChainState) (d : Option Demod2) (r : Nat) :
    ((wireSecondary s d r).1).primaryDialFrequency = s.primaryDialFrequency := by
  obtain ⟨a, b, c, w, n, h, hs⟩ := wireSecondary_frame s d r
  rw [h]

theorem wireSecondary_secondaryDialFrequency (s : ChainState) (d : Option Demod2) (r : Nat) :
    ((wireSecondary s d r).1).secondaryDialFrequency = s.secondaryDialFrequency := by
  obtain ⟨a, b, c, w, n, h, hs⟩ := wireSecondary_frame s d r
  rw [h]

theorem wireSecondary_clientAudioChain (s : ChainState) (d : Option Demod2) (r : Nat) :
    ((wireSecondary s d r).1).clientAudioChain = s.clientAudioChain := by
  obtain ⟨a, b, c, w, n, h, hs⟩ := wireSecondary_frame s d r
  rw [h]

theorem wireSecondary_stoppedPrimaries (s : ChainState) (d : Option Demod2) (r : Nat) :
    ((wireSecondary s d r).1).stoppedPrimaries = s.stoppedPrimaries := by
  obtain ⟨a, b, c, w, n, h, hs⟩ := wireSecondary_frame s d r
  rw [h]

theorem wireSecondary_secondaryFftChain (s : ChainState) (d : Option Demod2) (r : Nat) :
    ((wireSecondary s d r).1).secondaryFftChain = s.secondaryFftChain := by
  obtain ⟨a, b, c, w, n, h, hs⟩ := wireSecondary_frame s d r
  rw [h]

theorem wireSecondary_events (s : ChainState) (d : Option Demod2) (r : Nat) :
    ((wireSecondary s d r).1).events = s.events := by
  obtain ⟨a, b, c, w, n, h, hs⟩ := wireSecondary_frame s d r
  rw [h]

theorem wireSecondary_outputRate (s : ChainState) (d : Option Demod2) (r : Nat) :
    ((wireSecondary s d r).1).outputRate = s.outputRate := by
  obtain ⟨a, b, c, w, n, h, hs⟩ := wireSecondary_frame s d r
  rw [h]

theorem wireSecondary_hdOutputRate (s : ChainState) (d : Option Demod2) (r : Nat) :
    ((wireSecondary s d r).1).hdOutputRate = s.hdOutputRate := by
  obtain ⟨a, b, c, w, n, h, hs⟩ := wireSecondary_frame s d r
  rw [h]

theorem wireSecondary_stage1Format (s : ChainState) (d : Option Demod2) (r : Nat) :
    ((wireSecondary s d r).1).stage1Format = s.stage1Format := by
  obtain ⟨a, b, c, w, n, h, hs⟩ := wireSecondary_frame s d r
  rw [h]

theorem wireSecondary_stage1IsDummy (s : ChainState) (d : Option Demod2) (r : Nat) :
    ((wireSecondary s d r).1).stage1IsDummy = s.stage1IsDummy := by
  obtain ⟨a, b, c, w, n, h, hs⟩ := wireSecondary_frame s d r
  rw [h]

theorem wireSecondary_audioBuffer (s : ChainState) (d : Option Demod2) (r : Nat) :
    ((wireSecondary s d r).1).audioBuffer = s.audioBuffer := by
  obtain ⟨a, b, c, w, n, h, hs⟩ := wireSecondary_frame s d r
  rw [h]

theorem wireSecondary_secondaryFftSize (s : ChainState) (d : Option Demod2) (r : Nat) :
    ((wireSecondary s d r).1).secondaryFftSize = s.secondaryFftSize := by
  obtain ⟨a, b, c, w, n, h, hs⟩ := wireSecondary_frame s d r
  rw [h]

theorem wireSecondary_secondaryFftOverlapFactor (s : ChainState) (d : Option Demod2) (r : Nat) :
    ((wireSecondary s d r).1).secondaryFftOverlapFactor = s.secondaryFftOverlapFactor := by
  obtain ⟨a, b, c, w, n, h, hs⟩ := wireSecondary_frame s d r
  rw [h]

theorem wireSecondary_secondaryFftFps (s : ChainState) (d : Option Demod2) (r : Nat) :
    ((wireSecondary s d r).1).secondaryFftFps = s.secondaryFftFps := by
  obtain ⟨a, b, c, w, n, h, hs⟩ := wireSecondary_frame s d r
  rw [h]

theorem wireSecondary_secondaryFftCompression (s : ChainState) (d : Option Demod2) (r : Nat) :
    ((wireSecondary s d r).1).secondaryFftCompression = s.secondaryFftCompression := by
  obtain ⟨a, b, c, w, n, h, hs⟩ := wireSecondary_frame s d r
  rw [h]

theorem wireSecondary_stoppedFftChains (s : ChainState) (d : Option Demod2) (r : Nat) :
    ((wireSecondary s d r).1).stoppedFftChains = s.stoppedFftChains := by
  obtain ⟨a, b, c, w, n, h, hs⟩ := wireSecondary_frame s d r
  rw [h]

theorem wireSecondary_secondaryFftWriter (s : ChainState) (d : Option Demod2) (r : Nat) :
    ((wireSecondary s d r).1).secondaryFftWriter = s.secondaryFftWriter := by
  obtain ⟨a, b, c, w, n, h, hs⟩ := wireSecondary_frame s d r
  rw [h]

theorem wireSecondary_stoppedSecondaries (s : ChainState) (d : Option Demod2) (r : Nat) :
    ((wireSecondary s d r).1).stoppedSecondaries = s.stoppedSecondaries := by
  obtain ⟨a, b, c, w, n, h, hs⟩ := wireSecondary_frame s d r
  rw [h]

theorem wireSecondary_sampleRate (s : ChainState) (d : Option Demod2) (r : Nat) :
    ((wireSecondary s d r).1).sampleRate = s.sampleRate := by
  obtain ⟨a, b, c, w, n, h, hs⟩ := wireSecondary_frame s d r
  rw [h]

theorem wireSecondary_primarySampleRate (s : ChainState) (d : Option Demod2) (r : Nat) :
    ((wireSecondary s d r).1).primarySampleRate = s.primarySampleRate := by
  obtain ⟨a, b, c, w, n, h, hs⟩ := wireSecondary_frame s d r
  rw [h]

theorem syncSquelch_selector_outputRate (s : ChainState) :
    (syncSquelch s).selector.outputRate = s.selector.outputRate := by
  obtain ⟨q, h⟩ := syncSquelch_frame s
  rw [h]

theorem wireSecondary_secondarySelector_isSome (s : ChainState) (d : Option Demod2) (r : Nat) :
    ((wireSecondary s d r).1).secondarySelector.isSome = s.secondarySelector.isSome := by
  obtain ⟨a, b, c, w, n, h, hs⟩ := wireSecondary_frame s d r
  rw [h]
  exact hs

theorem syncSquelch_selector_squelchLevel (s : ChainState) :
    (syncSquelch s).selector.squelchLevel =
      if squelchForcedOff s then (-150 : ℚ) else s.squelchLevel := by
  unfold syncSquelch squelchForcedOff
  split
  · next h => simp [h]
  · next h => simp [h]


theorem finishSetDemodulator_demodulator (s : ChainState) (d : Demod) (c : Nat) :
    (finishSetDemodulator s d c).demodulator = s.demodulator := by
  unfold finishSetDemodulator
  dsimp only
  repeat' split
  all_goals simp only [replace1_demodulator]

theorem finishSetDemodulator_secondaryDemodulator (s : ChainState) (d : Demod) (c : Nat) :
    (finishSetDemodulator s d c).secondaryDemodulator = s.secondaryDemodulator := by
  unfold finishSetDemodulator
  dsimp only
  repeat' split
  all_goals simp only [replace1_secondaryDemodulator]

theorem finishSetDemodulator_selector (s : ChainState) (d : Demod) (c : Nat) :
    (finishSetDemodulator s d c).selector = s.selector := by
  unfold finishSetDemodulator
  dsimp only
  repeat' split
  all_goals simp only [replace1_selector]

theorem finishSetDemodulator_squelchLevel (s : ChainState) (d : Demod) (c : Nat) :
    (finishSetDemodulator s d c).squelchLevel = s.squelchLevel := by
  unfold finishSetDemodulator
  dsimp only
  repeat' split
  all_goals simp only [replace1_squelchLevel]

theorem finishSetDemodulator_centerFrequency (s : ChainState) (d : Demod) (c : Nat) :
    (finishSetDemodulator s d c).centerFrequency = s.centerFrequency := by
  unfold finishSetDemodulator
  dsimp only
  repeat' split
  all_goals simp only [replace1_centerFrequency]

theorem finishSetDemodulator_frequencyOffset (s : ChainState) (d : Demod) (c : Nat) :
    (finishSetDemodulator s d c).frequencyOffset = s.frequencyOffset := by
  unfold finishSetDemodulator
  dsimp only
  repeat' split
  all_goals simp only [replace1_frequencyOffset]

theorem finishSetDemodulator_secondarySelector (s : ChainState) (d : Demod) (c : Nat) :
    (finishSetDemodulator s d c).secondarySelector = s.secondarySelector := by
  unfold finishSetDemodulator
  dsimp only
  repeat' split
  all_goals simp only [replace1_secondarySelector]

theorem finishSetDemodulator_secondaryFrequencyOffset (s : ChainState) (d : Demod) (c : Nat) :
    (finishSetDemodulator s d c).secondaryFrequencyOffset = s.secondaryFrequencyOffset := by
  unfold finishSetDemodulator
  dsimp only
  repeat' split
  all_goals simp only [replace1_secondaryFrequencyOffset]

theorem finishSetDemodulator_primaryDialFrequency (s : ChainState) (d : Demod) (c : Nat) :
    (finishSetDemodulator s d c).primaryDialFrequency = s.primaryDialFrequency := by
  unfold finishSetDemodulator
  dsimp only
  repeat' split
  all_goals simp only [replace1_primaryDialFrequency]

theorem finishSetDemodulator_secondaryDialFrequency (s : ChainState) (d : Demod) (c : Nat) :
    (finishSetDemodulator s d c).secondaryDialFrequency = s.secondaryDialFrequency := by
  unfold finishSetDemodulator
  dsimp only
  repeat' split
  all_goals simp only [replace1_secondaryDialFrequency]

theorem finishSetDemodulator_selectorBuffer (s : ChainState) (d : Demod) (c : Nat) :
    (finishSetDemodulator s d c).selectorBuffer = s.selectorBuffer := by
  unfold finishSetDemodulator
  dsimp only
  repeat' split
  all_goals simp only [replace1_selectorBuffer]

theorem finishSetDemodulator_stoppedPrimaries (s : ChainState) (d : Demod) (c : Nat) :
    (finishSetDemodulator s d c).stoppedPrimaries = s.stoppedPrimaries := by
  unfold finishSetDemodulator
  dsimp only
  repeat' split
  all_goals simp only [replace1_stoppedPrimaries]

theorem finishSetDemodulator_events (s : ChainState) (d : Demod) (c : Nat) :
    (finishSetDemodulator s d c).events = s.events := by
  unfold finishSetDemodulator
  dsimp only
  repeat' split
  all_goals simp only [replace1_events]

theorem finishSetDemodulator_secondaryFftChain (s : ChainState) (d : Demod) (c : Nat) :
    (finishSetDemodulator s d c).secondaryFftChain = s.secondaryFftChain := by
  unfold finishSetDemodulator
  dsimp only
  repeat' split
  all_goals simp only [replace1_secondaryFftChain]

theorem finishSetDemodulator_sampleRate (s : ChainState) (d : Demod) (c : Nat) :
    (finishSetDemodulator s d c).sampleRate = s.sampleRate := by
  unfold finishSetDemodulator
  dsimp only
  repeat' split
  all_goals simp only [replace1_sampleRate]

theorem finishSetDemodulator_outputRate (s : ChainState) (d : Demod) (c : Nat) :
    (finishSetDemodulator s d c).outputRate = s.outputRate := by
  unfold finishSetDemodulator
  dsimp only
  repeat' split
  all_goals simp only [replace1_outputRate]

theorem finishSetDemodulator_hdOutputRate (s : ChainState) (d : Demod) (c : Nat) :
    (finishSetDemodulator s d c).hdOutputRate = s.hdOutputRate := by
  unfold finishSetDemodulator
  dsimp only
  repeat' split
  all_goals simp only [replace1_hdOutputRate]

theorem finishSetDemodulator_stoppedSecondaries (s : ChainState) (d : Demod) (c : Nat) :
    (finishSetDemodulator s d c).stoppedSecondaries = s.stoppedSecondaries := by
  unfold finishSetDemodulator
  dsimp only
  repeat' split
  all_goals simp only [replace1_stoppedSecondaries]

theorem finishSetDemodulator_stoppedFftChains (s : ChainState) (d : Demod) (c : Nat) :
    (finishSetDemodulator s d c).stoppedFftChains = s.stoppedFftChains := by
  unfold finishSetDemodulator
  dsimp only
  repeat' split
  all_goals simp only [replace1_stoppedFftChains]

theorem finishSetDemodulator_secondaryFftSize (s : ChainState) (d : Demod) (c : Nat) :
    (finishSetDemodulator s d c).secondaryFftSize = s.secondaryFftSize := by
  unfold finishSetDemodulator
  dsimp only
  repeat' split
  all_goals simp only [replace1_secondaryFftSize]

theorem finishSetDemodulator_secondaryWriter (s : ChainState) (d : Demod) (c : Nat) :
    (finishSetDemodulator s d c).secondaryWriter = s.secondaryWriter := by
  unfold finishSetDemodulator
  dsimp only
  repeat' split
  all_goals simp only [replace1_secondaryWriter]

theorem finishSetDemodulator_secondaryFftWriter (s : ChainState) (d : Demod) (c : Nat) :
    (finishSetDemodulator s d c).secondaryFftWriter = s.secondaryFftWriter := by
  unfold finishSetDemodulator
  dsimp only
  repeat' split
  all_goals simp only [replace1_secondaryFftWriter]

theorem chainSetDemodulator_demod (s : ChainState) (d : Demod) :
    ((chainSetDemodulator s d).1).demodulator = some d := by
  unfold chainSetDemodulator
  split
  · next h => exact h
  · dsimp only
    split
    · split
      · rfl
      · rfl
    · repeat' split
      all_goals simp only [finishSetDemodulator_demodulator, syncSquelch_demodulator,
        updateDialFrequency_demodulator]

theorem createSecondaryFftChain_secondaryFftSize (s : ChainState) :
    ((createSecondaryFftChain s).1).secondaryFftSize = s.secondaryFftSize := by
  unfold createSecondaryFftChain
  dsimp only
  split <;> split <;> rfl

theorem updateDemodulatorOutputRate_outputRate (s : ChainState) (r : Nat) :
    ((updateDemodulatorOutputRate s r).1).outputRate = s.outputRate := by
  unfold updateDemodulatorOutputRate
  dsimp only
  repeat' split
  all_goals rfl

theorem updateDemodulatorOutputRate_hdOutputRate (s : ChainState) (r : Nat) :
    ((updateDemodulatorOutputRate s r).1).hdOutputRate = s.hdOutputRate := by
  unfold updateDemodulatorOutputRate
  dsimp only
  repeat' split
  all_goals rfl


theorem rebuildSecondarySelector_demodulator (s : ChainState) (d : Option Demod2) (r : Nat) :
    (rebuildSecondarySelector s d r).demodulator = s.demodulator := by
  unfold rebuildSecondarySelector
  repeat' split
  all_goals rfl

theorem rebuildSecondarySelector_secondaryDemodulator (s : ChainState) (d : Option Demod2) (r : Nat) :
    (rebuildSecondarySelector s d r).secondaryDemodulator = s.secondaryDemodulator := by
  unfold rebuildSecondarySelector
  repeat' split
  all_goals rfl

theorem rebuildSecondarySelector_selector (s : ChainState) (d : Option Demod2) (r : Nat) :
    (rebuildSecondarySelector s d r).selector = s.selector := by
  unfold rebuildSecondarySelector
  repeat' split
  all_goals rfl

theorem rebuildSecondarySelector_selectorBuffer (s : ChainState) (d : Option Demod2) (r : Nat) :
    (rebuildSecondarySelector s d r).selectorBuffer = s.selectorBuffer := by
  unfold rebuildSecondarySelector
  repeat' split
  all_goals rfl

theorem rebuildSecondarySelector_squelchLevel (s : ChainState) (d : Option Demod2) (r : Nat) :
    (rebuildSecondarySelector s d r).squelchLevel = s.squelchLevel := by
  unfold rebuildSecondarySelector
  repeat' split
  all_goals rfl

theorem rebuildSecondarySelector_centerFrequency (s : ChainState) (d : Option Demod2) (r : Nat) :
    (rebuildSecondarySelector s d r).centerFrequency = s.centerFrequency := by
  unfold rebuildSecondarySelector
  repeat' split
  all_goals rfl

theorem rebuildSecondarySelector_frequencyOffset (s : ChainState) (d : Option Demod2) (r : Nat) :
    (rebuildSecondarySelector s d r).frequencyOffset = s.frequencyOffset := by
  unfold rebuildSecondarySelector
  repeat' split
  all_goals rfl

theorem rebuildSecondarySelector_secondaryFrequencyOffset (s : ChainState) (d : Option Demod2) (r : Nat) :
    (rebuildSecondarySelector s d r).secondaryFrequencyOffset = s.secondaryFrequencyOffset := by
  unfold rebuildSecondarySelector
  repeat' split
  all_goals rfl

theorem rebuildSecondarySelector_primaryDialFrequency (s : ChainState) (d : Option Demod2) (r : Nat) :
    (rebuildSecondarySelector s d r).primaryDialFrequency = s.primaryDialFrequency := by
  unfold rebuildSecondarySelector
  repeat' split
  all_goals rfl

theorem rebuildSecondarySelector_secondaryDialFrequency (s : ChainState) (d : Option Demod2) (r : Nat) :
    (rebuildSecondarySelector s d r).secondaryDialFrequency = s.secondaryDialFrequency := by
  unfold rebuildSecondarySelector
  repeat' split
  all_goals rfl

theorem rebuildSecondarySelector_clientAudioChain (s : ChainState) (d : Option Demod2) (r : Nat) :
    (rebuildSecondarySelector s d r).clientAudioChain = s.clientAudioChain := by
  unfold rebuildSecondarySelector
  repeat' split
  all_goals rfl

theorem rebuildSecondarySelector_stoppedPrimaries (s : ChainState) (d : Option Demod2) (r : Nat) :
    (rebuildSecondarySelector s d r).stoppedPrimaries = s.stoppedPrimaries := by
  unfold rebuildSecondarySelector
  repeat' split
  all_goals rfl

theorem rebuildSecondarySelector_secondaryFftChain (s : ChainState) (d : Option Demod2) (r : Nat) :
    (rebuildSecondarySelector s d r).secondaryFftChain = s.secondaryFftChain := by
  unfold rebuildSecondarySelector
  repeat' split
  all_goals rfl

theorem rebuildSecondarySelector_outputRate (s : ChainState) (d : Option Demod2) (r : Nat) :
    (rebuildSecondarySelector s d r).outputRate = s.outputRate := by
  unfold rebuildSecondarySelector
  repeat' split
  all_goals rfl

theorem rebuildSecondarySelector_hdOutputRate (s : ChainState) (d : Option Demod2) (r : Nat) :
    (rebuildSecondarySelector s d r).hdOutputRate = s.hdOutputRate := by
  unfold rebuildSecondarySelector
  repeat' split
  all_goals rfl

theorem rebuildSecondarySelector_stage1Format (s : ChainState) (d : Option Demod2) (r : Nat) :
    (rebuildSecondarySelector s d r).stage1Format = s.stage1Format := by
  unfold rebuildSecondarySelector
  repeat' split
  all_goals rfl

theorem rebuildSecondarySelector_stage1IsDummy (s : ChainState) (d : Option Demod2) (r : Nat) :
    (rebuildSecondarySelector s d r).stage1IsDummy = s.stage1IsDummy := by
  unfold rebuildSecondarySelector
  repeat' split
  all_goals rfl

theorem rebuildSecondarySelector_audioBuffer (s : ChainState) (d : Option Demod2) (r : Nat) :
    (rebuildSecondarySelector s d r).audioBuffer = s.audioBuffer := by
  unfold rebuildSecondarySelector
  repeat' split
  all_goals rfl

theorem rebuildSecondarySelector_secondaryFftSize (s : ChainState) (d : Option Demod2) (r : Nat) :
    (rebuildSecondarySelector s d r).secondaryFftSize = s.secondaryFftSize := by
  unfold rebuildSecondarySelector
  repeat' split
  all_goals rfl

theorem rebuildSecondarySelector_secondaryFftOverlapFactor (s : ChainState) (d : Option Demod2) (r : Nat) :
    (rebuildSecondarySelector s d r).secondaryFftOverlapFactor = s.secondaryFftOverlapFactor := by
  unfold rebuildSecondarySelector
  repeat' split
  all_goals rfl

theorem rebuildSecondarySelector_secondaryFftFps (s : ChainState) (d : Option Demod2) (r : Nat) :
    (rebuildSecondarySelector s d r).secondaryFftFps = s.secondaryFftFps := by
  unfold rebuildSecondarySelector
  repeat' split
  all_goals rfl

theorem rebuildSecondarySelector_secondaryFftCompression (s : ChainState) (d : Option Demod2) (r : Nat) :
    (rebuildSecondarySelector s d r).secondaryFftCompression = s.secondaryFftCompression := by
  unfold rebuildSecondarySelector
  repeat' split
  all_goals rfl

theorem rebuildSecondarySelector_stoppedFftChains (s : ChainState) (d : Option Demod2) (r : Nat) :
    (rebuildSecondarySelector s d r).stoppedFftChains = s.stoppedFftChains := by
  unfold rebuildSecondarySelector
  repeat' split
  all_goals rfl

theorem rebuildSecondarySelector_secondaryFftWriter (s : ChainState) (d : Option Demod2) (r : Nat) :
    (rebuildSecondarySelector s d r).secondaryFftWriter = s.secondaryFftWriter := by
  unfold rebuildSecondarySelector
  repeat' split
  all_goals rfl

theorem rebuildSecondarySelector_stoppedSecondaries (s : ChainState) (d : Option Demod2) (r : Nat) :
    (rebuildSecondarySelector s d r).stoppedSecondaries = s.stoppedSecondaries := by
  unfold rebuildSecondarySelector
  repeat' split
  all_goals rfl

theorem rebuildSecondarySelector_sampleRate (s : ChainState) (d : Option Demod2) (r : Nat) :
    (rebuildSecondarySelector s d r).sampleRate = s.sampleRate := by
  unfold rebuildSecondarySelector
  repeat' split
  all_goals rfl

theorem rebuildSecondarySelector_primarySampleRate (s : ChainState) (d : Option Demod2) (r : Nat) :
    (rebuildSecondarySelector s d r).primarySampleRate = s.primarySampleRate := by
  unfold rebuildSecondarySelector
  repeat' split
  all_goals rfl

theorem rebuildSecondarySelector_secondarySampleRate (s : ChainState) (d : Option Demod2) (r : Nat) :
    (rebuildSecondarySelector s d r).secondarySampleRate = s.secondarySampleRate := by
  unfold rebuildSecondarySelector
  repeat' split
  all_goals rfl

theorem rebuildSecondarySelector_secondaryReader (s : ChainState) (d : Option Demod2) (r : Nat) :
    (rebuildSecondarySelector s d r).secondaryReader = s.secondaryReader := by
  unfold rebuildSecondarySelector
  repeat' split
  all_goals rfl

theorem rebuildSecondarySelector_secondaryDemodWriter (s : ChainState) (d : Option Demod2) (r : Nat) :
    (rebuildSecondarySelector s d r).secondaryDemodWriter = s.secondaryDemodWriter := by
  unfold rebuildSecondarySelector
  repeat' split
  all_goals rfl

theorem rebuildSecondarySelector_nextBufferId (s : ChainState) (d : Option Demod2) (r : Nat) :
    (rebuildSecondarySelector s d r).nextBufferId = s.nextBufferId := by
  unfold rebuildSecondarySelector
  repeat' split
  all_goals rfl

theorem rebuildSecondarySelector_metaWriter (s : ChainState) (d : Option Demod2) (r : Nat) :
    (rebuildSecondarySelector s d r).metaWriter = s.metaWriter := by
  unfold rebuildSecondarySelector
  repeat' split
  all_goals rfl

theorem rebuildSecondarySelector_secondaryWriter (s : ChainState) (d : Option Demod2) (r : Nat) :
    (rebuildSecondarySelector s d r).secondaryWriter = s.secondaryWriter := by
  unfold rebuildSecondarySelector
  repeat' split
  all_goals rfl

theorem chainSetSecondaryDemodulator_secondary (s : ChainState) (d : Option Demod2) :
    ((chainSetSecondaryDemodulator s d).1).secondaryDemodulator = d := by
  unfold chainSetSecondaryDemodulator
  split
  · next h => exact h
  · dsimp only
    split
    · exact adoptSecondary_secondaryDemodulator s _
    · repeat' split
      all_goals simp only [manageSecondaryFft_secondaryDemodulator,
        wireSecondary_secondaryDemodulator, rebuildSecondarySelector_secondaryDemodulator,
        syncSquelch_secondaryDemodulator, updateDialFrequency_secondaryDemodulator,
        applySecondaryRates_secondaryDemodulator, adoptSecondary_secondaryDemodulator]

theorem chainSetDemodulator_skip (t : ChainState) (d : Demod) (h : t.demodulator = some d) :
    chainSetDemodulator t d = (t, none) := by
  unfold chainSetDemodulator
  rw [if_pos h]

theorem chainSetSecondaryDemodulator_skip (t : ChainState) (d : Option Demod2)
    (h : t.secondaryDemodulator = d) :
    chainSetSecondaryDemodulator t d = (t, none) := by
  unfold chainSetSecondaryDemodulator
  rw [if_pos h]

theorem setFrequencyOffset_stored (s : ChainState) (v : ℤ) :
    (setFrequencyOffset s v).frequencyOffset = some v := by
  unfold setFrequencyOffset
  split
  · next h => exact h.symm
  · rw [updateDialFrequency_frequencyOffset]

theorem setFrequencyOffset_skip (t : ChainState) (v : ℤ) (h : t.frequencyOffset = some v) :
    setFrequencyOffset t v = t := by
  unfold setFrequencyOffset
  rw [if_pos h.symm]

theorem setCenterFrequency_stored (s : ChainState) (v : ℤ) :
    (setCenterFrequency s v).centerFrequency = some v := by
  unfold setCenterFrequency
  split
  · next h => exact h.symm
  · rw [updateDialFrequency_centerFrequency]

theorem setCenterFrequency_skip (t : ChainState) (v : ℤ) (h : t.centerFrequency = some v) :
    setCenterFrequency t v = t := by
  unfold setCenterFrequency
  rw [if_pos h.symm]

theorem setSquelchLevel_stored (s : ChainState) (v : ℚ) :
    (setSquelchLevel s v).squelchLevel = v := by
  unfold setSquelchLevel
  split
  · next h => exact h.symm
  · rw [syncSquelch_squelchLevel]

theorem setSquelchLevel_skip (t : ChainState) (v : ℚ) (h : t.squelchLevel = v) :
    setSquelchLevel t v = t := by
  unfold setSquelchLevel
  rw [if_pos h.symm]

theorem setOutputRate_stored (s : ChainState) (v : Nat) :
    ((setOutputRate s v).1).outputRate = v := by
  unfold setOutputRate
  split
  · next h => exact h.symm
  · dsimp only
    split
    · rfl
    · rw [updateDemodulatorOutputRate_outputRate]

theorem setOutputRate_skip (t : ChainState) (v : Nat) (h : t.outputRate = v) :
    setOutputRate t v = (t, none) := by
  unfold setOutputRate
  rw [if_pos h.symm]

theorem setHdOutputRate_stored (s : ChainState) (v : Nat) :
    ((setHdOutputRate s v).1).hdOutputRate = v := by
  unfold setHdOutputRate
  split
  · next h => exact h.symm
  · dsimp only
    split
    · rfl
    · rw [updateDemodulatorOutputRate_hdOutputRate]

theorem setHdOutputRate_skip (t : ChainState) (v : Nat) (h : t.hdOutputRate = v) :
    setHdOutputRate t v = (t, none) := by
  unfold setHdOutputRate
  rw [if_pos h.symm]

theorem chainSetSampleRate_skip (t : ChainState) (v : Nat) (h : t.sampleRate = v) :
    chainSetSampleRate t v = t := by
  unfold chainSetSampleRate
  rw [if_pos h.symm]

theorem chainSetSampleRate_stored (s : ChainState) (v : Nat) :
    (chainSetSampleRate s v).sampleRate = v := by
  unfold chainSetSampleRate
  split
  · next h => exact h.symm
  · rfl

theorem chainSetMetaWriter_stored (s : ChainState) (v : Nat) :
    (chainSetMetaWriter s v).metaWriter = some v := by
  unfold chainSetMetaWriter
  split
  · next h => exact h.symm
  · dsimp only
    split <;> rfl

theorem chainSetMetaWriter_skip (t : ChainState) (v : Nat) (h : t.metaWriter = some v) :
    chainSetMetaWriter t v = t := by
  unfold chainSetMetaWriter
  rw [if_pos h.symm]

theorem chainSetSecondaryFftWriter_stored (s : ChainState) (v : Nat) :
    (chainSetSecondaryFftWriter s v).secondaryFftWriter = some v := by
  unfold chainSetSecondaryFftWriter
  split
  · next h => exact h.symm
  · dsimp only
    split <;> rfl

theorem chainSetSecondaryFftWriter_skip (t : ChainState) (v : Nat)
    (h : t.secondaryFftWriter = some v) :
    chainSetSecondaryFftWriter t v = t := by
  unfold chainSetSecondaryFftWriter
  rw [if_pos h.symm]

theorem chainSetSecondaryWriter_stored (s : ChainState) (v : Nat) :
    (chainSetSecondaryWriter s v).secondaryWriter = some v := by
  unfold chainSetSecondaryWriter
  split
  · next h => exact h.symm
  · dsimp only
    split <;> rfl

theorem chainSetSecondaryWriter_skip (t : ChainState) (v : Nat)
    (h : t.secondaryWriter = some v) :
    chainSetSecondaryWriter t v = t := by
  unfold chainSetSecondaryWriter
  rw [if_pos h.symm]

theorem setSecondaryFftSize_stored (s : ChainState) (v : Nat) :
    ((setSecondaryFftSize s v).1).secondaryFftSize = v := by
  unfold setSecondaryFftSize
  split
  · next h => exact h.symm
  · dsimp only
    split
    · rfl
    · rw [createSecondaryFftChain_secondaryFftSize]

theorem setSecondaryFftSize_skip (t : ChainState) (v : Nat) (h : t.secondaryFftSize = v) :
    setSecondaryFftSize t v = (t, none) := by
  unfold setSecondaryFftSize
  rw [if_pos h.symm]

theorem setSecondaryFrequencyOffset_stored (s : ChainState) (v : ℤ) :
    (setSecondaryFrequencyOffset s v).secondaryFrequencyOffset = some v := by
  unfold setSecondaryFrequencyOffset
  split
  · next h => exact h
  · dsimp only
    rw [updateDialFrequency_secondaryFrequencyOffset]
    split <;> rfl

theorem setSecondaryFrequencyOffset_skip (t : ChainState) (v : ℤ)
    (h : t.secondaryFrequencyOffset = some v) :
    setSecondaryFrequencyOffset t v = t := by
  unfold setSecondaryFrequencyOffset
  rw [if_pos h]

theorem setSecondaryFftCompression_stored (s : ChainState) (v : String) :
    ((setSecondaryFftCompression s v).1).secondaryFftCompression = v := by
  unfold setSecondaryFftCompression
  split
  · next h => exact h.symm
  · dsimp only
    repeat' split
    all_goals rfl

theorem setSecondaryFftCompression_skip (t : ChainState) (v : String)
    (h : t.secondaryFftCompression = v) :
    setSecondaryFftCompression t v = (t, false) := by
  unfold setSecondaryFftCompression
  rw [if_pos h.symm]

theorem setSecondaryFftOverlapFactor_stored (s : ChainState) (v : ℚ) :
    (setSecondaryFftOverlapFactor s v).secondaryFftOverlapFactor = v := by
  unfold setSecondaryFftOverlapFactor
  split
  · next h => exact h.symm
  · dsimp only
    split <;> rfl

theorem setSecondaryFftOverlapFactor_skip (t : ChainState) (v : ℚ)
    (h : t.secondaryFftOverlapFactor = v) :
    setSecondaryFftOverlapFactor t v = t := by
  unfold setSecondaryFftOverlapFactor
  rw [if_pos h.symm]

theorem setSecondaryFftFps_stored (s : ChainState) (v : Nat) :
    (setSecondaryFftFps s v).secondaryFftFps = v := by
  unfold setSecondaryFftFps
  split
  · next h => exact h.symm
  · dsimp only
    split <;> rfl

theorem setSecondaryFftFps_skip (t : ChainState) (v : Nat) (h : t.secondaryFftFps = v) :
    setSecondaryFftFps t v = t := by
  unfold setSecondaryFftFps
  rw [if_pos h.symm]

theorem setWfmDeemphasisTau_stored (s : ChainState) (v : ℚ) :
    (setWfmDeemphasisTau s v).wfmDeemphasisTau = v := by
  unfold setWfmDeemphasisTau
  split
  · next h => exact h.symm
  · dsimp only
    split <;> rfl

theorem setWfmDeemphasisTau_skip (t : ChainState) (v : ℚ) (h : t.wfmDeemphasisTau = v) :
    setWfmDeemphasisTau t v = t := by
  unfold setWfmDeemphasisTau
  rw [if_pos h.symm]

theorem setRdsRbds_stored (s : ChainState) (v : Bool) :
    (setRdsRbds s v).rdsRbds = v := by
  unfold setRdsRbds
  split
  · next h => exact h.symm
  · dsimp only
    split <;> rfl

theorem setRdsRbds_skip (t : ChainState) (v : Bool) (h : t.rdsRbds = v) :
    setRdsRbds t v = t := by
  unfold setRdsRbds
  rw [if_pos h.symm]

theorem idem_setLowCut (s : ChainState) (v : Option ℚ) :
    setLowCut (setLowCut s v) v = setLowCut s v := rfl

theorem idem_setHighCut (s : ChainState) (v : Option ℚ) :
    setHighCut (setHighCut s v) v = setHighCut s v := rfl

theorem idem_setBandpass (s : ChainState) (lo hi : Option ℚ) :
    setBandpass (setBandpass s lo hi) lo hi = setBandpass s lo hi := rfl

theorem idem_setNrEnabled (s : ChainState) (v : Bool) :
    setNrEnabled (setNrEnabled s v) v = setNrEnabled s v := rfl

theorem idem_setNrThreshold (s : ChainState) (v : ℤ) :
    setNrThreshold (setNrThreshold s v) v = setNrThreshold s v := rfl

theorem idem_setPowerWriter (s : ChainState) (w : Nat) :
    setPowerWriter (setPowerWriter s w) w = setPowerWriter s w := rfl

theorem idem_setSlotFilter (s : ChainState) (f : ℤ) :
    setSlotFilter (setSlotFilter s f) f = setSlotFilter s f := by
  unfold setSlotFilter
  repeat' split
  all_goals simp_all

theorem idem_setAudioServiceId (s : ChainState) (i : ℤ) :
    setAudioServiceId (setAudioServiceId s i) i = setAudioServiceId s i := by
  unfold setAudioServiceId
  repeat' split
  all_goals simp_all

theorem idem_chainSetDemodulator (s : ChainState) (d : Demod) :
    chainSetDemodulator ((chainSetDemodulator s d).1) d = ((chainSetDemodulator s d).1, none) :=
  chainSetDemodulator_skip _ _ (chainSetDemodulator_demod s d)

theorem idem_chainSetSecondaryDemodulator (s : ChainState) (d : Option Demod2) :
    chainSetSecondaryDemodulator ((chainSetSecondaryDemodulator s d).1) d =
      ((chainSetSecondaryDemodulator s d).1, none) :=
  chainSetSecondaryDemodulator_skip _ _ (chainSetSecondaryDemodulator_secondary s d)

theorem idem_setFrequencyOffset (s : ChainState) (v : ℤ) :
    setFrequencyOffset (setFrequencyOffset s v) v = setFrequencyOffset s v :=
  setFrequencyOffset_skip _ _ (setFrequencyOffset_stored s v)

theorem idem_setCenterFrequency (s : ChainState) (v : ℤ) :
    setCenterFrequency (setCenterFrequency s v) v = setCenterFrequency s v :=
  setCenterFrequency_skip _ _ (setCenterFrequency_stored s v)

theorem idem_setSquelchLevel (s : ChainState) (v : ℚ) :
    setSquelchLevel (setSquelchLevel s v) v = setSquelchLevel s v :=
  setSquelchLevel_skip _ _ (setSquelchLevel_stored s v)

theorem idem_setOutputRate (s : ChainState) (v : Nat) :
    setOutputRate ((setOutputRate s v).1) v = ((setOutputRate s v).1, none) :=
  setOutputRate_skip _ _ (setOutputRate_stored s v)

theorem idem_setHdOutputRate (s : ChainState) (v : Nat) :
    setHdOutputRate ((setHdOutputRate s v).1) v = ((setHdOutputRate s v).1, none) :=
  setHdOutputRate_skip _ _ (setHdOutputRate_stored s v)

theorem idem_chainSetSampleRate (s : ChainState) (v : Nat) :
    chainSetSampleRate (chainSetSampleRate s v) v = chainSetSampleRate s v :=
  chainSetSampleRate_skip _ _ (chainSetSampleRate_stored s v)

theorem idem_chainSetMetaWriter (s : ChainState) (v : Nat) :
    chainSetMetaWriter (chainSetMetaWriter s v) v = chainSetMetaWriter s v :=
  chainSetMetaWriter_skip _ _ (chainSetMetaWriter_stored s v)

theorem idem_chainSetSecondaryFftWriter (s : ChainState) (v : Nat) :
    chainSetSecondaryFftWriter (chainSetSecondaryFftWriter s v) v =
      chainSetSecondaryFftWriter s v :=
  chainSetSecondaryFftWriter_skip _ _ (chainSetSecondaryFftWriter_stored s v)

theorem idem_chainSetSecondaryWriter (s : ChainState) (v : Nat) :
    chainSetSecondaryWriter (chainSetSecondaryWriter s v) v = chainSetSecondaryWriter s v :=
  chainSetSecondaryWriter_skip _ _ (chainSetSecondaryWriter_stored s v)

theorem idem_setSecondaryFftSize (s : ChainState) (v : Nat) :
    setSecondaryFftSize ((setSecondaryFftSize s v).1) v = ((setSecondaryFftSize s v).1, none) :=
  setSecondaryFftSize_skip _ _ (setSecondaryFftSize_stored s v)

theorem idem_setSecondaryFrequencyOffset (s : ChainState) (v : ℤ) :
    setSecondaryFrequencyOffset (setSecondaryFrequencyOffset s v) v =
      setSecondaryFrequencyOffset s v :=
  setSecondaryFrequencyOffset_skip _ _ (setSecondaryFrequencyOffset_stored s v)

theorem idem_setSecondaryFftCompression (s : ChainState) (v : String) :
    setSecondaryFftCompression ((setSecondaryFftCompression s v).1) v =
      ((setSecondaryFftCompression s v).1, false) :=
  setSecondaryFftCompression_skip _ _ (setSecondaryFftCompression_stored s v)

theorem idem_setSecondaryFftOverlapFactor (s : ChainState) (v : ℚ) :
    setSecondaryFftOverlapFactor (setSecondaryFftOverlapFactor s v) v =
      setSecondaryFftOverlapFactor s v :=
  setSecondaryFftOverlapFactor_skip _ _ (setSecondaryFftOverlapFactor_stored s v)

theorem idem_setSecondaryFftFps (s : ChainState) (v : Nat) :
    setSecondaryFftFps (setSecondaryFftFps s v) v = setSecondaryFftFps s v :=
  setSecondaryFftFps_skip _ _ (setSecondaryFftFps_stored s v)

theorem idem_setWfmDeemphasisTau (s : ChainState) (v : ℚ) :
    setWfmDeemphasisTau (setWfmDeemphasisTau s v) v = setWfmDeemphasisTau s v :=
  setWfmDeemphasisTau_skip _ _ (setWfmDeemphasisTau_stored s v)

theorem idem_setRdsRbds (s : ChainState) (v : Bool) :
    setRdsRbds (setRdsRbds s v) v = setRdsRbds s v :=
  setRdsRbds_skip _ _ (setRdsRbds_stored s v)

theorem idem_chainSetAudioCompression (s : ChainState) (c : String) :
    chainSetAudioCompression ((chainSetAudioCompression s c).1) c =
      ((chainSetAudioCompression s c).1, none) := by
  unfold chainSetAudioCompression
  dsimp only
  split <;> simp

/-- C7: every setter of ClientDemodulatorChain is idempotent — calling it a
second time with the same argument as the immediately preceding call
returns the state of the first call unchanged (and raises nothing and
requests no re-wiring), so no pipeline stage is rebuilt, no value is
re-pushed and no samples are dropped. -/
theorem chain_setters_idempotent (s : ChainState) (d : Demod) (d2 : Option Demod2)
    (q : ℚ) (oq lo hi : Option ℚ) (z : ℤ) (n : Nat) (b : Bool) (str : String) :
    chainSetDemodulator ((chainSetDemodulator s d).1) d = ((chainSetDemodulator s d).1, none) ∧
    chainSetSecondaryDemodulator ((chainSetSecondaryDemodulator s d2).1) d2 =
      ((chainSetSecondaryDemodulator s d2).1, none) ∧
    setLowCut (setLowCut s oq) oq = setLowCut s oq ∧
    setHighCut (setHighCut s oq) oq = setHighCut s oq ∧
    setBandpass (setBandpass s lo hi) lo hi = setBandpass s lo hi ∧
    setFrequencyOffset (setFrequencyOffset s z) z = setFrequencyOffset s z ∧
    setCenterFrequency (setCenterFrequency s z) z = setCenterFrequency s z ∧
    chainSetAudioCompression ((chainSetAudioCompression s str).1) str =
      ((chainSetAudioCompression s str).1, none) ∧
    setNrEnabled (setNrEnabled s b) b = setNrEnabled s b ∧
    setNrThreshold (setNrThreshold s z) z = setNrThreshold s z ∧
    setSquelchLevel (setSquelchLevel s q) q = setSquelchLevel s q ∧
    setOutputRate ((setOutputRate s n).1) n = ((setOutputRate s n).1, none) ∧
    setHdOutputRate ((setHdOutputRate s n).1) n = ((setHdOutputRate s n).1, none) ∧
    chainSetSampleRate (chainSetSampleRate s n) n = chainSetSampleRate s n ∧
    setPowerWriter (setPowerWriter s n) n = setPowerWriter s n ∧
    chainSetMetaWriter (chainSetMetaWriter s n) n = chainSetMetaWriter s n ∧
    chainSetSecondaryFftWriter (chainSetSecondaryFftWriter s n) n =
      chainSetSecondaryFftWriter s n ∧
    chainSetSecondaryWriter (chainSetSecondaryWriter s n) n = chainSetSecondaryWriter s n ∧
    setSlotFilter (setSlotFilter s z) z = setSlotFilter s z ∧
    setAudioServiceId (setAudioServiceId s z) z = setAudioServiceId s z ∧
    setSecondaryFftSize ((setSecondaryFftSize s n).1) n = ((setSecondaryFftSize s n).1, none) ∧
    setSecondaryFrequencyOffset (setSecondaryFrequencyOffset s z) z =
      setSecondaryFrequencyOffset s z ∧
    setSecondaryFftCompression ((setSecondaryFftCompression s str).1) str =
      ((setSecondaryFftCompression s str).1, false) ∧
    setSecondaryFftOverlapFactor (setSecondaryFftOverlapFactor s q) q =
      setSecondaryFftOverlapFactor s q ∧
    setSecondaryFftFps (setSecondaryFftFps s n) n = setSecondaryFftFps s n ∧
    setWfmDeemphasisTau (setWfmDeemphasisTau s q) q = setWfmDeemphasisTau s q ∧
    setRdsRbds (setRdsRbds s b) b = setRdsRbds s b :=
  ⟨idem_chainSetDemodulator s d, idem_chainSetSecondaryDemodulator s d2,
   idem_setLowCut s oq, idem_setHighCut s oq, idem_setBandpass s lo hi,
   idem_setFrequencyOffset s z, idem_setCenterFrequency s z,
   idem_chainSetAudioCompression s str, idem_setNrEnabled s b,
   idem_setNrThreshold s z, idem_setSquelchLevel s q, idem_setOutputRate s n,
   idem_setHdOutputRate s n, idem_chainSetSampleRate s n, idem_setPowerWriter s n,
   idem_chainSetMetaWriter s n, idem_chainSetSecondaryFftWriter s n,
   idem_chainSetSecondaryWriter s n, idem_setSlotFilter s z,
   idem_setAudioServiceId s z, idem_setSecondaryFftSize s n,
   idem_setSecondaryFrequencyOffset s z, idem_setSecondaryFftCompression s str,
   idem_setSecondaryFftOverlapFactor s q, idem_setSecondaryFftFps s n,
   idem_setWfmDeemphasisTau s q, idem_setRdsRbds s b⟩

theorem getSelectorOutputRate_secondary_none (u : ChainState) (e : PyErr)
    (h : u.secondaryDemodulator = none) : getSelectorOutputRate u ≠ Except.error e := by
  unfold getSelectorOutputRate secondaryFixedAudio primaryFixedIf primaryIsHd
  rw [h]
  dsimp only
  repeat' split
  all_goals simp

theorem chainSetSecondaryDemodulator_none_noerr (t : ChainState) :
    (chainSetSecondaryDemodulator t none).2 = none := by
  unfold chainSetSecondaryDemodulator
  split
  · rfl
  · dsimp only
    split
    · next e heq => exact absurd heq (getSelectorOutputRate_secondary_none _ e rfl)
    · rfl

theorem stopDemodulator_noerr (s : ChainState) : (stopDemodulator s).2 = none := by
  unfold stopDemodulator
  split
  · rfl
  · exact chainSetSecondaryDemodulator_none_noerr _

theorem squelchSynced_congr {s t : ChainState}
    (h1 : t.selector.squelchLevel = s.selector.squelchLevel)
    (h2 : t.squelchLevel = s.squelchLevel)
    (h3 : t.demodulator = s.demodulator)
    (h4 : t.secondaryDemodulator = s.secondaryDemodulator)
    (h : squelchSynced s) : squelchSynced t := by
  unfold squelchSynced squelchForcedOff at *
  rw [h1, h2, h3, h4]
  exact h

theorem syncSquelch_establishes (s : ChainState) : squelchSynced (syncSquelch s) := by
  unfold squelchSynced
  rw [syncSquelch_selector_squelchLevel]
  have h1 : squelchForcedOff (syncSquelch s) = squelchForcedOff s := by
    unfold squelchForcedOff
    rw [syncSquelch_demodulator, syncSquelch_secondaryDemodulator]
  rw [h1, syncSquelch_squelchLevel]

theorem secondaryTail_synced (s7 : ChainState) (d : Option Demod2) (r r2 : Nat)
    (h : squelchSynced s7) :
    squelchSynced ((manageSecondaryFft
      ((wireSecondary (rebuildSecondarySelector s7 d r) d r).1) d r2).1) := by
  refine squelchSynced_congr ?_ ?_ ?_ ?_ h
  · have hm := manageSecondaryFft_selector
      ((wireSecondary (rebuildSecondarySelector s7 d r) d r).1) d r2
    rw [hm, wireSecondary_selector, rebuildSecondarySelector_selector]
  · rw [manageSecondaryFft_squelchLevel, wireSecondary_squelchLevel,
        rebuildSecondarySelector_squelchLevel]
  · rw [manageSecondaryFft_demodulator, wireSecondary_demodulator,
        rebuildSecondarySelector_demodulator]
  · rw [manageSecondaryFft_secondaryDemodulator, wireSecondary_secondaryDemodulator,
        rebuildSecondarySelector_secondaryDemodulator]

theorem chainSetSecondaryDemodulator_synced (s : ChainState) (d : Option Demod2)
    (s1 : ChainState) (hres : chainSetSecondaryDemodulator s d = (s1, none))
    (hne : s.secondaryDemodulator ≠ d) : squelchSynced s1 := by
  unfold chainSetSecondaryDemodulator at hres
  rw [if_neg hne] at hres
  dsimp only at hres
  split at hres
  · simp at hres
  · split at hres
    · simp at hres
    · have h1 : s1 = (manageSecondaryFft _ d _).1 := congrArg Prod.fst hres.symm
      rw [h1]
      exact secondaryTail_synced _ d _ _ (syncSquelch_establishes _)

theorem chainSetDemodulator_synced (s : ChainState) (d : Demod)
    (s1 : ChainState) (hres : chainSetDemodulator s d = (s1, none))
    (hne : s.demodulator ≠ some d) : squelchSynced s1 := by
  unfold chainSetDemodulator at hres
  rw [if_neg hne] at hres
  dsimp only at hres
  split at hres
  · simp at hres
  · have h1 : s1 = finishSetDemodulator _ d _ := (congrArg Prod.fst hres).symm
    rw [h1]
    exact squelchSynced_congr
      (congrArg SelectorState.squelchLevel (finishSetDemodulator_selector _ d _))
      (finishSetDemodulator_squelchLevel _ d _)
      (finishSetDemodulator_demodulator _ d _)
      (finishSetDemodulator_secondaryDemodulator _ d _)
      (syncSquelch_establishes _)

theorem setSquelchLevel_synced (s : ChainState) (lvl : ℚ) (h : lvl ≠ s.squelchLevel) :
    squelchSynced (setSquelchLevel s lvl) := by
  unfold setSquelchLevel
  rw [if_neg h]
  exact syncSquelch_establishes _

theorem chainSetSecondary_none_synced (t : ChainState)
    (hne : t.secondaryDemodulator ≠ none) :
    squelchSynced ((chainSetSecondaryDemodulator t none).1) := by
  have hform : chainSetSecondaryDemodulator t none =
      ((chainSetSecondaryDemodulator t none).1, none) :=
    Prod.ext_iff.mpr ⟨rfl, chainSetSecondaryDemodulator_none_noerr t⟩
  exact chainSetSecondaryDemodulator_synced t none _ hform hne

theorem stopDemodulator_synced (s : ChainState) (h1 : s.demodulator.isSome)
    (h2 : s.secondaryDemodulator.isSome) : squelchSynced ((stopDemodulator s).1) := by
  unfold stopDemodulator
  cases hd : s.demodulator with
  | none => rw [hd] at h1; simp at h1
  | some old =>
    dsimp only
    apply chainSetSecondary_none_synced
    show (replace1 s old.outputFormat true).secondaryDemodulator ≠ none
    rw [replace1_secondaryDemodulator]
    exact Option.isSome_iff_ne_none.mp h2

theorem replace1_stage1Format_eq (s : ChainState) (fmt : SFormat) (dum : Bool) :
    (replace1 s fmt dum).stage1Format = fmt := by
  obtain ⟨ab, sr, ni, h⟩ := replace1_frame s fmt dum
  rw [h]

theorem replace1_stage1IsDummy_eq (s : ChainState) (fmt : SFormat) (dum : Bool) :
    (replace1 s fmt dum).stage1IsDummy = dum := by
  obtain ⟨ab, sr, ni, h⟩ := replace1_frame s fmt dum
  rw [h]

theorem chainSetSecondaryDemodulator_stage1Format (s : ChainState) (d : Option Demod2) :
    ((chainSetSecondaryDemodulator s d).1).stage1Format = s.stage1Format := by
  unfold chainSetSecondaryDemodulator
  split
  · rfl
  · dsimp only
    split
    · exact adoptSecondary_stage1Format s _
    · repeat' split
      all_goals simp only [manageSecondaryFft_stage1Format, wireSecondary_stage1Format,
        rebuildSecondarySelector_stage1Format, syncSquelch_stage1Format, updateDialFrequency_stage1Format,
        applySecondaryRates_stage1Format, adoptSecondary_stage1Format]

theorem chainSetSecondaryDemodulator_stage1IsDummy (s : ChainState) (d : Option Demod2) :
    ((chainSetSecondaryDemodulator s d).1).stage1IsDummy = s.stage1IsDummy := by
  unfold chainSetSecondaryDemodulator
  split
  · rfl
  · dsimp only
    split
    · exact adoptSecondary_stage1IsDummy s _
    · repeat' split
      all_goals simp only [manageSecondaryFft_stage1IsDummy, wireSecondary_stage1IsDummy,
        rebuildSecondarySelector_stage1IsDummy, syncSquelch_stage1IsDummy, updateDialFrequency_stage1IsDummy,
        applySecondaryRates_stage1IsDummy, adoptSecondary_stage1IsDummy]

theorem chainSetSecondaryDemodulator_demodulator (s : ChainState) (d : Option Demod2) :
    ((chainSetSecondaryDemodulator s d).1).demodulator = s.demodulator := by
  unfold chainSetSecondaryDemodulator
  split
  · rfl
  · dsimp only
    split
    · exact adoptSecondary_demodulator s _
    · repeat' split
      all_goals simp only [manageSecondaryFft_demodulator, wireSecondary_demodulator,
        rebuildSecondarySelector_demodulator, syncSquelch_demodulator, updateDialFrequency_demodulator,
        applySecondaryRates_demodulator, adoptSecondary_demodulator]

theorem chainSetSecondaryDemodulator_stoppedPrimaries (s : ChainState) (d : Option Demod2) :
    ((chainSetSecondaryDemodulator s d).1).stoppedPrimaries = s.stoppedPrimaries := by
  unfold chainSetSecondaryDemodulator
  split
  · rfl
  · dsimp only
    split
    · exact adoptSecondary_stoppedPrimaries s _
    · repeat' split
      all_goals simp only [manageSecondaryFft_stoppedPrimaries, wireSecondary_stoppedPrimaries,
        rebuildSecondarySelector_stoppedPrimaries, syncSquelch_stoppedPrimaries, updateDialFrequency_stoppedPrimaries,
        applySecondaryRates_stoppedPrimaries, adoptSecondary_stoppedPrimaries]

theorem chainSetSecondaryDemodulator_cacFormat (s : ChainState) (d : Option Demod2) :
    ((chainSetSecondaryDemodulator s d).1).clientAudioChain.format =
      s.clientAudioChain.format := by
  unfold chainSetSecondaryDemodulator
  split
  · rfl
  · dsimp only
    split
    · exact congrArg ClientAudioState.format (adoptSecondary_clientAudioChain s _)
    · repeat' split
      all_goals simp only [manageSecondaryFft_clientAudioChain, wireSecondary_clientAudioChain,
        rebuildSecondarySelector_clientAudioChain, syncSquelch_clientAudioChain,
        updateDialFrequency_clientAudioChain,
        applySecondaryRates_cacFormat, adoptSecondary_clientAudioChain]

theorem updateDemodulatorOutputRate_selectorBuffer (s : ChainState) (r : Nat) :
    ((updateDemodulatorOutputRate s r).1).selectorBuffer = s.selectorBuffer := by
  unfold updateDemodulatorOutputRate
  dsimp only
  repeat' split
  all_goals rfl

theorem chainSetDemodulator_selbuf (s : ChainState) (d : Demod) :
    ((chainSetDemodulator s d).1).selectorBuffer = s.selectorBuffer := by
  unfold chainSetDemodulator
  split
  · rfl
  · dsimp only
    split
    · split <;> rfl
    · repeat' split
      all_goals simp only [syncSquelch_selectorBuffer, updateDialFrequency_selectorBuffer, createSecondaryFftChain_selectorBuffer, updateDemodulatorOutputRate_selectorBuffer, finishSetDemodulator_selectorBuffer, rebuildSecondarySelector_selectorBuffer, wireSecondary_selectorBuffer, manageSecondaryFft_selectorBuffer, applyFftRate_selectorBuffer, replace1_selectorBuffer]

theorem chainSetSecondaryDemodulator_selbuf (s : ChainState) (d2 : Option Demod2) :
    ((chainSetSecondaryDemodulator s d2).1).selectorBuffer = s.selectorBuffer := by
  unfold chainSetSecondaryDemodulator
  split
  · rfl
  · dsimp only
    split
    · exact adoptSecondary_selectorBuffer s _
    · repeat' split
      all_goals simp only [adoptSecondary_selectorBuffer, applySecondaryRates_selectorBuffer,
        syncSquelch_selectorBuffer, updateDialFrequency_selectorBuffer, createSecondaryFftChain_selectorBuffer, updateDemodulatorOutputRate_selectorBuffer, finishSetDemodulator_selectorBuffer, rebuildSecondarySelector_selectorBuffer, wireSecondary_selectorBuffer, manageSecondaryFft_selectorBuffer, applyFftRate_selectorBuffer, replace1_selectorBuffer]

theorem stopDemodulator_selbuf (s : ChainState) :
    ((stopDemodulator s).1).selectorBuffer = s.selectorBuffer := by
  unfold stopDemodulator
  split
  · rfl
  · rw [chainSetSecondaryDemodulator_selbuf]
    exact replace1_selectorBuffer _ _ _

theorem setLowCut_selbuf (s : ChainState) (oq : Option ℚ) :
    (setLowCut s oq).selectorBuffer = s.selectorBuffer := by
  unfold setLowCut
  try dsimp only
  repeat' split
  all_goals simp only [syncSquelch_selectorBuffer, updateDialFrequency_selectorBuffer, createSecondaryFftChain_selectorBuffer, updateDemodulatorOutputRate_selectorBuffer, finishSetDemodulator_selectorBuffer, rebuildSecondarySelector_selectorBuffer, wireSecondary_selectorBuffer, manageSecondaryFft_selectorBuffer, applyFftRate_selectorBuffer, replace1_selectorBuffer]

theorem setHighCut_selbuf (s : ChainState) (oq : Option ℚ) :
    (setHighCut s oq).selectorBuffer = s.selectorBuffer := by
  unfold setHighCut
  try dsimp only
  repeat' split
  all_goals simp only [syncSquelch_selectorBuffer, updateDialFrequency_selectorBuffer, createSecondaryFftChain_selectorBuffer, updateDemodulatorOutputRate_selectorBuffer, finishSetDemodulator_selectorBuffer, rebuildSecondarySelector_selectorBuffer, wireSecondary_selectorBuffer, manageSecondaryFft_selectorBuffer, applyFftRate_selectorBuffer, replace1_selectorBuffer]

theorem setBandpass_selbuf (s : ChainState) (lo hi : Option ℚ) :
    (setBandpass s lo hi).selectorBuffer = s.selectorBuffer := by
  unfold setBandpass
  try dsimp only
  repeat' split
  all_goals simp only [syncSquelch_selectorBuffer, updateDialFrequency_selectorBuffer, createSecondaryFftChain_selectorBuffer, updateDemodulatorOutputRate_selectorBuffer, finishSetDemodulator_selectorBuffer, rebuildSecondarySelector_selectorBuffer, wireSecondary_selectorBuffer, manageSecondaryFft_selectorBuffer, applyFftRate_selectorBuffer, replace1_selectorBuffer]

theorem setFrequencyOffset_selbuf (s : ChainState) (z : ℤ) :
    (setFrequencyOffset s z).selectorBuffer = s.selectorBuffer := by
  unfold setFrequencyOffset
  try dsimp only
  repeat' split
  all_goals simp only [syncSquelch_selectorBuffer, updateDialFrequency_selectorBuffer, createSecondaryFftChain_selectorBuffer, updateDemodulatorOutputRate_selectorBuffer, finishSetDemodulator_selectorBuffer, rebuildSecondarySelector_selectorBuffer, wireSecondary_selectorBuffer, manageSecondaryFft_selectorBuffer, applyFftRate_selectorBuffer, replace1_selectorBuffer]

theorem setCenterFrequency_selbuf (s : ChainState) (z : ℤ) :
    (setCenterFrequency s z).selectorBuffer = s.selectorBuffer := by
  unfold setCenterFrequency
  try dsimp only
  repeat' split
  all_goals simp only [syncSquelch_selectorBuffer, updateDialFrequency_selectorBuffer, createSecondaryFftChain_selectorBuffer, updateDemodulatorOutputRate_selectorBuffer, finishSetDemodulator_selectorBuffer, rebuildSecondarySelector_selectorBuffer, wireSecondary_selectorBuffer, manageSecondaryFft_selectorBuffer, applyFftRate_selectorBuffer, replace1_selectorBuffer]

theorem chainSetAudioCompression_selbuf (s : ChainState) (c : String) :
    ((chainSetAudioCompression s c).1).selectorBuffer = s.selectorBuffer := by
  unfold chainSetAudioCompression
  try dsimp only
  repeat' split
  all_goals simp only [syncSquelch_selectorBuffer, updateDialFrequency_selectorBuffer, createSecondaryFftChain_selectorBuffer, updateDemodulatorOutputRate_selectorBuffer, finishSetDemodulator_selectorBuffer, rebuildSecondarySelector_selectorBuffer, wireSecondary_selectorBuffer, manageSecondaryFft_selectorBuffer, applyFftRate_selectorBuffer, replace1_selectorBuffer]

theorem setNrEnabled_selbuf (s : ChainState) (b : Bool) :
    (setNrEnabled s b).selectorBuffer = s.selectorBuffer := by
  unfold setNrEnabled
  try dsimp only
  repeat' split
  all_goals simp only [syncSquelch_selectorBuffer, updateDialFrequency_selectorBuffer, createSecondaryFftChain_selectorBuffer, updateDemodulatorOutputRate_selectorBuffer, finishSetDemodulator_selectorBuffer, rebuildSecondarySelector_selectorBuffer, wireSecondary_selectorBuffer, manageSecondaryFft_selectorBuffer, applyFftRate_selectorBuffer, replace1_selectorBuffer]

theorem setNrThreshold_selbuf (s : ChainState) (z : ℤ) :
    (setNrThreshold s z).selectorBuffer = s.selectorBuffer := by
  unfold setNrThreshold
  try dsimp only
  repeat' split
  all_goals simp only [syncSquelch_selectorBuffer, updateDialFrequency_selectorBuffer, createSecondaryFftChain_selectorBuffer, updateDemodulatorOutputRate_selectorBuffer, finishSetDemodulator_selectorBuffer, rebuildSecondarySelector_selectorBuffer, wireSecondary_selectorBuffer, manageSecondaryFft_selectorBuffer, applyFftRate_selectorBuffer, replace1_selectorBuffer]

theorem setSquelchLevel_selbuf (s : ChainState) (q : ℚ) :
    (setSquelchLevel s q).selectorBuffer = s.selectorBuffer := by
  unfold setSquelchLevel
  try dsimp only
  repeat' split
  all_goals simp only [syncSquelch_selectorBuffer, updateDialFrequency_selectorBuffer, createSecondaryFftChain_selectorBuffer, updateDemodulatorOutputRate_selectorBuffer, finishSetDemodulator_selectorBuffer, rebuildSecondarySelector_selectorBuffer, wireSecondary_selectorBuffer, manageSecondaryFft_selectorBuffer, applyFftRate_selectorBuffer, replace1_selectorBuffer]

theorem setOutputRate_selbuf (s : ChainState) (n : Nat) :
    ((setOutputRate s n).1).selectorBuffer = s.selectorBuffer := by
  unfold setOutputRate
  split
  · rfl
  · dsimp only
    split
    · rfl
    · rw [updateDemodulatorOutputRate_selectorBuffer]

theorem setHdOutputRate_selbuf (s : ChainState) (n : Nat) :
    ((setHdOutputRate s n).1).selectorBuffer = s.selectorBuffer := by
  unfold setHdOutputRate
  split
  · rfl
  · dsimp only
    split
    · rfl
    · rw [updateDemodulatorOutputRate_selectorBuffer]

theorem chainSetSampleRate_selbuf (s : ChainState) (n : Nat) :
    (chainSetSampleRate s n).selectorBuffer = s.selectorBuffer := by
  unfold chainSetSampleRate
  try dsimp only
  repeat' split
  all_goals simp only [syncSquelch_selectorBuffer, updateDialFrequency_selectorBuffer, createSecondaryFftChain_selectorBuffer, updateDemodulatorOutputRate_selectorBuffer, finishSetDemodulator_selectorBuffer, rebuildSecondarySelector_selectorBuffer, wireSecondary_selectorBuffer, manageSecondaryFft_selectorBuffer, applyFftRate_selectorBuffer, replace1_selectorBuffer]

theorem setPowerWriter_selbuf (s : ChainState) (n : Nat) :
    (setPowerWriter s n).selectorBuffer = s.selectorBuffer := by
  unfold setPowerWriter
  try dsimp only
  repeat' split
  all_goals simp only [syncSquelch_selectorBuffer, updateDialFrequency_selectorBuffer, createSecondaryFftChain_selectorBuffer, updateDemodulatorOutputRate_selectorBuffer, finishSetDemodulator_selectorBuffer, rebuildSecondarySelector_selectorBuffer, wireSecondary_selectorBuffer, manageSecondaryFft_selectorBuffer, applyFftRate_selectorBuffer, replace1_selectorBuffer]

theorem chainSetMetaWriter_selbuf (s : ChainState) (n : Nat) :
    (chainSetMetaWriter s n).selectorBuffer = s.selectorBuffer := by
  unfold chainSetMetaWriter
  try dsimp only
  repeat' split
  all_goals simp only [syncSquelch_selectorBuffer, updateDialFrequency_selectorBuffer, createSecondaryFftChain_selectorBuffer, updateDemodulatorOutputRate_selectorBuffer, finishSetDemodulator_selectorBuffer, rebuildSecondarySelector_selectorBuffer, wireSecondary_selectorBuffer, manageSecondaryFft_selectorBuffer, applyFftRate_selectorBuffer, replace1_selectorBuffer]

theorem chainSetSecondaryFftWriter_selbuf (s : ChainState) (n : Nat) :
    (chainSetSecondaryFftWriter s n).selectorBuffer = s.selectorBuffer := by
  unfold chainSetSecondaryFftWriter
  try dsimp only
  repeat' split
  all_goals simp only [syncSquelch_selectorBuffer, updateDialFrequency_selectorBuffer, createSecondaryFftChain_selectorBuffer, updateDemodulatorOutputRate_selectorBuffer, finishSetDemodulator_selectorBuffer, rebuildSecondarySelector_selectorBuffer, wireSecondary_selectorBuffer, manageSecondaryFft_selectorBuffer, applyFftRate_selectorBuffer, replace1_selectorBuffer]

theorem chainSetSecondaryWriter_selbuf (s : ChainState) (n : Nat) :
    (chainSetSecondaryWriter s n).selectorBuffer = s.selectorBuffer := by
  unfold chainSetSecondaryWriter
  try dsimp only
  repeat' split
  all_goals simp only [syncSquelch_selectorBuffer, updateDialFrequency_selectorBuffer, createSecondaryFftChain_selectorBuffer, updateDemodulatorOutputRate_selectorBuffer, finishSetDemodulator_selectorBuffer, rebuildSecondarySelector_selectorBuffer, wireSecondary_selectorBuffer, manageSecondaryFft_selectorBuffer, applyFftRate_selectorBuffer, replace1_selectorBuffer]

theorem setSlotFilter_selbuf (s : ChainState) (z : ℤ) :
    (setSlotFilter s z).selectorBuffer = s.selectorBuffer := by
  unfold setSlotFilter
  try dsimp only
  repeat' split
  all_goals simp only [syncSquelch_selectorBuffer, updateDialFrequency_selectorBuffer, createSecondaryFftChain_selectorBuffer, updateDemodulatorOutputRate_selectorBuffer, finishSetDemodulator_selectorBuffer, rebuildSecondarySelector_selectorBuffer, wireSecondary_selectorBuffer, manageSecondaryFft_selectorBuffer, applyFftRate_selectorBuffer, replace1_selectorBuffer]

theorem setAudioServiceId_selbuf (s : ChainState) (z : ℤ) :
    (setAudioServiceId s z).selectorBuffer = s.selectorBuffer := by
  unfold setAudioServiceId
  try dsimp only
  repeat' split
  all_goals simp only [syncSquelch_selectorBuffer, updateDialFrequency_selectorBuffer, createSecondaryFftChain_selectorBuffer, updateDemodulatorOutputRate_selectorBuffer, finishSetDemodulator_selectorBuffer, rebuildSecondarySelector_selectorBuffer, wireSecondary_selectorBuffer, manageSecondaryFft_selectorBuffer, applyFftRate_selectorBuffer, replace1_selectorBuffer]

theorem setSecondaryFftSize_selbuf (s : ChainState) (n : Nat) :
    ((setSecondaryFftSize s n).1).selectorBuffer = s.selectorBuffer := by
  unfold setSecondaryFftSize
  try dsimp only
  repeat' split
  all_goals simp only [syncSquelch_selectorBuffer, updateDialFrequency_selectorBuffer, createSecondaryFftChain_selectorBuffer, updateDemodulatorOutputRate_selectorBuffer, finishSetDemodulator_selectorBuffer, rebuildSecondarySelector_selectorBuffer, wireSecondary_selectorBuffer, manageSecondaryFft_selectorBuffer, applyFftRate_selectorBuffer, replace1_selectorBuffer]

theorem setSecondaryFrequencyOffset_selbuf (s : ChainState) (z : ℤ) :
    (setSecondaryFrequencyOffset s z).selectorBuffer = s.selectorBuffer := by
  unfold setSecondaryFrequencyOffset
  try dsimp only
  repeat' split
  all_goals simp only [syncSquelch_selectorBuffer, updateDialFrequency_selectorBuffer, createSecondaryFftChain_selectorBuffer, updateDemodulatorOutputRate_selectorBuffer, finishSetDemodulator_selectorBuffer, rebuildSecondarySelector_selectorBuffer, wireSecondary_selectorBuffer, manageSecondaryFft_selectorBuffer, applyFftRate_selectorBuffer, replace1_selectorBuffer]

theorem setSecondaryFftCompression_selbuf (s : ChainState) (c : String) :
    ((setSecondaryFftCompression s c).1).selectorBuffer = s.selectorBuffer := by
  unfold setSecondaryFftCompression
  try dsimp only
  repeat' split
  all_goals simp only [syncSquelch_selectorBuffer, updateDialFrequency_selectorBuffer, createSecondaryFftChain_selectorBuffer, updateDemodulatorOutputRate_selectorBuffer, finishSetDemodulator_selectorBuffer, rebuildSecondarySelector_selectorBuffer, wireSecondary_selectorBuffer, manageSecondaryFft_selectorBuffer, applyFftRate_selectorBuffer, replace1_selectorBuffer]

theorem setSecondaryFftOverlapFactor_selbuf (s : ChainState) (q : ℚ) :
    (setSecondaryFftOverlapFactor s q).selectorBuffer = s.selectorBuffer := by
  unfold setSecondaryFftOverlapFactor
  try dsimp only
  repeat' split
  all_goals simp only [syncSquelch_selectorBuffer, updateDialFrequency_selectorBuffer, createSecondaryFftChain_selectorBuffer, updateDemodulatorOutputRate_selectorBuffer, finishSetDemodulator_selectorBuffer, rebuildSecondarySelector_selectorBuffer, wireSecondary_selectorBuffer, manageSecondaryFft_selectorBuffer, applyFftRate_selectorBuffer, replace1_selectorBuffer]

theorem setSecondaryFftFps_selbuf (s : ChainState) (n : Nat) :
    (setSecondaryFftFps s n).selectorBuffer = s.selectorBuffer := by
  unfold setSecondaryFftFps
  try dsimp only
  repeat' split
  all_goals simp only [syncSquelch_selectorBuffer, updateDialFrequency_selectorBuffer, createSecondaryFftChain_selectorBuffer, updateDemodulatorOutputRate_selectorBuffer, finishSetDemodulator_selectorBuffer, rebuildSecondarySelector_selectorBuffer, wireSecondary_selectorBuffer, manageSecondaryFft_selectorBuffer, applyFftRate_selectorBuffer, replace1_selectorBuffer]

theorem setWfmDeemphasisTau_selbuf (s : ChainState) (q : ℚ) :
    (setWfmDeemphasisTau s q).selectorBuffer = s.selectorBuffer := by
  unfold setWfmDeemphasisTau
  try dsimp only
  repeat' split
  all_goals simp only [syncSquelch_selectorBuffer, updateDialFrequency_selectorBuffer, createSecondaryFftChain_selectorBuffer, updateDemodulatorOutputRate_selectorBuffer, finishSetDemodulator_selectorBuffer, rebuildSecondarySelector_selectorBuffer, wireSecondary_selectorBuffer, manageSecondaryFft_selectorBuffer, applyFftRate_selectorBuffer, replace1_selectorBuffer]

theorem setRdsRbds_selbuf (s : ChainState) (b : Bool) :
    (setRdsRbds s b).selectorBuffer = s.selectorBuffer := by
  unfold setRdsRbds
  try dsimp only
  repeat' split
  all_goals simp only [syncSquelch_selectorBuffer, updateDialFrequency_selectorBuffer, createSecondaryFftChain_selectorBuffer, updateDemodulatorOutputRate_selectorBuffer, finishSetDemodulator_selectorBuffer, rebuildSecondarySelector_selectorBuffer, wireSecondary_selectorBuffer, manageSecondaryFft_selectorBuffer, applyFftRate_selectorBuffer, replace1_selectorBuffer]

/-- C2: after every squelch re-synchronization — performed by setDemodulator
and setSecondaryDemodulator (when they actually swap the demodulator and
complete without raising), by stopDemodulator (when both a primary and a
secondary are present, so that clearing the secondary re-synchronizes),
and by setSquelchLevel (when the level actually changes) — the Selector's
squelch level is -150 dBFS whenever a present primary or secondary
demodulator does not support squelch, and the user's stored squelch_level
otherwise. -/
theorem squelch_resync_invariant (s : ChainState) (d : Demod) (d2 : Option Demod2)
    (lvl : ℚ) (s1 s2 : ChainState) :
    (chainSetDemodulator s d = (s1, none) → s.demodulator ≠ some d → squelchSynced s1) ∧
    (chainSetSecondaryDemodulator s d2 = (s2, none) → s.secondaryDemodulator ≠ d2 →
      squelchSynced s2) ∧
    (s.demodulator.isSome → s.secondaryDemodulator.isSome →
      squelchSynced ((stopDemodulator s).1)) ∧
    (lvl ≠ s.squelchLevel → squelchSynced (setSquelchLevel s lvl)) :=
  ⟨fun hres hne => chainSetDemodulator_synced s d s1 hres hne,
   fun hres hne => chainSetSecondaryDemodulator_synced s d2 s2 hres hne,
   fun h1 h2 => stopDemodulator_synced s h1 h2,
   fun h => setSquelchLevel_synced s lvl h⟩

/-- Witness for C2 at concrete states and demodulators. -/
theorem squelch_resync_invariant_witness :
    squelchSynced ((chainSetDemodulator sampleChain wfmDemod).1) ∧
    squelchSynced ((chainSetSecondaryDemodulator sampleChain (some audioChopperDemod2)).1) ∧
    squelchSynced ((stopDemodulator
      { sampleChain with secondaryDemodulator := some audioChopperDemod2 }).1) ∧
    squelchSynced (setSquelchLevel sampleChain (-70)) := by
  refine ⟨?_, ?_, ?_, ?_⟩
  · exact (squelch_resync_invariant sampleChain wfmDemod none 0
      ((chainSetDemodulator sampleChain wfmDemod).1) sampleChain).1 rfl (by decide)
  · exact (squelch_resync_invariant sampleChain wfmDemod (some audioChopperDemod2) 0
      sampleChain ((chainSetSecondaryDemodulator sampleChain (some audioChopperDemod2)).1)).2.1
      rfl (by decide)
  · exact (squelch_resync_invariant
      { sampleChain with secondaryDemodulator := some audioChopperDemod2 }
      wfmDemod none 0 sampleChain sampleChain).2.2.1 (by decide) (by decide)
  · exact (squelch_resync_invariant sampleChain wfmDemod none (-70)
      sampleChain sampleChain).2.2.2 (by decide)

/-- C6: stopDemodulator with a primary present replaces stage 1 of the
backbone with a dummy whose output format equals the old primary's (so the
ClientAudioChain's input format is unchanged), stops the old primary,
clears both the primary reference and the secondary demodulator, and
raises nothing; with no primary present it changes nothing. -/
theorem stop_demodulator_effect (s : ChainState) (old : Demod) :
    (s.demodulator = none → stopDemodulator s = (s, none)) ∧
    (s.demodulator = some old →
      ((stopDemodulator s).1.stage1IsDummy = true ∧
       (stopDemodulator s).1.stage1Format = old.outputFormat ∧
       (stopDemodulator s).1.clientAudioChain.format = s.clientAudioChain.format ∧
       (stopDemodulator s).1.demodulator = none ∧
       (stopDemodulator s).1.secondaryDemodulator = none ∧
       old ∈ (stopDemodulator s).1.stoppedPrimaries ∧
       (stopDemodulator s).2 = none)) := by
  constructor
  · intro h
    unfold stopDemodulator
    rw [h]
  · intro h
    have hstop : (stopDemodulator s).1 =
        (chainSetSecondaryDemodulator
          { replace1 s old.outputFormat true with
            stoppedPrimaries := (replace1 s old.outputFormat true).stoppedPrimaries ++ [old],
            demodulator := none } none).1 := by
      unfold stopDemodulator
      rw [h]
    refine ⟨?_, ?_, ?_, ?_, ?_, ?_, stopDemodulator_noerr s⟩
    · rw [hstop, chainSetSecondaryDemodulator_stage1IsDummy]
      show (replace1 s old.outputFormat true).stage1IsDummy = true
      exact replace1_stage1IsDummy_eq s old.outputFormat true
    · rw [hstop, chainSetSecondaryDemodulator_stage1Format]
      show (replace1 s old.outputFormat true).stage1Format = old.outputFormat
      exact replace1_stage1Format_eq s old.outputFormat true
    · rw [hstop, chainSetSecondaryDemodulator_cacFormat]
      show (replace1 s old.outputFormat true).clientAudioChain.format =
        s.clientAudioChain.format
      rw [replace1_clientAudioChain]
    · rw [hstop, chainSetSecondaryDemodulator_demodulator]
    · rw [hstop, chainSetSecondaryDemodulator_secondary]
    · rw [hstop, chainSetSecondaryDemodulator_stoppedPrimaries]
      show old ∈ (replace1 s old.outputFormat true).stoppedPrimaries ++ [old]
      simp

/-- Witness for C6 at the sample chain state, whose primary is the default
NFM demodulator. -/
theorem stop_demodulator_effect_witness :
    (stopDemodulator sampleChain).1.stage1IsDummy = true ∧
    (stopDemodulator sampleChain).1.stage1Format = analogDemod.outputFormat ∧
    (stopDemodulator sampleChain).1.demodulator = none ∧
    (stopDemodulator sampleChain).1.secondaryDemodulator = none := by
  have h := (stop_demodulator_effect sampleChain analogDemod).2 (by decide)
  exact ⟨h.1, h.2.1, h.2.2.2.1, h.2.2.2.2.1⟩

theorem connectAudio_fresh (s : ChainState) (fmt : SFormat)
    (h : s.audioBuffer = none ∨ ∃ bu, s.audioBuffer = some bu ∧ bu.format ≠ fmt) :
    (connectStage1ToClientAudio s fmt).audioBuffer = some ⟨s.nextBufferId, fmt⟩ ∧
    (connectStage1ToClientAudio s fmt).nextBufferId = s.nextBufferId + 1 ∧
    (∀ dd, s.secondaryDemodulator = some dd → dd.inputFormat ≠ SFormat.complexFloat →
      (connectStage1ToClientAudio s fmt).secondaryReader = some s.nextBufferId) ∧
    (∀ dd, s.secondaryDemodulator = some dd → dd.inputFormat = SFormat.complexFloat →
      (connectStage1ToClientAudio s fmt).secondaryReader = s.secondaryReader) := by
  have hneed : connectStage1ToClientAudio s fmt =
      (match s.secondaryDemodulator with
       | some d2 =>
         if d2.inputFormat ≠ SFormat.complexFloat then
           { s with audioBuffer := some ⟨s.nextBufferId, fmt⟩,
                    nextBufferId := s.nextBufferId + 1,
                    secondaryReader := some s.nextBufferId }
         else
           { s with audioBuffer := some ⟨s.nextBufferId, fmt⟩,
                    nextBufferId := s.nextBufferId + 1 }
       | none =>
         { s with audioBuffer := some ⟨s.nextBufferId, fmt⟩,
                  nextBufferId := s.nextBufferId + 1 }) := by
    unfold connectStage1ToClientAudio
    rcases h with h | ⟨bu, hb, hne⟩
    · rw [h]
      dsimp only
      cases s.secondaryDemodulator with
      | none => rfl
      | some d2 => split <;> simp_all
    · rw [hb]
      dsimp only
      rw [if_pos (by simpa using hne)]
  rw [hneed]
  cases hd : s.secondaryDemodulator with
  | none =>
    refine ⟨rfl, rfl, ?_, ?_⟩ <;> intro dd hdd <;> simp [hd] at hdd
  | some dd0 =>
    dsimp only
    refine ⟨by split <;> rfl, by split <;> rfl, ?_, ?_⟩
    · intro dd hdd hni
      injection hdd with hdd
      subst hdd
      rw [if_pos hni]
    · intro dd hdd hi
      injection hdd with hdd
      subst hdd
      rw [if_neg (by simp [hi])]

theorem connectAudio_keep (s : ChainState) (fmt : SFormat)
    (h : ∃ bu, s.audioBuffer = some bu ∧ bu.format = fmt) :
    connectStage1ToClientAudio s fmt = s := by
  obtain ⟨bu, hb, hf⟩ := h
  unfold connectStage1ToClientAudio
  rw [hb]
  dsimp only
  rw [if_neg (by simp [hf])]

/-- C9: connecting the primary demodulator to the ClientAudioChain
allocates a fresh audio buffer of the producing worker's output format
exactly when that format differs from the current audio buffer's (or no
audio buffer exists), rebinding an audio-consuming secondary demodulator
(input format not ComplexFloat) to a reader on the new buffer while an
IQ-consuming one keeps its reader; with a matching format nothing changes.
The Selector-side connection always routes through the fixed selector
buffer, and no chain operation ever replaces that buffer. -/
theorem audio_buffer_realloc_and_fixed_selector_buffer (s : ChainState) (fmt : SFormat)
    (d : Demod) (d2 : Option Demod2) (q : ℚ) (oq lo hi : Option ℚ) (z : ℤ) (n : Nat)
    (b : Bool) (str : String) :
    ((s.audioBuffer = none ∨ ∃ bu, s.audioBuffer = some bu ∧ bu.format ≠ fmt) →
      ((connectStage1ToClientAudio s fmt).audioBuffer = some ⟨s.nextBufferId, fmt⟩ ∧
       (connectStage1ToClientAudio s fmt).nextBufferId = s.nextBufferId + 1 ∧
       (∀ dd, s.secondaryDemodulator = some dd → dd.inputFormat ≠ SFormat.complexFloat →
         (connectStage1ToClientAudio s fmt).secondaryReader = some s.nextBufferId) ∧
       (∀ dd, s.secondaryDemodulator = some dd → dd.inputFormat = SFormat.complexFloat →
         (connectStage1ToClientAudio s fmt).secondaryReader = s.secondaryReader))) ∧
    ((∃ bu, s.audioBuffer = some bu ∧ bu.format = fmt) →
      connectStage1ToClientAudio s fmt = s) ∧
    (connectSelectorToStage1 s).stage1Reader = s.selectorBuffer ∧
    ((chainSetDemodulator s d).1.selectorBuffer = s.selectorBuffer ∧
     (chainSetSecondaryDemodulator s d2).1.selectorBuffer = s.selectorBuffer ∧
     (stopDemodulator s).1.selectorBuffer = s.selectorBuffer ∧
     (setLowCut s oq).selectorBuffer = s.selectorBuffer ∧
     (setHighCut s oq).selectorBuffer = s.selectorBuffer ∧
     (setBandpass s lo hi).selectorBuffer = s.selectorBuffer ∧
     (setFrequencyOffset s z).selectorBuffer = s.selectorBuffer ∧
     (setCenterFrequency s z).selectorBuffer = s.selectorBuffer ∧
     (chainSetAudioCompression s str).1.selectorBuffer = s.selectorBuffer ∧
     (setNrEnabled s b).selectorBuffer = s.selectorBuffer ∧
     (setNrThreshold s z).selectorBuffer = s.selectorBuffer ∧
     (setSquelchLevel s q).selectorBuffer = s.selectorBuffer ∧
     (setOutputRate s n).1.selectorBuffer = s.selectorBuffer ∧
     (setHdOutputRate s n).1.selectorBuffer = s.selectorBuffer ∧
     (chainSetSampleRate s n).selectorBuffer = s.selectorBuffer ∧
     (setPowerWriter s n).selectorBuffer = s.selectorBuffer ∧
     (chainSetMetaWriter s n).selectorBuffer = s.selectorBuffer ∧
     (chainSetSecondaryFftWriter s n).selectorBuffer = s.selectorBuffer ∧
     (chainSetSecondaryWriter s n).selectorBuffer = s.selectorBuffer ∧
     (setSlotFilter s z).selectorBuffer = s.selectorBuffer ∧
     (setAudioServiceId s z).selectorBuffer = s.selectorBuffer ∧
     (setSecondaryFftSize s n).1.selectorBuffer = s.selectorBuffer ∧
     (setSecondaryFrequencyOffset s z).selectorBuffer = s.selectorBuffer ∧
     (setSecondaryFftCompression s str).1.selectorBuffer = s.selectorBuffer ∧
     (setSecondaryFftOverlapFactor s q).selectorBuffer = s.selectorBuffer ∧
     (setSecondaryFftFps s n).selectorBuffer = s.selectorBuffer ∧
     (setWfmDeemphasisTau s q).selectorBuffer = s.selectorBuffer ∧
     (setRdsRbds s b).selectorBuffer = s.selectorBuffer) :=
  ⟨fun h => connectAudio_fresh s fmt h,
   fun h => connectAudio_keep s fmt h,
   rfl,
   chainSetDemodulator_selbuf s d, chainSetSecondaryDemodulator_selbuf s d2,
   stopDemodulator_selbuf s, setLowCut_selbuf s oq, setHighCut_selbuf s oq,
   setBandpass_selbuf s lo hi, setFrequencyOffset_selbuf s z,
   setCenterFrequency_selbuf s z, chainSetAudioCompression_selbuf s str,
   setNrEnabled_selbuf s b, setNrThreshold_selbuf s z, setSquelchLevel_selbuf s q,
   setOutputRate_selbuf s n, setHdOutputRate_selbuf s n, chainSetSampleRate_selbuf s n,
   setPowerWriter_selbuf s n, chainSetMetaWriter_selbuf s n,
   chainSetSecondaryFftWriter_selbuf s n, chainSetSecondaryWriter_selbuf s n,
   setSlotFilter_selbuf s z, setAudioServiceId_selbuf s z,
   setSecondaryFftSize_selbuf s n, setSecondaryFrequencyOffset_selbuf s z,
   setSecondaryFftCompression_selbuf s str, setSecondaryFftOverlapFactor_selbuf s q,
   setSecondaryFftFps_selbuf s n, setWfmDeemphasisTau_selbuf s q, setRdsRbds_selbuf s b⟩

/-- Witness for C9: at the sample chain (audio buffer of float format),
connecting a short-format producer allocates buffer 2 and a float-format
producer changes nothing. -/
theorem audio_buffer_realloc_witness :
    (connectStage1ToClientAudio sampleChain SFormat.short).audioBuffer =
      some ⟨2, SFormat.short⟩ ∧
    connectStage1ToClientAudio sampleChain SFormat.float = sampleChain := by
  have h := audio_buffer_realloc_and_fixed_selector_buffer sampleChain SFormat.short
    analogDemod none 0 none none none 0 0 false ""
  have h2 := audio_buffer_realloc_and_fixed_selector_buffer sampleChain SFormat.float
    analogDemod none 0 none none none 0 0 false ""
  exact ⟨(h.1 (Or.inr ⟨⟨1, SFormat.float⟩, rfl, by decide⟩)).1,
         h2.2.1 ⟨⟨1, SFormat.float⟩, rfl, rfl⟩⟩

theorem manageSecondaryFft_drop (s : ChainState) (d : Option Demod2) (r : Nat)
    (h : fftRequested d = false) :
    (manageSecondaryFft s d r).2 = none ∧
    (manageSecondaryFft s d r).1.secondaryFftChain = none ∧
    (∀ f, s.secondaryFftChain = some f →
      f ∈ (manageSecondaryFft s d r).1.stoppedFftChains) ∧
    (s.secondaryFftChain = none → (manageSecondaryFft s d r).1 = s) := by
  unfold manageSecondaryFft
  rw [h]
  dsimp only
  cases hf : s.secondaryFftChain with
  | some f =>
    refine ⟨rfl, ?_, ?_, ?_⟩
    · simp [applyFftRate]
    · intro f0 hf0
      injection hf0 with hf0
      subst hf0
      simp [applyFftRate]
    · intro hn
      exact absurd hn (by simp)
  | none =>
    refine ⟨rfl, ?_, ?_, ?_⟩
    · simp [applyFftRate, hf]
    · intro f0 hf0
      exact absurd hf0 (by simp)
    · intro hn
      simp [applyFftRate, hf]

theorem manageSecondaryFft_keep (s : ChainState) (d : Option Demod2) (r : Nat) (f : FftChainState)
    (hreq : fftRequested d = true) (hf : s.secondaryFftChain = some f) :
    manageSecondaryFft s d r =
      ({ s with secondaryFftChain := some { f with sampleRate := r },
                events := s.events ++ [DspEvent.secondaryDspRateChange r] }, none) := by
  unfold manageSecondaryFft
  rw [hreq]
  dsimp only
  rw [if_neg (by simp [hf])]
  simp [applyFftRate, hf]

theorem manageSecondaryFft_build (s : ChainState) (d : Option Demod2) (r r0 : Nat)
    (hreq : fftRequested d = true) (hf : s.secondaryFftChain = none)
    (hr : getSelectorOutputRate s = Except.ok r0) :
    manageSecondaryFft s d r =
      ({ s with
          secondaryFftChain := some
            { sampleRate := r, size := s.secondaryFftSize,
              overlapFactor := s.secondaryFftOverlapFactor, fps := s.secondaryFftFps,
              compression := s.secondaryFftCompression,
              reader := some s.selectorBuffer, writer := s.secondaryFftWriter },
          events := s.events ++ [DspEvent.secondaryDspRateChange r] }, none) := by
  unfold manageSecondaryFft createSecondaryFftChain
  simp [hreq, hf, hr, applyFftRate]

theorem getSelectorOutputRate_congr {u v : ChainState}
    (h1 : u.demodulator = v.demodulator)
    (h2 : u.secondaryDemodulator = v.secondaryDemodulator)
    (h3 : u.hdOutputRate = v.hdOutputRate) (h4 : u.outputRate = v.outputRate) :
    getSelectorOutputRate u = getSelectorOutputRate v := by
  unfold getSelectorOutputRate primaryFixedIf primaryFixedAudio secondaryFixedAudio primaryIsHd
  rw [h1, h2, h3, h4]

theorem wiredPhase_secondaryFftChain (u : ChainState) (d : Option Demod2) (r : Nat) :
    ((wireSecondary (rebuildSecondarySelector (syncSquelch (updateDialFrequency
      (applySecondaryRates (adoptSecondary u d) r))) d r) d r).1).secondaryFftChain =
      u.secondaryFftChain := by
  simp only [wireSecondary_secondaryFftChain, rebuildSecondarySelector_secondaryFftChain,
    syncSquelch_secondaryFftChain, updateDialFrequency_secondaryFftChain,
    applySecondaryRates_secondaryFftChain, adoptSecondary_secondaryFftChain]

theorem wiredPhase_secondaryFftSize (u : ChainState) (d : Option Demod2) (r : Nat) :
    ((wireSecondary (rebuildSecondarySelector (syncSquelch (updateDialFrequency
      (applySecondaryRates (adoptSecondary u d) r))) d r) d r).1).secondaryFftSize =
      u.secondaryFftSize := by
  simp only [wireSecondary_secondaryFftSize, rebuildSecondarySelector_secondaryFftSize,
    syncSquelch_secondaryFftSize, updateDialFrequency_secondaryFftSize,
    applySecondaryRates_secondaryFftSize, adoptSecondary_secondaryFftSize]

theorem updateDialFrequency_secondaryFftOverlapFactor (s : ChainState) :
    (updateDialFrequency s).secondaryFftOverlapFactor = s.secondaryFftOverlapFactor := by
  obtain ⟨p, q, h⟩ := updateDialFrequency_frame s
  rw [h]

theorem updateDialFrequency_secondaryFftFps (s : ChainState) :
    (updateDialFrequency s).secondaryFftFps = s.secondaryFftFps := by
  obtain ⟨p, q, h⟩ := updateDialFrequency_frame s
  rw [h]

theorem updateDialFrequency_secondaryFftCompression (s : ChainState) :
    (updateDialFrequency s).secondaryFftCompression = s.secondaryFftCompression := by
  obtain ⟨p, q, h⟩ := updateDialFrequency_frame s
  rw [h]

theorem syncSquelch_secondaryFftOverlapFactor (s : ChainState) :
    (syncSquelch s).secondaryFftOverlapFactor = s.secondaryFftOverlapFactor := by
  obtain ⟨q, h⟩ := syncSquelch_frame s
  rw [h]

theorem syncSquelch_secondaryFftFps (s : ChainState) :
    (syncSquelch s).secondaryFftFps = s.secondaryFftFps := by
  obtain ⟨q, h⟩ := syncSquelch_frame s
  rw [h]

theorem syncSquelch_secondaryFftCompression (s : ChainState) :
    (syncSquelch s).secondaryFftCompression = s.secondaryFftCompression := by
  obtain ⟨q, h⟩ := syncSquelch_frame s
  rw [h]

theorem wiredPhase_secondaryFftOverlapFactor (u : ChainState) (d : Option Demod2) (r : Nat) :
    ((wireSecondary (rebuildSecondarySelector (syncSquelch (updateDialFrequency
      (applySecondaryRates (adoptSecondary u d) r))) d r) d r).1).secondaryFftOverlapFactor =
      u.secondaryFftOverlapFactor := by
  simp only [wireSecondary_secondaryFftOverlapFactor, rebuildSecondarySelector_secondaryFftOverlapFactor,
    syncSquelch_secondaryFftOverlapFactor, updateDialFrequency_secondaryFftOverlapFactor,
    applySecondaryRates_secondaryFftOverlapFactor, adoptSecondary_secondaryFftOverlapFactor]

theorem wiredPhase_secondaryFftFps (u : ChainState) (d : Option Demod2) (r : Nat) :
    ((wireSecondary (rebuildSecondarySelector (syncSquelch (updateDialFrequency
      (applySecondaryRates (adoptSecondary u d) r))) d r) d r).1).secondaryFftFps =
      u.secondaryFftFps := by
  simp only [wireSecondary_secondaryFftFps, rebuildSecondarySelector_secondaryFftFps,
    syncSquelch_secondaryFftFps, updateDialFrequency_secondaryFftFps,
    applySecondaryRates_secondaryFftFps, adoptSecondary_secondaryFftFps]

theorem wiredPhase_secondaryFftCompression (u : ChainState) (d : Option Demod2) (r : Nat) :
    ((wireSecondary (rebuildSecondarySelector (syncSquelch (updateDialFrequency
      (applySecondaryRates (adoptSecondary u d) r))) d r) d r).1).secondaryFftCompression =
      u.secondaryFftCompression := by
  simp only [wireSecondary_secondaryFftCompression, rebuildSecondarySelector_secondaryFftCompression,
    syncSquelch_secondaryFftCompression, updateDialFrequency_secondaryFftCompression,
    applySecondaryRates_secondaryFftCompression, adoptSecondary_secondaryFftCompression]

theorem wiredPhase_selectorBuffer (u : ChainState) (d : Option Demod2) (r : Nat) :
    ((wireSecondary (rebuildSecondarySelector (syncSquelch (updateDialFrequency
      (applySecondaryRates (adoptSecondary u d) r))) d r) d r).1).selectorBuffer =
      u.selectorBuffer := by
  simp only [wireSecondary_selectorBuffer, rebuildSecondarySelector_selectorBuffer,
    syncSquelch_selectorBuffer, updateDialFrequency_selectorBuffer,
    applySecondaryRates_selectorBuffer, adoptSecondary_selectorBuffer]

theorem wiredPhase_secondaryFftWriter (u : ChainState) (d : Option Demod2) (r : Nat) :
    ((wireSecondary (rebuildSecondarySelector (syncSquelch (updateDialFrequency
      (applySecondaryRates (adoptSecondary u d) r))) d r) d r).1).secondaryFftWriter =
      u.secondaryFftWriter := by
  simp only [wireSecondary_secondaryFftWriter, rebuildSecondarySelector_secondaryFftWriter,
    syncSquelch_secondaryFftWriter, updateDialFrequency_secondaryFftWriter,
    applySecondaryRates_secondaryFftWriter, adoptSecondary_secondaryFftWriter]

theorem wiredPhase_stoppedFftChains (u : ChainState) (d : Option Demod2) (r : Nat) :
    ((wireSecondary (rebuildSecondarySelector (syncSquelch (updateDialFrequency
      (applySecondaryRates (adoptSecondary u d) r))) d r) d r).1).stoppedFftChains =
      u.stoppedFftChains := by
  simp only [wireSecondary_stoppedFftChains, rebuildSecondarySelector_stoppedFftChains,
    syncSquelch_stoppedFftChains, updateDialFrequency_stoppedFftChains,
    applySecondaryRates_stoppedFftChains, adoptSecondary_stoppedFftChains]

theorem wiredPhase_selector_outputRate (u : ChainState) (d : Option Demod2) (r : Nat) :
    ((wireSecondary (rebuildSecondarySelector (syncSquelch (updateDialFrequency
      (applySecondaryRates (adoptSecondary u d) r))) d r) d r).1).selector.outputRate = r := by
  simp only [wireSecondary_selector, rebuildSecondarySelector_selector,
    syncSquelch_selector_outputRate, updateDialFrequency_selector,
    applySecondaryRates_selector_eq]

theorem wiredPhase_rate (u : ChainState) (d : Option Demod2) (r : Nat) :
    getSelectorOutputRate ((wireSecondary (rebuildSecondarySelector (syncSquelch
      (updateDialFrequency (applySecondaryRates (adoptSecondary u d) r))) d r) d r).1) =
      getSelectorOutputRate (adoptSecondary u d) := by
  refine getSelectorOutputRate_congr ?_ ?_ ?_ ?_
  · simp only [wireSecondary_demodulator, rebuildSecondarySelector_demodulator,
      syncSquelch_demodulator, updateDialFrequency_demodulator,
      applySecondaryRates_demodulator]
  · simp only [wireSecondary_secondaryDemodulator, rebuildSecondarySelector_secondaryDemodulator,
      syncSquelch_secondaryDemodulator, updateDialFrequency_secondaryDemodulator,
      applySecondaryRates_secondaryDemodulator]
  · simp only [wireSecondary_hdOutputRate, rebuildSecondarySelector_hdOutputRate,
      syncSquelch_hdOutputRate, updateDialFrequency_hdOutputRate,
      applySecondaryRates_hdOutputRate]
  · simp only [wireSecondary_outputRate, rebuildSecondarySelector_outputRate,
      syncSquelch_outputRate, updateDialFrequency_outputRate,
      applySecondaryRates_outputRate]

/-- C4: when setSecondaryDemodulator actually swaps the secondary and
completes without raising: if the new secondary does not request a
secondary FFT (and the primary never carries that capability), any
existing FFT chain is dropped (after being stopped); if it requests one
and none existed, a fresh chain is built from the current size, overlap
factor, fps and compression settings, reading from the selector buffer and
writing to the secondary FFT writer; and whenever an FFT chain exists
afterwards, it runs at the new selector output rate and
onSecondaryDspRateChange was published last with that rate. -/
theorem secondary_fft_management (s : ChainState) (d : Option Demod2) (s1 : ChainState)
    (hres : chainSetSecondaryDemodulator s d = (s1, none))
    (hne : s.secondaryDemodulator ≠ d) :
    (fftRequested d = false →
      s1.secondaryFftChain = none ∧
      (∀ f, s.secondaryFftChain = some f → f ∈ s1.stoppedFftChains)) ∧
    (fftRequested d = true → s.secondaryFftChain = none →
      s1.secondaryFftChain = some
        { sampleRate := s1.selector.outputRate, size := s.secondaryFftSize,
          overlapFactor := s.secondaryFftOverlapFactor, fps := s.secondaryFftFps,
          compression := s.secondaryFftCompression,
          reader := some s.selectorBuffer, writer := s.secondaryFftWriter }) ∧
    (∀ f, s1.secondaryFftChain = some f →
      f.sampleRate = s1.selector.outputRate ∧
      s1.events.getLast? = some (DspEvent.secondaryDspRateChange s1.selector.outputRate)) := by
  unfold chainSetSecondaryDemodulator at hres
  rw [if_neg hne] at hres
  dsimp only at hres
  split at hres
  · simp at hres
  · split at hres
    · simp at hres
    · rename_i rate heq e2 heq2
      have hs1 : s1 = (manageSecondaryFft _ d rate).1 := (congrArg Prod.fst hres).symm
      subst hs1
      refine ⟨?_, ?_, ?_⟩
      · intro hreq
        constructor
        · exact (manageSecondaryFft_drop _ d rate hreq).2.1
        · intro f hf
          exact (manageSecondaryFft_drop _ d rate hreq).2.2.1 f
            ((wiredPhase_secondaryFftChain s d rate).trans hf)
      · intro hreq hnone
        have hr := (wiredPhase_rate s d rate).trans heq
        have hbuild := manageSecondaryFft_build _ d rate rate hreq
          ((wiredPhase_secondaryFftChain s d rate).trans hnone) hr
        rw [hbuild]
        dsimp only
        rw [wiredPhase_selector_outputRate, wiredPhase_secondaryFftSize,
          wiredPhase_secondaryFftOverlapFactor, wiredPhase_secondaryFftFps,
          wiredPhase_secondaryFftCompression, wiredPhase_selectorBuffer,
          wiredPhase_secondaryFftWriter]
      · intro f hf
        cases hreq : fftRequested d with
        | false =>
          rw [(manageSecondaryFft_drop _ d rate hreq).2.1] at hf
          simp at hf
        | true =>
          cases hsf : s.secondaryFftChain with
          | some f0 =>
            have hkeep := manageSecondaryFft_keep _ d rate f0 hreq
              ((wiredPhase_secondaryFftChain s d rate).trans hsf)
            rw [hkeep] at hf ⊢
            dsimp only at hf ⊢
            injection hf with hf
            subst hf
            rw [wiredPhase_selector_outputRate]
            exact ⟨rfl, by simp⟩
          | none =>
            have hr := (wiredPhase_rate s d rate).trans heq
            have hbuild := manageSecondaryFft_build _ d rate rate hreq
              ((wiredPhase_secondaryFftChain s d rate).trans hsf) hr
            rw [hbuild] at hf ⊢
            dsimp only at hf ⊢
            injection hf with hf
            subst hf
            rw [wiredPhase_selector_outputRate]
            exact ⟨rfl, by simp⟩

/-- Witness for C4: installing an FT8-style secondary on the sample chain
builds a secondary FFT chain at the new selector output rate. -/
theorem secondary_fft_management_witness :
    (chainSetSecondaryDemodulator sampleChain (some audioChopperDemod2)).1.secondaryFftChain =
      some { sampleRate :=
               (chainSetSecondaryDemodulator sampleChain
                 (some audioChopperDemod2)).1.selector.outputRate,
             size := sampleChain.secondaryFftSize,
             overlapFactor := sampleChain.secondaryFftOverlapFactor,
             fps := sampleChain.secondaryFftFps,
             compression := sampleChain.secondaryFftCompression,
             reader := some sampleChain.selectorBuffer,
             writer := sampleChain.secondaryFftWriter } := by
  have h := secondary_fft_management sampleChain (some audioChopperDemod2)
    ((chainSetSecondaryDemodulator sampleChain (some audioChopperDemod2)).1) rfl (by decide)
  exact h.2.1 rfl rfl

/-- C10: for every secondary mode token that does not resolve to a known
secondary demodulator, DspManager.setSecondaryDemodulator installs None —
clearing any current secondary demodulator — raises nothing, and writes
nothing to the handler: unknown secondary modes are silently treated as
"no secondary". -/
theorem unknown_secondary_mode_clears (m : MState) (mod : String)
    (h : getSecondaryDemodulatorByToken mod = none) :
    (dspSetSecondaryDemodulator m mod).2 = none ∧
    (dspSetSecondaryDemodulator m mod).1.chain.secondaryDemodulator = none ∧
    (dspSetSecondaryDemodulator m mod).1.log = m.log := by
  unfold dspSetSecondaryDemodulator
  rw [h]
  dsimp only
  exact ⟨chainSetSecondaryDemodulator_none_noerr m.chain,
         chainSetSecondaryDemodulator_secondary m.chain none, rfl⟩

/-- Witness for C10: the token "foobar" is not a recognized secondary mode,
and installing it on the sample manager clears the secondary without any
error or handler message. -/
theorem unknown_secondary_mode_clears_witness :
    getSecondaryDemodulatorByToken "foobar" = none ∧
    ((dspSetSecondaryDemodulator sampleManager "foobar").2 = none ∧
     (dspSetSecondaryDemodulator sampleManager "foobar").1.chain.secondaryDemodulator = none ∧
     (dspSetSecondaryDemodulator sampleManager "foobar").1.log = sampleManager.log) :=
  ⟨by decide, unknown_secondary_mode_clears sampleManager "foobar" (by decide)⟩

theorem stopDemodulator_demodulator (s : ChainState) :
    ((stopDemodulator s).1).demodulator = none := by
  unfold stopDemodulator
  split
  · next h => exact h
  · dsimp only
    rw [chainSetSecondaryDemodulator_demodulator]

/-- Counterexample for C3: the unknown mode token "foo" makes
DspManager.setDemodulator raise a ValueError that escapes to the caller —
no demodulator_error is written and the previous primary demodulator does
not keep running — because line 643's ValueError is not a DemodulatorError
and the previous demodulators were already stopped on line 638. -/
theorem unknown_mode_not_reported :
    getDemodulatorByToken "foo" = none ∧
    unknownModeHandled sampleManager "foo" = false := by
  exact ⟨by decide, by decide⟩

/-- C3 (amended): when DspManager.setDemodulator is called with a mode
token that does not resolve to a demodulator, the ValueError raised by
_getDemodulator escapes to the caller — only DemodulatorError is caught
and reported via write_demodulator_error — and, because both demodulators
were stopped before the token was resolved, the session is left with no
primary demodulator rather than the previous mode; nothing is written to
the handler. -/
theorem unknown_mode_error_escapes (m : MState) (mod : String)
    (h : getDemodulatorByToken mod = none) :
    (dspSetDemodulator m mod).2 = some PyErr.valueErr ∧
    (dspSetDemodulator m mod).1.chain = (stopDemodulator m.chain).1 ∧
    (dspSetDemodulator m mod).1.chain.demodulator = none ∧
    (dspSetDemodulator m mod).1.log = m.log := by
  unfold dspSetDemodulator dspSetDemodulatorTry
  dsimp only
  rw [stopDemodulator_noerr m.chain, h]
  exact ⟨rfl, rfl, stopDemodulator_demodulator m.chain, rfl⟩

/-- Witness for C3: the unknown token "foo" on the sample manager escapes
with a ValueError, leaving the chain stopped and the log untouched. -/
theorem unknown_mode_error_escapes_witness :
    getDemodulatorByToken "foo" = none ∧
    ((dspSetDemodulator sampleManager "foo").2 = some PyErr.valueErr ∧
     (dspSetDemodulator sampleManager "foo").1.chain = (stopDemodulator sampleManager.chain).1 ∧
     (dspSetDemodulator sampleManager "foo").1.chain.demodulator = none ∧
     (dspSetDemodulator sampleManager "foo").1.log = sampleManager.log) :=
  ⟨by decide, unknown_mode_error_escapes sampleManager "foo" (by decide)⟩

theorem truthy_extra_value (sel : Bool) (so : Option ℤ) (dial : ℤ) :
    (if sel && truthyInt so then dial + so.getD 0 else dial) =
      dial + (if sel && so.isSome then so.getD 0 else 0) := by
  cases sel with
  | false => simp [truthyInt]
  | true =>
    cases so with
    | none => simp [truthyInt]
    | some v =>
      by_cases hv : v = 0
      · simp [truthyInt, hv]
      · simp [truthyInt, hv]

theorem updateDialFrequency_unknown (s : ChainState)
    (h : s.centerFrequency = none ∨ s.frequencyOffset = none) :
    updateDialFrequency s = s := by
  unfold updateDialFrequency
  split
  · rename_i c o hc ho
    rcases h with h | h <;> simp_all
  · rfl

theorem udf_primary_on (s : ChainState) (c o : ℤ) (hc : s.centerFrequency = some c)
    (ho : s.frequencyOffset = some o) (hp : primaryIsDialReceiver s = true) :
    (updateDialFrequency s).primaryDialFrequency = some (c + o) := by
  unfold updateDialFrequency
  rw [hc, ho]
  dsimp only
  rw [if_pos hp]
  split <;> rfl

theorem udf_primary_off (s : ChainState) (c o : ℤ) (hc : s.centerFrequency = some c)
    (ho : s.frequencyOffset = some o) (hp : primaryIsDialReceiver s = false) :
    (updateDialFrequency s).primaryDialFrequency = s.primaryDialFrequency := by
  unfold updateDialFrequency
  rw [hc, ho]
  dsimp only
  rw [hp, if_neg Bool.false_ne_true]
  split <;> rfl

theorem udf_primary_ite (s : ChainState) (c o : ℤ) (hc : s.centerFrequency = some c)
    (ho : s.frequencyOffset = some o) :
    (updateDialFrequency s).primaryDialFrequency =
      (if primaryIsDialReceiver s then some (c + o) else s.primaryDialFrequency) := by
  rcases Bool.eq_false_or_eq_true (primaryIsDialReceiver s) with h | h
  · rw [h, if_pos rfl]
    exact udf_primary_on s c o hc ho h
  · rw [h, if_neg Bool.false_ne_true]
    exact udf_primary_off s c o hc ho h

theorem udf_secondary_on (s : ChainState) (c o : ℤ) (hc : s.centerFrequency = some c)
    (ho : s.frequencyOffset = some o) (hs : secondaryIsDialReceiver s = true) :
    (updateDialFrequency s).secondaryDialFrequency = some (c + o + claimDialExtra s) := by
  unfold updateDialFrequency
  rw [hc, ho]
  dsimp only
  by_cases hp : primaryIsDialReceiver s = true
  · rw [if_pos hp]
    split
    · dsimp only
      rw [truthy_extra_value]
      rfl
    · rename_i h2
      exact absurd hs h2
  · rw [if_neg hp]
    split
    · dsimp only
      rw [truthy_extra_value]
      rfl
    · rename_i h2
      exact absurd hs h2

theorem udf_secondary_off (s : ChainState) (c o : ℤ) (hc : s.centerFrequency = some c)
    (ho : s.frequencyOffset = some o) (hs : secondaryIsDialReceiver s = false) :
    (updateDialFrequency s).secondaryDialFrequency = s.secondaryDialFrequency := by
  unfold updateDialFrequency
  rw [hc, ho]
  dsimp only
  by_cases hp : primaryIsDialReceiver s = true
  · rw [if_pos hp]
    split
    · rename_i h2
      have h2' : secondaryIsDialReceiver s = true := h2
      rw [hs] at h2'
      exact absurd h2' Bool.false_ne_true
    · rfl
  · rw [if_neg hp]
    split
    · rename_i h2
      have h2' : secondaryIsDialReceiver s = true := h2
      rw [hs] at h2'
      exact absurd h2' Bool.false_ne_true
    · rfl

theorem secondaryIsDialReceiver_of_some (t : ChainState) (dd : Demod2)
    (h : t.secondaryDemodulator = some dd) :
    secondaryIsDialReceiver t = dd.dialFrequencyReceiver := by
  unfold secondaryIsDialReceiver
  rw [h]

/-- Counterexample for C5: installing a sub-carrier secondary demodulator on
the tuned sample chain succeeds, yet the secondary dial frequency it
observes (center + offset = 110) does not include the secondary frequency
offset even though the resulting state has both a secondary selector and a
secondary offset (the spec formula expects 115): the push on dsp.py line 183
runs before the secondary selector is rebuilt on lines 186-193, so the
sub-offset decision sees the stale, pre-call selector. -/
theorem dial_formula_stale_selector :
    (chainSetSecondaryDemodulator dialSampleChain (some subCarrierDemod2)).2 = none ∧
    dialObservedCorrectly
      ((chainSetSecondaryDemodulator dialSampleChain (some subCarrierDemod2)).1) = false := by
  exact ⟨by decide, by decide⟩

/-- C5 (amended): after any change to center frequency, frequency offset,
secondary frequency offset, or the demodulators, every stage implementing
DialFrequencyReceiver observes dial = center_frequency + frequency_offset,
and no push happens while center frequency or frequency offset is still
unknown. The secondary demodulator's dial additionally carries the
secondary frequency offset exactly when both a secondary selector and a
secondary offset are present — except on setSecondaryDemodulator itself,
where the push on dsp.py line 183 precedes the selector rebuild of lines
186-193, so the sub-offset is decided by the PRE-call secondary selector
(claimDialExtra s, not of the resulting state). A secondary offset of 0
contributes 0 either way (Python truthiness), which is value-equal to the
spec's presence-based formula. -/
theorem dial_frequency_formula_amended (s : ChainState) (z c o : ℤ) (d : Demod)
    (d2 : Option Demod2) :
    ((s.centerFrequency = none ∨ s.frequencyOffset = none) →
      updateDialFrequency s = s) ∧
    (s.centerFrequency = some c → some z ≠ s.frequencyOffset →
      (primaryIsDialReceiver s →
        (setFrequencyOffset s z).primaryDialFrequency = some (c + z)) ∧
      (secondaryIsDialReceiver s →
        (setFrequencyOffset s z).secondaryDialFrequency = some (c + z + claimDialExtra s))) ∧
    (s.frequencyOffset = some o → some z ≠ s.centerFrequency →
      (primaryIsDialReceiver s →
        (setCenterFrequency s z).primaryDialFrequency = some (z + o)) ∧
      (secondaryIsDialReceiver s →
        (setCenterFrequency s z).secondaryDialFrequency = some (z + o + claimDialExtra s))) ∧
    (s.centerFrequency = some c → s.frequencyOffset = some o →
     s.secondaryFrequencyOffset ≠ some z →
      (primaryIsDialReceiver s →
        (setSecondaryFrequencyOffset s z).primaryDialFrequency = some (c + o)) ∧
      (secondaryIsDialReceiver s →
        (setSecondaryFrequencyOffset s z).secondaryDialFrequency =
          some (c + o + if s.secondarySelector.isSome then z else 0))) ∧
    (∀ s1, chainSetDemodulator s d = (s1, none) → s.demodulator ≠ some d →
     s.centerFrequency = some c → s.frequencyOffset = some o →
      s1.primaryDialFrequency = (if d.dialFrequencyReceiver then some (c + o) else none) ∧
      (secondaryIsDialReceiver s →
        s1.secondaryDialFrequency = some (c + o + claimDialExtra s))) ∧
    (∀ s2, chainSetSecondaryDemodulator s d2 = (s2, none) →
     s.secondaryDemodulator ≠ d2 →
     s.centerFrequency = some c → s.frequencyOffset = some o →
      (primaryIsDialReceiver s → s2.primaryDialFrequency = some (c + o)) ∧
      (∀ dd, d2 = some dd → dd.dialFrequencyReceiver →
        s2.secondaryDialFrequency = some (c + o + claimDialExtra s)) ∧
      (d2 = none → s2.secondaryDialFrequency = none)) := by
  refine ⟨fun h => updateDialFrequency_unknown s h, ?_, ?_, ?_, ?_, ?_⟩
  · intro hc hne
    unfold setFrequencyOffset
    rw [if_neg hne]
    dsimp only
    exact ⟨fun hp => udf_primary_on _ c z hc rfl hp,
           fun hs => udf_secondary_on _ c z hc rfl hs⟩
  · intro ho hne
    unfold setCenterFrequency
    rw [if_neg hne]
    exact ⟨fun hp => udf_primary_on _ z o rfl ho hp,
           fun hs => udf_secondary_on _ z o rfl ho hs⟩
  · intro hc ho hne
    unfold setSecondaryFrequencyOffset
    rw [if_neg hne]
    dsimp only
    split
    · rename_i sel hsel
      have hsel' : s.secondarySelector = some sel := hsel
      refine ⟨fun hp => udf_primary_on _ c o hc ho hp, fun hs => ?_⟩
      refine (udf_secondary_on
        { { s with secondaryFrequencyOffset := some z } with
          secondarySelector := some { sel with frequencyOffset := some z } }
        c o hc ho hs).trans ?_
      simp [claimDialExtra, hsel']
    · rename_i hsel
      have hsel' : s.secondarySelector = none := hsel
      refine ⟨fun hp => udf_primary_on _ c o hc ho hp, fun hs => ?_⟩
      refine (udf_secondary_on { s with secondaryFrequencyOffset := some z }
        c o hc ho hs).trans ?_
      simp [claimDialExtra, hsel']
  · intro s1 hres hd hc ho
    unfold chainSetDemodulator at hres
    rw [if_neg hd] at hres
    dsimp only at hres
    repeat' split at hres
    all_goals try exact absurd (congrArg Prod.snd hres) (Option.some_ne_none _)
    all_goals
      (have h1 : s1 = finishSetDemodulator _ d _ := (congrArg Prod.fst hres).symm;
       subst h1;
       rw [finishSetDemodulator_primaryDialFrequency, syncSquelch_primaryDialFrequency,
           finishSetDemodulator_secondaryDialFrequency, syncSquelch_secondaryDialFrequency];
       exact ⟨udf_primary_ite _ c o hc ho, fun hs => udf_secondary_on _ c o hc ho hs⟩)
  · intro s2 hres hne hc ho
    unfold chainSetSecondaryDemodulator at hres
    rw [if_neg hne] at hres
    dsimp only at hres
    split at hres
    · exact absurd (congrArg Prod.snd hres) (by simp)
    · rename_i rate hrate
      split at hres
      · exact absurd (congrArg Prod.snd hres) (by simp)
      · have h1 : s2 = (manageSecondaryFft _ d2 _).1 := (congrArg Prod.fst hres).symm
        subst h1
        rw [manageSecondaryFft_primaryDialFrequency, wireSecondary_primaryDialFrequency,
            rebuildSecondarySelector_primaryDialFrequency, syncSquelch_primaryDialFrequency,
            manageSecondaryFft_secondaryDialFrequency, wireSecondary_secondaryDialFrequency,
            rebuildSecondarySelector_secondaryDialFrequency, syncSquelch_secondaryDialFrequency]
        have hc5 : (applySecondaryRates (adoptSecondary s d2) rate).centerFrequency = some c := by
          rw [applySecondaryRates_centerFrequency, adoptSecondary_centerFrequency]; exact hc
        have ho5 : (applySecondaryRates (adoptSecondary s d2) rate).frequencyOffset = some o := by
          rw [applySecondaryRates_frequencyOffset, adoptSecondary_frequencyOffset]; exact ho
        have hsd : (applySecondaryRates (adoptSecondary s d2) rate).secondaryDemodulator = d2 := by
          rw [applySecondaryRates_secondaryDemodulator, adoptSecondary_secondaryDemodulator]
        have hextra : claimDialExtra (applySecondaryRates (adoptSecondary s d2) rate) =
            claimDialExtra s := by
          unfold claimDialExtra
          rw [applySecondaryRates_secondarySelector, adoptSecondary_secondarySelector,
              applySecondaryRates_secondaryFrequencyOffset, adoptSecondary_secondaryFrequencyOffset]
        refine ⟨fun hp => ?_, fun dd hdd hr => ?_, fun hnone => ?_⟩
        · refine udf_primary_on _ c o hc5 ho5 ?_
          have hdm : (applySecondaryRates (adoptSecondary s d2) rate).demodulator =
              s.demodulator := by
            rw [applySecondaryRates_demodulator, adoptSecondary_demodulator]
          unfold primaryIsDialReceiver at hp ⊢
          rw [hdm]
          exact hp
        · rw [← hextra]
          refine udf_secondary_on _ c o hc5 ho5 ?_
          rw [secondaryIsDialReceiver_of_some _ dd (hsd.trans hdd)]
          exact hr
        · subst hnone
          have hs0 : secondaryIsDialReceiver
              (applySecondaryRates (adoptSecondary s none) rate) = false := by
            unfold secondaryIsDialReceiver
            rw [applySecondaryRates_secondaryDemodulator, adoptSecondary_secondaryDemodulator]
          rw [udf_secondary_off _ c o hc5 ho5 hs0, applySecondaryRates_secondaryDialFrequency,
              adoptSecondary_secondaryDialFrequency]

/-- Witness for C5 (amended): changing the frequency offset to 7 on the
tuned sample chain with a dial-receiving secondary pushes dial 100 + 7 to
it, and installing the sub-carrier secondary pushes 100 + 10 with the
sub-offset decided by the pre-call (absent) secondary selector. -/
theorem dial_frequency_formula_amended_witness :
    (setFrequencyOffset
        { dialSampleChain with secondaryDemodulator := some audioChopperDemod2 }
        7).secondaryDialFrequency = some 107 ∧
    (chainSetSecondaryDemodulator dialSampleChain
        (some subCarrierDemod2)).1.secondaryDialFrequency = some 110 := by
  constructor
  · have h := (dial_frequency_formula_amended
      { dialSampleChain with secondaryDemodulator := some audioChopperDemod2 }
      7 100 10 analogDemod none).2.1 (by decide) (by decide)
    exact (h.2 (by decide)).trans (by decide)
  · have h := (dial_frequency_formula_amended dialSampleChain 7 100 10 analogDemod
      (some subCarrierDemod2)).2.2.2.2.2
      ((chainSetSecondaryDemodulator dialSampleChain (some subCarrierDemod2)).1)
      rfl (by decide) (by decide) (by decide)
    exact (h.2.1 subCarrierDemod2 rfl (by decide)).trans (by decide)
